import Mathlib

/-!
# KRC website widgets

A shallow embedding of the widget logic in `assets/js/modern-carousel.js`,
`assets/js/mobile-menu.js`, `assets/js/accessibility-toolkit.js`,
`assets/js/notification-banner.js`, `assets/js/new-arrivals.js` and
`assets/js/stats.js`.

DOM nodes are represented by the attributes the scripts read and write.
An element that a `querySelector` may fail to find is an `Option`.
Timers are represented by the handle the host returns and by the number of
one-shot callbacks still waiting to fire.
-/

namespace KRC

/-! ## modern-carousel.js -/

/-- One `.mc-item` slide: the `active` class, the `aria-hidden` attribute and
the text of its `.mc-card-body h2` (empty when there is none). -/
structure Item where
  active : Bool
  ariaHidden : Bool
  heading : String
  deriving DecidableEq, Repr

/-- One `.mc-dot` button: the `active` class and the `aria-pressed` attribute. -/
structure Dot where
  active : Bool
  ariaPressed : Bool
  deriving DecidableEq, Repr

/-- The fields of a `ModernCarousel` instance together with the DOM state it
owns. `prevBtn` and `nextBtn` hold the `disabled` property of the button when
the button exists. `dots` is `none` when there is no `.mc-dots` container.
`timerSeq` is the next handle `setInterval`/`setTimeout` will return (the
handle `0` is the only falsy one) and `pendingResets` counts the 600 ms
callbacks that have not fired yet. -/
structure ModernCarousel where
  items : List Item
  dots : Option (List Dot)
  prevBtn : Option Bool
  nextBtn : Option Bool
  translateX : Int
  ariaLabel : String
  currentIndex : Int
  autoplayDelay : Int
  loop : Bool
  pauseOnHover : Bool
  isAutoPlaying : Bool
  autoplayTimer : Option Nat
  isTransitioning : Bool
  touchStartX : Int
  touchEndX : Int
  timerSeq : Nat
  pendingResets : Nat
  deriving DecidableEq, Repr

/-- How a method call ended: it returned, or a `TypeError` propagated out. -/
inductive Completion where
  | normal
  | typeError
  deriving DecidableEq, Repr

/-- The state a call leaves behind and how it ended. -/
structure Outcome where
  state : ModernCarousel
  completion : Completion
  deriving DecidableEq, Repr

/-- Run the rest of a method body only when the first part returned. -/
def Outcome.andThen (o : Outcome) (k : ModernCarousel → ModernCarousel) : Outcome :=
  match o.completion with
  | Completion.normal => { state := k o.state, completion := Completion.normal }
  | Completion.typeError => o

/-- The `items.forEach` of `updateCarousel`: item `k`, `k+1`, ... get
`active` exactly at `index === currentIndex` and `aria-hidden` elsewhere. -/
def markItems (cur : Int) : Nat → List Item → List Item
  | _, [] => []
  | k, it :: rest =>
    { it with active := decide ((k : Int) = cur), ariaHidden := decide ((k : Int) ≠ cur) }
      :: markItems cur (k + 1) rest

/-- The `dots.forEach` of `updateCarousel`. -/
def markDots (cur : Int) : Nat → List Dot → List Dot
  | _, [] => []
  | k, _ :: rest =>
    { active := decide ((k : Int) = cur), ariaPressed := decide ((k : Int) = cur) }
      :: markDots cur (k + 1) rest

/-- The text `slideContent` of `updateCarousel`: the heading of the slide, or
`Slide k` when the heading is missing or empty. -/
def slideContent (it : Item) (cur : Int) : String :=
  if it.heading = "" then "Slide " ++ toString (cur + 1) else it.heading

/-- The slide `items[currentIndex]`, `none` standing for `undefined`. -/
def currentSlide (c : ModernCarousel) : Option Item :=
  if 0 ≤ c.currentIndex then c.items.get? c.currentIndex.toNat else none

/-- `ModernCarousel.updateCarousel(animate)`. -/
def updateCarousel (c : ModernCarousel) (animate : Bool) : Outcome :=
  if c.isTransitioning && animate then
    { state := c, completion := Completion.normal }
  else
    let c1 : ModernCarousel :=
      { c with
        isTransitioning := true
        translateX := -c.currentIndex * 100
        items := markItems c.currentIndex 0 c.items
        dots := c.dots.map (markDots c.currentIndex 0)
        prevBtn := c.prevBtn.map (fun _ => !c.loop && decide (c.currentIndex = 0))
        nextBtn := c.nextBtn.map
          (fun _ => !c.loop && decide (c.currentIndex = (c.items.length : Int) - 1)) }
    match currentSlide c1 with
    | none => { state := c1, completion := Completion.typeError }
    | some slide =>
      let c2 : ModernCarousel :=
        { c1 with
          ariaLabel := slideContent slide c.currentIndex ++ ". Slide "
            ++ toString (c.currentIndex + 1) ++ " of " ++ toString c.items.length }
      if animate then
        { state := { c2 with timerSeq := c2.timerSeq + 1, pendingResets := c2.pendingResets + 1 },
          completion := Completion.normal }
      else
        { state := { c2 with isTransitioning := false }, completion := Completion.normal }

/-- The callback scheduled by `updateCarousel` with `setTimeout(..., 600)`
fires: one pending callback is consumed and the flag is cleared. -/
def transitionTimeout (c : ModernCarousel) : ModernCarousel :=
  if c.pendingResets = 0 then c
  else { c with pendingResets := c.pendingResets - 1, isTransitioning := false }

/-- `ModernCarousel.startAutoplay()`. -/
def startAutoplay (c : ModernCarousel) : ModernCarousel :=
  if c.autoplayDelay ≤ 0 then c
  else { c with isAutoPlaying := true, autoplayTimer := some c.timerSeq, timerSeq := c.timerSeq + 1 }

/-- `ModernCarousel.pauseAutoplay()`. -/
def pauseAutoplay (c : ModernCarousel) : ModernCarousel :=
  let c1 : ModernCarousel := { c with isAutoPlaying := false }
  match c1.autoplayTimer with
  | none => c1
  | some h => if h = 0 then c1 else { c1 with autoplayTimer := none }

/-- `ModernCarousel.resumeAutoplay()`. -/
def resumeAutoplay (c : ModernCarousel) : ModernCarousel :=
  if !c.isAutoPlaying && decide (c.autoplayDelay > 0) then startAutoplay c else c

/-- `ModernCarousel.restartAutoplay()`. -/
def restartAutoplay (c : ModernCarousel) : ModernCarousel :=
  resumeAutoplay (pauseAutoplay c)

/-- `ModernCarousel.goToSlide(index)`. -/
def goToSlide (c : ModernCarousel) (index : Int) : Outcome :=
  if index < 0 ∨ index ≥ (c.items.length : Int) ∨ index = c.currentIndex then
    { state := c, completion := Completion.normal }
  else
    (updateCarousel { c with currentIndex := index } true).andThen restartAutoplay

/-- `ModernCarousel.nextSlide()`. -/
def nextSlide (c : ModernCarousel) : Outcome :=
  if c.currentIndex < (c.items.length : Int) - 1 then
    (updateCarousel { c with currentIndex := c.currentIndex + 1 } true).andThen restartAutoplay
  else if c.loop then
    (updateCarousel { c with currentIndex := 0 } true).andThen restartAutoplay
  else
    { state := c, completion := Completion.normal }

/-- `ModernCarousel.previousSlide()`. -/
def previousSlide (c : ModernCarousel) : Outcome :=
  if c.currentIndex > 0 then
    (updateCarousel { c with currentIndex := c.currentIndex - 1 } true).andThen restartAutoplay
  else if c.loop then
    (updateCarousel { c with currentIndex := (c.items.length : Int) - 1 } true).andThen
      restartAutoplay
  else
    { state := c, completion := Completion.normal }

/-- `ModernCarousel.handleSwipe()`. -/
def handleSwipe (c : ModernCarousel) : Outcome :=
  let swipeThreshold : Int := 50
  let diff := c.touchStartX - c.touchEndX
  if |diff| > swipeThreshold then
    if diff > 0 then nextSlide c else previousSlide c
  else
    { state := c, completion := Completion.normal }

/-- The `touchstart` listener: records `screenX`. -/
def touchStart (c : ModernCarousel) (screenX : Int) : ModernCarousel :=
  { c with touchStartX := screenX }

/-- The `touchend` listener: records `screenX` and calls `handleSwipe`. -/
def touchEnd (c : ModernCarousel) (screenX : Int) : Outcome :=
  handleSwipe { c with touchEndX := screenX }

/-- `ModernCarousel.createDots()`: one fresh `.mc-dot` button per item when
the container exists. -/
def createDots (c : ModernCarousel) (hasDotsContainer : Bool) : ModernCarousel :=
  if hasDotsContainer then
    { c with dots := some (c.items.map (fun _ => { active := false, ariaPressed := false })) }
  else c

/-- The constructor followed by `init()`. `startIndex` and `autoplay` are the
results of `parseInt` on the data attributes, `none` standing for `NaN`; the
`|| 0` and `|| 5000` defaults also replace a parsed `0`. The buttons and the
items come from the markup. -/
def init (items : List Item) (hasDotsContainer : Bool) (prevBtn nextBtn : Option Bool)
    (startIndex autoplay : Option Int) (loop pauseOnHover : Bool) : Outcome :=
  let c0 : ModernCarousel :=
    { items := items
      dots := none
      prevBtn := prevBtn
      nextBtn := nextBtn
      translateX := 0
      ariaLabel := ""
      currentIndex := startIndex.getD 0
      autoplayDelay := match autoplay with
        | none => 5000
        | some d => if d = 0 then 5000 else d
      loop := loop
      pauseOnHover := pauseOnHover
      isAutoPlaying := false
      autoplayTimer := none
      isTransitioning := false
      touchStartX := 0
      touchEndX := 0
      timerSeq := 1
      pendingResets := 0 }
  (updateCarousel (createDots c0 hasDotsContainer) true).andThen startAutoplay

/-- The events the claims about reachable states range over. -/
inductive Event where
  | next
  | previous
  | goTo (index : Int)
  | timeout
  deriving DecidableEq, Repr

/-- Deliver one event to the carousel. An exception thrown by a listener does
not undo the writes made before it, so the state is kept either way. -/
def step (c : ModernCarousel) : Event → ModernCarousel
  | Event.next => (nextSlide c).state
  | Event.previous => (previousSlide c).state
  | Event.goTo i => (goToSlide c i).state
  | Event.timeout => transitionTimeout c

/-- Deliver a sequence of events in order. -/
def run (c : ModernCarousel) (es : List Event) : ModernCarousel :=
  es.foldl step c

/-! ## mobile-menu.js -/

/-- One `.mobile-dropdown` element: the `active` class, and whether its
`.mobile-dropdown-item` children have been given the `animate-in` class. -/
structure MobileDropdown where
  active : Bool
  animateIn : Bool
  deriving DecidableEq, Repr

/-- The dropdown part of a `MobileMenu` instance. `dropdownTriggers` holds,
for each `.mobile-nav-link[data-dropdown]`, whether its `aria-expanded`
attribute is the string `true`; `dropdowns` holds each `.mobile-dropdown`. -/
structure MobileMenuDropdowns where
  dropdownTriggers : List Bool
  dropdowns : List MobileDropdown
  deriving DecidableEq, Repr

namespace MobileMenu

/-- `MobileMenu.closeAllDropdowns()`. -/
def closeAllDropdowns (m : MobileMenuDropdowns) : MobileMenuDropdowns :=
  { dropdowns := m.dropdowns.map (fun d => { d with active := false })
    dropdownTriggers := m.dropdownTriggers.map (fun _ => false) }

/-- `MobileMenu.animateDropdownItems(dropdown)`. -/
def animateDropdownItems (d : MobileDropdown) : MobileDropdown :=
  { d with animateIn := true }

/-- `MobileMenu.toggleDropdown(trigger, dropdown)`, the trigger and the
dropdown given by their positions in `dropdownTriggers` and `dropdowns`. -/
def toggleDropdown (m : MobileMenuDropdowns) (trigger dropdown : Nat) : MobileMenuDropdowns :=
  let isExpanded := m.dropdownTriggers.getD trigger false
  let m1 := closeAllDropdowns m
  if !isExpanded then
    { dropdowns := m1.dropdowns.modify
        (fun d => animateDropdownItems { d with active := true }) dropdown
      dropdownTriggers := m1.dropdownTriggers.set trigger true }
  else m1

end MobileMenu

/-- One `.header_menu .dropdown` element: the `active` class, the
`aria-expanded` state of its first `span` when it has one, and whether it
contains a `.dropdown-menu`. -/
structure DesktopDropdown where
  active : Bool
  trigger : Option Bool
  hasMenu : Bool
  deriving DecidableEq, Repr

/-- A `DesktopDropdowns` instance: the dropdown elements and the position of
`activeDropdown` among them (`none` for `null`). -/
structure DesktopDropdowns where
  dropdowns : List DesktopDropdown
  activeDropdown : Option Nat
  deriving DecidableEq, Repr

namespace DesktopDropdowns

/-- The guard `trigger && menu` used when listeners are attached and in
`closeAllDropdowns`. -/
def wired (d : DesktopDropdown) : Bool :=
  d.trigger.isSome && d.hasMenu

/-- `DesktopDropdowns.closeDropdown(dropdown, trigger, menu)`. -/
def closeDropdown (s : DesktopDropdowns) (i : Nat) : DesktopDropdowns :=
  { dropdowns := s.dropdowns.modify
      (fun d => { d with active := false, trigger := d.trigger.map (fun _ => false) }) i
    activeDropdown := if s.activeDropdown = some i then none else s.activeDropdown }

/-- `DesktopDropdowns.closeAllDropdowns()`: the `forEach` visits the
positions in order and closes the dropdowns that pass the guard. -/
def closeAllDropdowns (s : DesktopDropdowns) : DesktopDropdowns :=
  (List.range s.dropdowns.length).foldl
    (fun acc i =>
      match acc.dropdowns.get? i with
      | some d => if wired d then closeDropdown acc i else acc
      | none => acc)
    s

/-- `DesktopDropdowns.openDropdown(dropdown, trigger, menu)`. -/
def openDropdown (s : DesktopDropdowns) (i : Nat) : DesktopDropdowns :=
  let s1 := closeAllDropdowns s
  { dropdowns := s1.dropdowns.modify
      (fun d => { d with active := true, trigger := d.trigger.map (fun _ => true) }) i
    activeDropdown := some i }

/-- `DesktopDropdowns.toggleDropdown(dropdown, trigger, menu)`. -/
def toggleDropdown (s : DesktopDropdowns) (i : Nat) : DesktopDropdowns :=
  let isOpen := (s.dropdowns.get? i).bind (fun d => d.trigger) = some true
  if isOpen then closeDropdown s i else openDropdown s i

end DesktopDropdowns

/-! ## accessibility-toolkit.js: font scale -/

/-- A JavaScript number with exact rational arithmetic on the finite values:
`NaN`, the two infinities, or a finite value. Rounding to binary64 is not
represented. -/
inductive JsNum where
  | nan
  | negInf
  | posInf
  | fin (q : ℚ)
  deriving DecidableEq

namespace JsNum

/-- The `*` operator. -/
def mul : JsNum → JsNum → JsNum
  | nan, _ => nan
  | _, nan => nan
  | fin a, fin b => fin (a * b)
  | posInf, posInf => posInf
  | negInf, negInf => posInf
  | posInf, negInf => negInf
  | negInf, posInf => negInf
  | posInf, fin b => if b = 0 then nan else if 0 < b then posInf else negInf
  | negInf, fin b => if b = 0 then nan else if 0 < b then negInf else posInf
  | fin a, posInf => if a = 0 then nan else if 0 < a then posInf else negInf
  | fin a, negInf => if a = 0 then nan else if 0 < a then negInf else posInf

/-- `Math.min(a, b)`. -/
def min : JsNum → JsNum → JsNum
  | nan, _ => nan
  | _, nan => nan
  | negInf, _ => negInf
  | _, negInf => negInf
  | posInf, b => b
  | a, posInf => a
  | fin a, fin b => fin (Min.min a b)

/-- `Math.max(a, b)`. -/
def max : JsNum → JsNum → JsNum
  | nan, _ => nan
  | _, nan => nan
  | posInf, _ => posInf
  | _, posInf => posInf
  | negInf, b => b
  | a, negInf => a
  | fin a, fin b => fin (Max.max a b)

/-- `Math.round(a)`: the nearest integer, halves rounded up. -/
def round : JsNum → JsNum
  | fin a => fin (⌊a + 1 / 2⌋ : Int)
  | a => a

/-- The comparison `a > b`. -/
def gt : JsNum → JsNum → Bool
  | nan, _ => false
  | _, nan => false
  | posInf, posInf => false
  | posInf, _ => true
  | _, posInf => false
  | negInf, _ => false
  | _, negInf => true
  | fin a, fin b => decide (a > b)

end JsNum

/-- The value `localStorage.getItem('accessibility-font-size')` returns:
`null`, the empty string, or a non-empty string, which is represented by the
number `parseFloat` reads from it. -/
inductive StoredScale where
  | absent
  | empty
  | text (parsed : JsNum)
  deriving DecidableEq

/-- The message handed to `announceChange` by `adjustFontSize`: the word
chosen by `multiplier > 1` and the percentage. -/
structure FontAnnouncement where
  increased : Bool
  percent : JsNum
  deriving DecidableEq

/-- The state `adjustFontSize` touches: the storage entry, the custom
property `--accessibility-font-scale` on the root element, and the last
announcement. -/
structure FontScaleState where
  stored : StoredScale
  cssScale : Option JsNum
  announced : Option FontAnnouncement
  deriving DecidableEq

/-- The number read by `parseFloat(localStorage.getItem(...) || '1')`. -/
def currentSize (s : StoredScale) : JsNum :=
  match s with
  | StoredScale.absent => JsNum.fin 1
  | StoredScale.empty => JsNum.fin 1
  | StoredScale.text v => v

/-- The value `newSize` computed by `adjustFontSize(multiplier)`. -/
def newSize (s : StoredScale) (multiplier : JsNum) : JsNum :=
  JsNum.max (JsNum.fin (4 / 5)) (JsNum.min (JsNum.fin 2) (JsNum.mul (currentSize s) multiplier))

/-- `AccessibilityToolkit.adjustFontSize(multiplier)`. -/
def adjustFontSize (st : FontScaleState) (multiplier : JsNum) : FontScaleState :=
  let n := newSize st.stored multiplier
  { stored := StoredScale.text n
    cssScale := some n
    announced := some
      { increased := JsNum.gt multiplier (JsNum.fin 1)
        percent := JsNum.round (JsNum.mul n (JsNum.fin 100)) } }

/-- The two font actions of `handleAction` and of the Alt+1 / Alt+2 shortcuts. -/
inductive FontAction where
  | increase
  | decrease
  deriving DecidableEq

/-- The multiplier each action passes: `1.1` or `0.9`. -/
def FontAction.multiplier : FontAction → JsNum
  | FontAction.increase => JsNum.fin (11 / 10)
  | FontAction.decrease => JsNum.fin (9 / 10)

/-- The states after each action of a sequence, in order. -/
def fontTrace (st : FontScaleState) : List FontAction → List FontScaleState
  | [] => []
  | a :: rest =>
    let st1 := adjustFontSize st a.multiplier
    st1 :: fontTrace st1 rest

/-! ## Sample inputs -/

/-- A list of `n` slides without headings or markers, as plain markup gives. -/
def plainSlides (n : Nat) : List Item :=
  List.replicate n { active := false, ariaHidden := false, heading := "" }

/-- A three-slide carousel without looping, with dots and both buttons,
right after construction (index 0, the first transition still in flight). -/
def boundedAtFirst : ModernCarousel :=
  (init (plainSlides 3) true (some false) (some false) none none false false).state

/-- The same carousel constructed with `data-start-index="2"`. -/
def boundedAtLast : ModernCarousel :=
  (init (plainSlides 3) true (some false) (some false) (some 2) none false false).state

/-- A five-slide looping carousel constructed with `data-start-index="4"`. -/
def loopingAtLast : ModernCarousel :=
  (init (plainSlides 5) true (some false) (some false) (some 4) none true false).state

/-- A five-slide looping carousel constructed at index 0. -/
def loopingAtFirst : ModernCarousel :=
  (init (plainSlides 5) true (some false) (some false) none none true false).state

/-- The index addresses one of the items. -/
def InRange (c : ModernCarousel) : Prop :=
  0 ≤ c.currentIndex ∧ c.currentIndex < (c.items.length : Int)

instance (c : ModernCarousel) : Decidable (InRange c) := by
  unfold InRange
  exact inferInstance

/-- A desktop header with one complete dropdown followed by a `.dropdown`
element that has no `.dropdown-menu` and carries `active` in the markup. -/
def headerWithBareDropdown : DesktopDropdowns :=
  { dropdowns :=
      [{ active := false, trigger := some false, hasMenu := true },
       { active := true, trigger := some false, hasMenu := false }]
    activeDropdown := none }

/-- A desktop header with three complete dropdowns, the last one open. -/
def headerThree : DesktopDropdowns :=
  { dropdowns :=
      [{ active := false, trigger := some false, hasMenu := true },
       { active := false, trigger := some false, hasMenu := true },
       { active := true, trigger := some true, hasMenu := true }]
    activeDropdown := some 2 }

/-- A mobile menu with three dropdowns, the first one open. -/
def mobileThree : MobileMenuDropdowns :=
  { dropdownTriggers := [true, false, false]
    dropdowns :=
      [{ active := true, animateIn := true },
       { active := false, animateIn := false },
       { active := false, animateIn := false }] }

/-- What `closeDropdown` writes on one dropdown element. -/
def DesktopDropdowns.closed (d : DesktopDropdown) : DesktopDropdown :=
  { d with active := false, trigger := d.trigger.map (fun _ => false) }

/-- A page whose storage holds the font scale `5`, as an imported settings
file can leave it. -/
def oversizedFont : FontScaleState :=
  { stored := StoredScale.text (JsNum.fin 5), cssScale := none, announced := none }


/-! ## accessibility-toolkit.js: preferences -/

/-- The twelve features `savePreferences` records, in the order of its object
literal. -/
inductive Feature where
  | highContrast
  | darkMode
  | grayscale
  | invertColors
  | dyslexiaFont
  | readingGuide
  | highlightLinks
  | textSpacing
  | bigCursor
  | reducedMotion
  | keyboardNav
  | showAltText
  deriving DecidableEq, Repr

namespace Feature

/-- The property name of the feature in the saved object. -/
def key : Feature → String
  | highContrast => "highContrast"
  | darkMode => "darkMode"
  | grayscale => "grayscale"
  | invertColors => "invertColors"
  | dyslexiaFont => "dyslexiaFont"
  | readingGuide => "readingGuide"
  | highlightLinks => "highlightLinks"
  | textSpacing => "textSpacing"
  | bigCursor => "bigCursor"
  | reducedMotion => "reducedMotion"
  | keyboardNav => "keyboardNav"
  | showAltText => "showAltText"

/-- The class the feature puts on `document.body`. -/
def className : Feature → String
  | highContrast => "accessibility-high-contrast"
  | darkMode => "accessibility-dark-mode"
  | grayscale => "accessibility-grayscale"
  | invertColors => "accessibility-invert-colors"
  | dyslexiaFont => "accessibility-dyslexia-font"
  | readingGuide => "reading-guide-active"
  | highlightLinks => "accessibility-highlight-links"
  | textSpacing => "accessibility-text-spacing"
  | bigCursor => "accessibility-big-cursor"
  | reducedMotion => "accessibility-reduced-motion"
  | keyboardNav => "enhanced-keyboard-nav"
  | showAltText => "show-alt-text"

/-- The `data-action` of the option button of the feature. -/
def action : Feature → String
  | highContrast => "high-contrast"
  | darkMode => "dark-mode"
  | grayscale => "grayscale"
  | invertColors => "invert-colors"
  | dyslexiaFont => "dyslexia-font"
  | readingGuide => "reading-guide"
  | highlightLinks => "highlight-links"
  | textSpacing => "text-spacing"
  | bigCursor => "big-cursor"
  | reducedMotion => "pause-animations"
  | keyboardNav => "keyboard-navigation"
  | showAltText => "alt-text-toggle"

/-- Every feature, in the order of the object literal of `savePreferences`. -/
def all : List Feature :=
  [highContrast, darkMode, grayscale, invertColors, dyslexiaFont, readingGuide,
    highlightLinks, textSpacing, bigCursor, reducedMotion, keyboardNav, showAltText]

/-- The `case` labels of the `switch` in `loadSavedPreferences` that name a
feature. -/
def ofKey (s : String) : Option Feature :=
  if s = "highContrast" then some highContrast
  else if s = "darkMode" then some darkMode
  else if s = "grayscale" then some grayscale
  else if s = "invertColors" then some invertColors
  else if s = "dyslexiaFont" then some dyslexiaFont
  else if s = "readingGuide" then some readingGuide
  else if s = "highlightLinks" then some highlightLinks
  else if s = "textSpacing" then some textSpacing
  else if s = "bigCursor" then some bigCursor
  else if s = "reducedMotion" then some reducedMotion
  else if s = "keyboardNav" then some keyboardNav
  else if s = "showAltText" then some showAltText
  else none

end Feature

/-- A string value as the code observes it: empty, or non-empty and then
represented by the number `parseFloat` reads from it, so that the string `1`
is `text (fin 1)`. -/
inductive JsText where
  | empty
  | text (parsed : JsNum)
  deriving DecidableEq

/-- The value of one entry of a parsed preferences object. An array is
represented by the text `String(array)` yields, an object by itself. -/
inductive JsonValue where
  | null
  | bool (b : Bool)
  | num (q : ℚ)
  | str (t : JsText)
  | array (shown : JsText)
  | object
  deriving DecidableEq

/-- Truthiness, as tested by `if (!value) return`. -/
def JsonValue.truthy : JsonValue → Bool
  | JsonValue.null => false
  | JsonValue.bool b => b
  | JsonValue.num q => decide (q ≠ 0)
  | JsonValue.str JsText.empty => false
  | JsonValue.str (JsText.text _) => true
  | JsonValue.array _ => true
  | JsonValue.object => true

/-- The number the custom property `--accessibility-font-scale` reads as after
`setProperty(name, value)`; `none` when the property ends up removed, which is
what an empty text does. -/
def JsonValue.cssNumber : JsonValue → Option JsNum
  | JsonValue.null => none
  | JsonValue.bool _ => some JsNum.nan
  | JsonValue.num q => some (JsNum.fin q)
  | JsonValue.str JsText.empty => none
  | JsonValue.str (JsText.text v) => some v
  | JsonValue.array JsText.empty => none
  | JsonValue.array (JsText.text v) => some v
  | JsonValue.object => some JsNum.nan

/-- A key returned by `Object.entries`: a property name, or the position of
an array element or of a character, which as a string is a decimal numeral and
so none of the `case` labels. -/
inductive Key where
  | name (s : String)
  | index (i : Nat)
  deriving DecidableEq

/-- What `JSON.parse` returns for the stored string. -/
inductive JsonDoc where
  | null
  | bool (b : Bool)
  | num (q : ℚ)
  | str (chars : List JsText)
  | array (elements : List JsonValue)
  | object (entries : List (String × JsonValue))
  deriving DecidableEq

/-- The value `localStorage.getItem('accessibility-preferences')` returns:
`null`, the empty string, a string `JSON.parse` rejects, or a JSON text. -/
inductive StoredPrefs where
  | absent
  | empty
  | malformed
  | json (doc : JsonDoc)
  deriving DecidableEq

/-- The exceptions the body of `loadSavedPreferences` can raise. -/
inductive JsError where
  | syntaxError
  | typeError
  deriving DecidableEq, Repr

/-- `Object.entries(value)`: a `TypeError` for `null`, nothing for a boolean
or a number, the indexed characters of a string, the indexed elements of an
array, the properties of an object. -/
def JsonDoc.entries : JsonDoc → Except JsError (List (Key × JsonValue))
  | JsonDoc.null => Except.error JsError.typeError
  | JsonDoc.bool _ => Except.ok []
  | JsonDoc.num _ => Except.ok []
  | JsonDoc.str chars => Except.ok (chars.enum.map (fun ic => (Key.index ic.1, JsonValue.str ic.2)))
  | JsonDoc.array elements => Except.ok (elements.enum.map (fun ie => (Key.index ie.1, ie.2)))
  | JsonDoc.object entries => Except.ok (entries.map (fun kv => (Key.name kv.1, kv.2)))

/-- `JSON.parse(saved)` for a non-empty stored string. -/
def StoredPrefs.parse : StoredPrefs → Except JsError JsonDoc
  | StoredPrefs.json doc => Except.ok doc
  | _ => Except.error JsError.syntaxError

/-- The page state the preference code reads and writes: the feature classes
on `document.body`, the `aria-pressed` state of the option button of each
feature, the `visible` class of `#skip-links` and the `aria-pressed` state of
its button, the font scale state, the stored preferences, and the number of
`console.warn` calls. -/
structure ToolkitPage where
  bodyClass : Feature → Bool
  pressed : Feature → Bool
  skipLinksVisible : Bool
  skipLinksPressed : Bool
  font : FontScaleState
  preferences : StoredPrefs
  warnings : Nat

/-- The `fontSize` property of the saved object:
`localStorage.getItem('accessibility-font-size')`. -/
def StoredScale.toJson : StoredScale → JsonValue
  | StoredScale.absent => JsonValue.null
  | StoredScale.empty => JsonValue.str JsText.empty
  | StoredScale.text v => JsonValue.str (JsText.text v)

/-- The object literal built by `savePreferences`. -/
def preferencesObject (p : ToolkitPage) : JsonDoc :=
  JsonDoc.object
    (Feature.all.map (fun f => (f.key, JsonValue.bool (p.bodyClass f)))
      ++ [("fontSize", p.font.stored.toJson)])

/-- `AccessibilityToolkit.savePreferences()`. -/
def savePreferences (p : ToolkitPage) : ToolkitPage :=
  { p with preferences := StoredPrefs.json (preferencesObject p) }

/-- `AccessibilityToolkit.updateButtonState(action, true)` for the button of a
feature. -/
def updateButtonState (p : ToolkitPage) (f : Feature) (pressed : Bool) : ToolkitPage :=
  { p with pressed := Function.update p.pressed f pressed }

/-- The callback of `Object.entries(preferences).forEach` in
`loadSavedPreferences`. -/
def applyEntry (p : ToolkitPage) (key : Key) (value : JsonValue) : ToolkitPage :=
  if !value.truthy then p
  else
    match key with
    | Key.index _ => p
    | Key.name s =>
      match Feature.ofKey s with
      | some f => updateButtonState { p with bodyClass := Function.update p.bodyClass f true } f true
      | none =>
        if s = "fontSize" then
          if value.truthy && decide (value ≠ JsonValue.str (JsText.text (JsNum.fin 1))) then
            { p with font := { p.font with cssScale := value.cssNumber } }
          else p
        else p

/-- The `try` block of `loadSavedPreferences`. -/
def tryLoad (p : ToolkitPage) : Except JsError ToolkitPage :=
  match p.preferences.parse with
  | Except.error e => Except.error e
  | Except.ok doc =>
    match doc.entries with
    | Except.error e => Except.error e
    | Except.ok entries => Except.ok (entries.foldl (fun acc kv => applyEntry acc kv.1 kv.2) p)

/-- `AccessibilityToolkit.loadSavedPreferences()`: the early return for a
falsy stored value, then the `try` block, whose exception is caught and
reported with `console.warn`. -/
def loadSavedPreferences (p : ToolkitPage) : ToolkitPage :=
  match p.preferences with
  | StoredPrefs.absent => p
  | StoredPrefs.empty => p
  | _ =>
    match tryLoad p with
    | Except.ok q => q
    | Except.error _ => { p with warnings := p.warnings + 1 }

/-- A page as the constructor finds it before `loadSavedPreferences`: no
feature class, no button pressed, with the given storage contents. -/
def freshPage (stored : StoredScale) (preferences : StoredPrefs) : ToolkitPage :=
  { bodyClass := fun _ => false
    pressed := fun _ => false
    skipLinksVisible := false
    skipLinksPressed := false
    font := { stored := stored, cssScale := none, announced := none }
    preferences := preferences
    warnings := 0 }

/-- A page with dark mode and big cursor on and a font scale of `1.1`. -/
def darkBigCursorPage : ToolkitPage :=
  { bodyClass := fun f => decide (f = Feature.darkMode) || decide (f = Feature.bigCursor)
    pressed := fun f => decide (f = Feature.darkMode) || decide (f = Feature.bigCursor)
    skipLinksVisible := false
    skipLinksPressed := false
    font :=
      { stored := StoredScale.text (JsNum.fin (11 / 10))
        cssScale := some (JsNum.fin (11 / 10))
        announced := none }
    preferences := StoredPrefs.absent
    warnings := 0 }

/-- Whether the parsed value is a plain object, the only kind of value
`savePreferences` writes. -/
def JsonDoc.isObject : JsonDoc → Bool
  | JsonDoc.object _ => true
  | _ => false

/-! ## notification-banner.js -/

/-- The state a method call leaves behind and how it ended, for the widgets
other than `ModernCarousel`. -/
structure Ran (σ : Type) where
  state : σ
  completion : Completion

/-- One `.notification-item`: the `active` class and the text content. -/
structure NotificationItem where
  active : Bool
  text : String
  deriving DecidableEq, Repr

/-- A `NotificationBanner` instance with the DOM and host state it touches.
`banner` is the `hidden` class of `#notificationBanner` and `toggleContainer`
the `show` class of `#notificationToggle`, each `none` when the element is
missing. `closedFlag` is the storage entry `krc-notification-closed`.
`running` lists the interval handles that are live in the host, `timerSeq` is
the next handle the host returns, `pendingShows` counts the 300 ms callbacks
not yet fired and `announcements` the messages handed to
`announceToScreenReader`, newest first. -/
structure NotificationBanner where
  banner : Option Bool
  items : List NotificationItem
  toggleContainer : Option Bool
  currentIndex : Nat
  interval : Option Nat
  isPaused : Bool
  rotationSpeed : Int
  closedFlag : Option String
  running : List Nat
  timerSeq : Nat
  pendingShows : Nat
  announcements : List String
  deriving DecidableEq, Repr

namespace NotificationBanner

/-- `NotificationBanner.announceToScreenReader(message)`: the message is
shown and a removal callback is scheduled, which takes one timer handle. -/
def announceToScreenReader (b : NotificationBanner) (message : String) : NotificationBanner :=
  { b with
    announcements := ("Library notification: " ++ message) :: b.announcements
    timerSeq := b.timerSeq + 1 }

/-- `NotificationBanner.startRotation()`. -/
def startRotation (b : NotificationBanner) : NotificationBanner :=
  if b.items.length ≤ 1 then b
  else
    { b with
      interval := some b.timerSeq
      running := b.timerSeq :: b.running
      timerSeq := b.timerSeq + 1 }

/-- `NotificationBanner.stopRotation()`: a stored handle that is truthy is
cleared in the host and forgotten. -/
def stopRotation (b : NotificationBanner) : NotificationBanner :=
  match b.interval with
  | none => b
  | some h =>
    if h = 0 then b
    else { b with running := b.running.filter (fun k => k ≠ h), interval := none }

/-- `NotificationBanner.pauseRotation()`. -/
def pauseRotation (b : NotificationBanner) : NotificationBanner :=
  { b with isPaused := true }

/-- `NotificationBanner.resumeRotation()`. -/
def resumeRotation (b : NotificationBanner) : NotificationBanner :=
  { b with isPaused := false }

/-- `NotificationBanner.closeBanner()`. -/
def closeBanner (b : NotificationBanner) : Ran NotificationBanner :=
  let b1 := stopRotation b
  match b1.banner with
  | none => { state := b1, completion := Completion.typeError }
  | some _ =>
    let b2 : NotificationBanner :=
      { b1 with
        banner := some true
        toggleContainer := b1.toggleContainer.map (fun _ => true)
        closedFlag := some "true" }
    { state := announceToScreenReader b2
        "Notification banner closed. Use the notification button to show it again."
      completion := Completion.normal }

/-- `NotificationBanner.showBanner()`. -/
def showBanner (b : NotificationBanner) : Ran NotificationBanner :=
  match b.banner with
  | none => { state := b, completion := Completion.typeError }
  | some _ =>
    let b1 : NotificationBanner :=
      { b with
        banner := some false
        toggleContainer := b.toggleContainer.map (fun _ => false)
        closedFlag := none }
    { state := announceToScreenReader (startRotation b1) "Notification banner restored"
      completion := Completion.normal }

end NotificationBanner

/-- A banner with three messages, rotating, showing the second one. -/
def bannerAtSecond : NotificationBanner :=
  { banner := some false
    items :=
      [{ active := false, text := "Extended hours" },
       { active := true, text := "New e-journals" },
       { active := false, text := "Workshop on Friday" }]
    toggleContainer := some false
    currentIndex := 1
    interval := some 1
    isPaused := false
    rotationSpeed := 25000
    closedFlag := none
    running := [1]
    timerSeq := 4
    pendingShows := 0
    announcements := [] }

/-! ## mobile-menu.js: the menu itself -/

/-- The `#mobileMenuToggle` button: the `active` class and whether
`aria-expanded` is `true`. -/
structure ToggleButton where
  active : Bool
  ariaExpanded : Bool
  deriving DecidableEq, Repr

/-- The `#mobileMenuOverlay` element: the `active` class, and whether the
inline styles that force it visible have been written. -/
structure Overlay where
  active : Bool
  inlineShown : Bool
  deriving DecidableEq, Repr

/-- Where the keyboard focus is, as far as the menu code moves it. -/
inductive FocusTarget where
  | elsewhere
  | menuToggle
  | firstFocusable
  deriving DecidableEq, Repr

/-- The part of the document the mobile menu reads and writes. It is shared
by every `MobileMenu` instance on the page. `menuToggle` and `menuOverlay` are
`none` when the element is missing; `bodyMenuOpen` is the `menu-open` class of
`body` and `bodyOverflow` its inline `overflow` style; `menuItemsAnimated`
says whether the `.mobile-nav-item` elements carry `animate-in`;
`pendingFocus` counts the 100 ms focus callbacks not yet fired. -/
structure MenuDom where
  menuToggle : Option ToggleButton
  menuOverlay : Option Overlay
  bodyMenuOpen : Bool
  bodyOverflow : String
  dropdowns : MobileMenuDropdowns
  menuItemsAnimated : Bool
  focus : FocusTarget
  pendingFocus : Nat
  announcements : List String
  deriving DecidableEq, Repr

/-- The fields of one `MobileMenu` instance that are not DOM references:
`isOpen`, and whether `firstFocusableElement` was found. -/
structure MobileMenu where
  isOpen : Bool
  firstFocusable : Bool
  deriving DecidableEq, Repr

/-- One instance together with the document. -/
structure MenuState where
  menu : MobileMenu
  dom : MenuDom
  deriving DecidableEq, Repr

namespace MobileMenu

/-- `MobileMenu.announceToScreenReader(message)`. -/
def announceToScreenReader (d : MenuDom) (message : String) : MenuDom :=
  { d with announcements := message :: d.announcements }

/-- `MobileMenu.open()`. The writes come first; `animateMenuItems` then reads
`this.menuOverlay.querySelectorAll`, a `TypeError` without an overlay. -/
def openMenu (s : MenuState) : Ran MenuState :=
  if s.menu.isOpen then { state := s, completion := Completion.normal }
  else
    let d1 : MenuDom :=
      { s.dom with
        menuToggle := s.dom.menuToggle.map (fun _ => { active := true, ariaExpanded := true })
        menuOverlay := s.dom.menuOverlay.map (fun o => { o with active := true })
        bodyMenuOpen := true
        bodyOverflow := "hidden"
        pendingFocus := if s.menu.firstFocusable then s.dom.pendingFocus + 1
          else s.dom.pendingFocus }
    let m1 : MobileMenu := { s.menu with isOpen := true }
    match d1.menuOverlay with
    | none => { state := { menu := m1, dom := d1 }, completion := Completion.typeError }
    | some _ =>
      { state :=
          { menu := m1
            dom := announceToScreenReader { d1 with menuItemsAnimated := true } "Menu opened" }
        completion := Completion.normal }

/-- `MobileMenu.close()`. -/
def close (s : MenuState) : Ran MenuState :=
  if !s.menu.isOpen then { state := s, completion := Completion.normal }
  else
    let d1 : MenuDom :=
      { s.dom with
        menuToggle := s.dom.menuToggle.map (fun _ => { active := false, ariaExpanded := false })
        menuOverlay := s.dom.menuOverlay.map (fun o => { o with active := false })
        bodyMenuOpen := false
        bodyOverflow := ""
        dropdowns := closeAllDropdowns s.dom.dropdowns
        focus := if s.dom.menuToggle.isSome then FocusTarget.menuToggle else s.dom.focus }
    { state := { menu := { s.menu with isOpen := false },
                 dom := announceToScreenReader d1 "Menu closed" }
      completion := Completion.normal }

/-- `MobileMenu.toggle()`. -/
def toggle (s : MenuState) : Ran MenuState :=
  if s.menu.isOpen then close s else openMenu s

/-- `MobileMenu.setupDropdowns()`: every trigger whose next sibling is a
`.mobile-dropdown` gets `aria-expanded` false. `paired` tells which triggers
those are. -/
def setupDropdowns (d : MenuDom) (paired : Nat → Bool) : MenuDom :=
  { d with
    dropdowns :=
      { d.dropdowns with
        dropdownTriggers :=
          d.dropdowns.dropdownTriggers.enum.map (fun ie => if paired ie.1 then false else ie.2) } }

/-- `MobileMenu.setupAccessibility()` up to the attributes represented here. -/
def setupAccessibility (d : MenuDom) : MenuDom :=
  { d with menuToggle := d.menuToggle.map (fun t => { t with ariaExpanded := false }) }

/-- The constructor followed by `init()`. `setupEventListeners` guards the
toggle and the first use of the overlay, then calls
`this.menuOverlay.addEventListener('touchmove', ...)` without a guard.
`hasFocusable` tells whether the overlay contains a focusable element. -/
def construct (d : MenuDom) (paired : Nat → Bool) (hasFocusable : Bool) : Ran MenuState :=
  match d.menuOverlay with
  | none =>
    { state := { menu := { isOpen := false, firstFocusable := false }, dom := d }
      completion := Completion.typeError }
  | some _ =>
    { state :=
        { menu := { isOpen := false, firstFocusable := hasFocusable }
          dom := setupAccessibility (setupDropdowns d paired) }
      completion := Completion.normal }

end MobileMenu

/-- The three public calls that open and close the menu. -/
inductive MenuCall where
  | openMenu
  | close
  | toggle
  deriving DecidableEq, Repr

/-- Make one call; the writes made before an exception stay. -/
def MenuState.call (s : MenuState) : MenuCall → MenuState
  | MenuCall.openMenu => (MobileMenu.openMenu s).state
  | MenuCall.close => (MobileMenu.close s).state
  | MenuCall.toggle => (MobileMenu.toggle s).state

/-- Make a sequence of calls in order. -/
def MenuState.calls (s : MenuState) (cs : List MenuCall) : MenuState :=
  cs.foldl MenuState.call s

/-- Body scroll is suppressed exactly while the menu is open: each of the two
marks the menu puts on `body`, the inline style `overflow: hidden` and the
class `menu-open`, is there if and only if `isOpen` is true. -/
def ScrollLockMatches (s : MenuState) : Prop :=
  (s.dom.bodyOverflow = "hidden" ↔ s.menu.isOpen = true)
    ∧ (s.dom.bodyMenuOpen = true ↔ s.menu.isOpen = true)

/-- What the calls keep true of a state `s` reached from `s0`: an open menu
has both marks on `body`; a closed menu has no `menu-open` class, and its
inline `overflow` is the empty string written by `close()` unless no call has
changed anything yet. -/
def ScrollLockFrom (s0 s : MenuState) : Prop :=
  (s.menu.isOpen = true → s.dom.bodyOverflow = "hidden" ∧ s.dom.bodyMenuOpen = true)
    ∧ (s.menu.isOpen = false →
        s.dom.bodyMenuOpen = false ∧ (s.dom.bodyOverflow = "" ∨ s = s0))

/-- A document with toggle button, overlay and two dropdowns, nothing open. -/
def menuPage : MenuDom :=
  { menuToggle := some { active := false, ariaExpanded := false }
    menuOverlay := some { active := false, inlineShown := false }
    bodyMenuOpen := false
    bodyOverflow := ""
    dropdowns :=
      { dropdownTriggers := [false, false]
        dropdowns := [{ active := false, animateIn := false }, { active := false, animateIn := false }] }
    menuItemsAnimated := false
    focus := FocusTarget.elsewhere
    pendingFocus := 0
    announcements := [] }

/-- The same document without the `#mobileMenuOverlay` element. -/
def menuPageWithoutOverlay : MenuDom :=
  { menuPage with menuOverlay := none }

/-- The menu as constructed on `menuPage`. -/
def closedMenu : MenuState :=
  (MobileMenu.construct menuPage (fun _ => true) true).state

/-! ## new-arrivals.js -/

/-- Run the rest of a method body only when the first part returned. -/
def Ran.andThen {σ : Type} (r : Ran σ) (k : σ → Ran σ) : Ran σ :=
  match r.completion with
  | Completion.normal => k r.state
  | Completion.typeError => r

/-- A `NewArrivalsCarousel` instance with the DOM state it touches. `track`
says whether `#na-track` exists, `trackShift` is the number of pixels in the
last `translateX(-...px)` written to it and `rendered` the number of book
elements in it. `prevBtn` and `nextBtn` hold the `disabled` property of the
buttons that exist, `container` the `offsetWidth` of `.na-track-wrapper` when
it exists. `books` lists the ids of the books. `startX`, `currentX` and
`isDragging` are the variables shared by the touch listeners.
`announcements` counts the calls of `announceToScreenReader`. -/
structure NewArrivalsCarousel where
  track : Bool
  trackShift : Option Int
  rendered : Nat
  prevBtn : Option Bool
  nextBtn : Option Bool
  container : Option Nat
  itemWidth : Nat
  gap : Nat
  scrollAmount : Nat
  currentPosition : Int
  maxPosition : Int
  books : List Nat
  startX : Int
  currentX : Int
  isDragging : Bool
  announcements : Nat
  deriving DecidableEq, Repr

namespace NewArrivalsCarousel

/-- `NewArrivalsCarousel.calculateMaxPosition()`. -/
def calculateMaxPosition (c : NewArrivalsCarousel) : Ran NewArrivalsCarousel :=
  if !c.track then { state := c, completion := Completion.normal }
  else
    match c.container with
    | none => { state := c, completion := Completion.typeError }
    | some containerWidth =>
      let totalWidth : Int := (c.books.length : Int) * (c.scrollAmount : Int)
      { state := { c with maxPosition := max 0 (totalWidth - (containerWidth : Int)) }
        completion := Completion.normal }

/-- `NewArrivalsCarousel.renderBooks()`. -/
def renderBooks (c : NewArrivalsCarousel) : Ran NewArrivalsCarousel :=
  if !c.track then { state := c, completion := Completion.typeError }
  else calculateMaxPosition { c with rendered := c.books.length }

/-- `NewArrivalsCarousel.updateButtons()`. -/
def updateButtons (c : NewArrivalsCarousel) : NewArrivalsCarousel :=
  { c with
    prevBtn := c.prevBtn.map (fun _ => decide (c.currentPosition ≤ 0))
    nextBtn := c.nextBtn.map (fun _ => decide (c.currentPosition ≥ c.maxPosition)) }

/-- `NewArrivalsCarousel.updatePosition()`: the transform and the buttons are
written before `this.container.offsetWidth` is read for the announcement. -/
def updatePosition (c : NewArrivalsCarousel) : Ran NewArrivalsCarousel :=
  if !c.track then { state := c, completion := Completion.normal }
  else
    let c1 := updateButtons { c with trackShift := some c.currentPosition }
    match c1.container with
    | none => { state := c1, completion := Completion.typeError }
    | some _ =>
      { state := { c1 with announcements := c1.announcements + 1 }
        completion := Completion.normal }

/-- `NewArrivalsCarousel.scrollNext()`. -/
def scrollNext (c : NewArrivalsCarousel) : Ran NewArrivalsCarousel :=
  updatePosition
    { c with currentPosition := min (c.currentPosition + (c.scrollAmount : Int)) c.maxPosition }

/-- `NewArrivalsCarousel.scrollPrevious()`. -/
def scrollPrevious (c : NewArrivalsCarousel) : Ran NewArrivalsCarousel :=
  updatePosition { c with currentPosition := max (c.currentPosition - (c.scrollAmount : Int)) 0 }

/-- `NewArrivalsCarousel.scrollToStart()`. -/
def scrollToStart (c : NewArrivalsCarousel) : Ran NewArrivalsCarousel :=
  updatePosition { c with currentPosition := 0 }

/-- `NewArrivalsCarousel.scrollToEnd()`. -/
def scrollToEnd (c : NewArrivalsCarousel) : Ran NewArrivalsCarousel :=
  updatePosition { c with currentPosition := c.maxPosition }

/-- The function `updateItemWidth` of `setupResponsiveDesign`. -/
def updateItemWidth (c : NewArrivalsCarousel) : Ran NewArrivalsCarousel :=
  match c.container with
  | none => { state := c, completion := Completion.typeError }
  | some containerWidth =>
    let sized : NewArrivalsCarousel :=
      if containerWidth < 480 then { c with itemWidth := 180, gap := 16 }
      else if containerWidth < 768 then { c with itemWidth := 220, gap := 20 }
      else if containerWidth < 1024 then { c with itemWidth := 250, gap := 24 }
      else { c with itemWidth := 280, gap := 32 }
    (calculateMaxPosition { sized with scrollAmount := sized.itemWidth + sized.gap }).andThen
      (fun c2 =>
        if c2.currentPosition > c2.maxPosition then
          updatePosition { c2 with currentPosition := c2.maxPosition }
        else { state := c2, completion := Completion.normal })

/-- The constructor followed by `init()`, on a document that has or lacks the
track, the two buttons and the wrapper. -/
def construct (track : Bool) (prevBtn nextBtn : Option Bool) (container : Option Nat) :
    Ran NewArrivalsCarousel :=
  let c0 : NewArrivalsCarousel :=
    { track := track
      trackShift := none
      rendered := 0
      prevBtn := prevBtn
      nextBtn := nextBtn
      container := container
      itemWidth := 280
      gap := 32
      scrollAmount := 280 + 32
      currentPosition := 0
      maxPosition := 0
      books := [1, 2, 3, 4, 5, 6]
      startX := 0
      currentX := 0
      isDragging := false
      announcements := 0 }
  if !c0.track then { state := c0, completion := Completion.normal }
  else
    ((renderBooks c0).andThen
      (fun c1 => { state := updateButtons c1, completion := Completion.normal })).andThen
      updateItemWidth

/-- The `touchstart` listener on the track. -/
def touchStart (c : NewArrivalsCarousel) (clientX : Int) : NewArrivalsCarousel :=
  { c with startX := clientX, isDragging := true }

/-- The `touchmove` listener on the track. -/
def touchMove (c : NewArrivalsCarousel) (clientX : Int) : NewArrivalsCarousel :=
  if !c.isDragging then c else { c with currentX := clientX }

/-- The `touchend` listener on the track. -/
def touchEnd (c : NewArrivalsCarousel) : Ran NewArrivalsCarousel :=
  if !c.isDragging then { state := c, completion := Completion.normal }
  else
    let c1 : NewArrivalsCarousel := { c with isDragging := false }
    let diff := c1.startX - c1.currentX
    let threshold : Int := 50
    if |diff| > threshold then
      if diff > 0 then scrollNext c1 else scrollPrevious c1
    else { state := c1, completion := Completion.normal }

end NewArrivalsCarousel

/-- The carousel as constructed on a page with track, both buttons enabled in
the markup and a wrapper 1000 pixels wide. -/
def arrivalsOnPage : NewArrivalsCarousel :=
  (NewArrivalsCarousel.construct true (some false) (some false) (some 1000)).state

/-- The carousel as constructed on a page without `#na-track`, with both
buttons enabled in the markup. -/
def arrivalsWithoutTrack : NewArrivalsCarousel :=
  (NewArrivalsCarousel.construct false (some false) (some false) (some 1000)).state

/-! ## modern-carousel.js: construction, pause sources, mouse drag -/

/-- The `ModernCarousel` constructor on an element that has or lacks a
`.mc-track`: line 10 reads `this.track.querySelectorAll`, a `TypeError`
without a track; with a track the result is that of `init`. -/
def constructCarousel (track : Option (List Item)) (hasDotsContainer : Bool)
    (prevBtn nextBtn : Option Bool) (startIndex autoplay : Option Int)
    (loop pauseOnHover : Bool) : Completion :=
  match track with
  | none => Completion.typeError
  | some items =>
    (init items hasDotsContainer prevBtn nextBtn startIndex autoplay loop pauseOnHover).completion

/-- The conditions under which the listeners of `setupEventListeners` pause
autoplay: the pointer is over the carousel, the document is hidden, the window
has lost focus. -/
structure PauseSources where
  hovering : Bool
  documentHidden : Bool
  windowBlurred : Bool
  deriving DecidableEq, Repr

/-- Whether at least one pause source is active. -/
def PauseSources.anyActive (e : PauseSources) : Bool :=
  e.hovering || e.documentHidden || e.windowBlurred

/-- The events of the pause and resume listeners, and manual navigation. -/
inductive HostEvent where
  | mouseEnter
  | mouseLeave
  | visibilityChange (hidden : Bool)
  | windowBlur
  | windowFocus
  | navigate (e : Event)
  deriving DecidableEq, Repr

/-- Deliver one event: the environment changes, and the listener registered
for the event runs. The hover listeners exist only with `pauseOnHover`. -/
def hostStep (s : ModernCarousel × PauseSources) : HostEvent → ModernCarousel × PauseSources
  | HostEvent.mouseEnter =>
    (if s.1.pauseOnHover then pauseAutoplay s.1 else s.1, { s.2 with hovering := true })
  | HostEvent.mouseLeave =>
    (if s.1.pauseOnHover then resumeAutoplay s.1 else s.1, { s.2 with hovering := false })
  | HostEvent.visibilityChange hidden =>
    (if hidden then pauseAutoplay s.1 else resumeAutoplay s.1,
      { s.2 with documentHidden := hidden })
  | HostEvent.windowBlur => (pauseAutoplay s.1, { s.2 with windowBlurred := true })
  | HostEvent.windowFocus => (resumeAutoplay s.1, { s.2 with windowBlurred := false })
  | HostEvent.navigate e => (step s.1 e, s.2)

/-- Deliver a sequence of events in order. -/
def hostRun (s : ModernCarousel × PauseSources) (es : List HostEvent) :
    ModernCarousel × PauseSources :=
  es.foldl hostStep s

/-- No pause source active. -/
def noPause : PauseSources :=
  { hovering := false, documentHidden := false, windowBlurred := false }

/-- A three-slide carousel with `data-pause-on-hover="true"`, right after
construction. -/
def hoverPausing : ModernCarousel :=
  (init (plainSlides 3) true (some false) (some false) none none false true).state

/-- The variables `isDragging` and `startX` shared by the mouse listeners of
`setupEventListeners`, and the `cursor` style they write (empty before the
first write). -/
structure DragState where
  isDragging : Bool
  startX : Int
  cursor : String
  deriving DecidableEq, Repr

/-- The `mousedown` listener. -/
def mouseDown (d : DragState) (clientX : Int) : DragState :=
  { d with isDragging := true, startX := clientX, cursor := "grabbing" }

/-- The `mousemove` listener: it only cancels the default action while a drag
is in progress, which the last component reports. -/
def mouseMove (c : ModernCarousel) (d : DragState) : Outcome × DragState × Bool :=
  if !d.isDragging then ({ state := c, completion := Completion.normal }, d, false)
  else ({ state := c, completion := Completion.normal }, d, true)

/-- The `mouseup` listener. -/
def mouseUp (c : ModernCarousel) (d : DragState) (clientX : Int) : Outcome × DragState :=
  if !d.isDragging then ({ state := c, completion := Completion.normal }, d)
  else
    let d1 : DragState := { d with isDragging := false, cursor := "grab" }
    let endX := clientX
    let diff := d.startX - endX
    if |diff| > 50 then
      if diff > 0 then (nextSlide c, d1) else (previousSlide c, d1)
    else ({ state := c, completion := Completion.normal }, d1)

/-- The three things a gesture can ask of the carousel. -/
inductive Navigation where
  | stay
  | next
  | previous
  deriving DecidableEq, Repr

/-- Carry out the navigation. -/
def Navigation.run : Navigation → ModernCarousel → Outcome
  | Navigation.stay, c => { state := c, completion := Completion.normal }
  | Navigation.next, c => nextSlide c
  | Navigation.previous, c => previousSlide c

/-- The threshold rule in the words of the specification: when the distance
between start and end exceeds 50 pixels, advance forward for a positive delta
and backward for a negative one; otherwise do nothing. -/
def swipeRule (startX endX : Int) : Navigation :=
  if |startX - endX| > 50 then
    if startX - endX > 0 then Navigation.next else Navigation.previous
  else Navigation.stay

/-! ## notification-banner.js: navigation and construction -/

namespace NotificationBanner

/-- `NotificationBanner.nextNotification()`. Reading `classList` of
`this.items[this.currentIndex]` is a `TypeError` when there is no such item. -/
def nextNotification (b : NotificationBanner) : Ran NotificationBanner :=
  match b.items.get? b.currentIndex with
  | none => { state := b, completion := Completion.typeError }
  | some _ =>
    { state :=
        { b with
          items := b.items.modify (fun it => { it with active := false }) b.currentIndex
          currentIndex := (b.currentIndex + 1) % b.items.length
          pendingShows := b.pendingShows + 1
          timerSeq := b.timerSeq + 1 }
      completion := Completion.normal }

/-- `NotificationBanner.previousNotification()`. -/
def previousNotification (b : NotificationBanner) : Ran NotificationBanner :=
  match b.items.get? b.currentIndex with
  | none => { state := b, completion := Completion.typeError }
  | some _ =>
    { state :=
        { b with
          items := b.items.modify (fun it => { it with active := false }) b.currentIndex
          currentIndex := if b.currentIndex = 0 then b.items.length - 1 else b.currentIndex - 1
          pendingShows := b.pendingShows + 1
          timerSeq := b.timerSeq + 1 }
      completion := Completion.normal }

/-- The callback scheduled by `nextNotification` and `previousNotification`
with `setTimeout(..., 300)` fires: the item at the index of that moment gets
`active` and its text is announced. -/
def showCallback (b : NotificationBanner) : Ran NotificationBanner :=
  if b.pendingShows = 0 then { state := b, completion := Completion.normal }
  else
    let b1 : NotificationBanner := { b with pendingShows := b.pendingShows - 1 }
    match b1.items.get? b1.currentIndex with
    | none => { state := b1, completion := Completion.typeError }
    | some it =>
      { state :=
          announceToScreenReader
            { b1 with items := b1.items.modify (fun x => { x with active := true }) b1.currentIndex }
            it.text
        completion := Completion.normal }

/-- `NotificationBanner.setRotationSpeed(speed)`. -/
def setRotationSpeed (b : NotificationBanner) (speed : Int) : NotificationBanner :=
  startRotation (stopRotation { b with rotationSpeed := speed })

/-- The constructor followed by `init()`, on a document with the given banner
element, items, toggle container and stored closed flag. -/
def construct (banner : Option Bool) (items : List NotificationItem)
    (toggleContainer : Option Bool) (closedFlag : Option String) : NotificationBanner :=
  let b0 : NotificationBanner :=
    { banner := banner
      items := items
      toggleContainer := toggleContainer
      currentIndex := 0
      interval := none
      isPaused := false
      rotationSpeed := 25000
      closedFlag := closedFlag
      running := []
      timerSeq := 1
      pendingShows := 0
      announcements := [] }
  match banner, items with
  | none, _ => b0
  | some _, [] => b0
  | some _, first :: _ =>
    announceToScreenReader (startRotation { b0 with closedFlag := none }) first.text

end NotificationBanner

/-- The public operations that start and stop the rotation. -/
inductive BannerCall where
  | closeBanner
  | showBanner
  | setRotationSpeed (speed : Int)
  | pauseRotation
  | resumeRotation
  deriving DecidableEq, Repr

/-- Make one call; the writes made before an exception stay. -/
def NotificationBanner.call (b : NotificationBanner) : BannerCall → NotificationBanner
  | BannerCall.closeBanner => (NotificationBanner.closeBanner b).state
  | BannerCall.showBanner => (NotificationBanner.showBanner b).state
  | BannerCall.setRotationSpeed speed => NotificationBanner.setRotationSpeed b speed
  | BannerCall.pauseRotation => NotificationBanner.pauseRotation b
  | BannerCall.resumeRotation => NotificationBanner.resumeRotation b

/-- Make a sequence of calls in order. -/
def NotificationBanner.calls (b : NotificationBanner) (cs : List BannerCall) :
    NotificationBanner :=
  cs.foldl NotificationBanner.call b

/-- A banner with three messages as the constructor leaves it. -/
def bannerConstructed : NotificationBanner :=
  NotificationBanner.construct (some false)
    [{ active := true, text := "Extended hours" },
     { active := false, text := "New e-journals" },
     { active := false, text := "Workshop on Friday" }]
    (some false) none

/-! ## accessibility-toolkit.js: actions, reset, import, focus trap -/

/-- `AccessibilityToolkit.resetFontSize()`. The text of the announcement is
not represented. -/
def resetFontSize (p : ToolkitPage) : ToolkitPage :=
  { p with font := { p.font with cssScale := none, stored := StoredScale.absent } }

/-- The twelve methods `toggleHighContrast`, `toggleDarkMode`, ... ,
`toggleAltTextDisplay`: the class of the feature is toggled on `body` and the
button gets `aria-pressed` set to the new state. -/
def toggleFeature (p : ToolkitPage) (f : Feature) : ToolkitPage :=
  let isActive := !p.bodyClass f
  { p with
    bodyClass := Function.update p.bodyClass f isActive
    pressed := Function.update p.pressed f isActive }

/-- `AccessibilityToolkit.toggleSkipLinks(button)`. -/
def toggleSkipLinks (p : ToolkitPage) : ToolkitPage :=
  let isVisible := !p.skipLinksVisible
  { p with skipLinksVisible := isVisible, skipLinksPressed := isVisible }

/-- `AccessibilityToolkit.resetAllSettings()`: the twelve classes are removed
from `body`, the CSS scale is removed, every element with `aria-pressed` gets
`false`, and both storage keys are removed. -/
def resetAllSettings (p : ToolkitPage) : ToolkitPage :=
  { p with
    bodyClass := fun _ => false
    pressed := fun _ => false
    skipLinksPressed := false
    font := { p.font with cssScale := none, stored := StoredScale.absent }
    preferences := StoredPrefs.absent }

/-- The values of `data-action` that `handleAction` can receive; `other` stands
for a value that matches no `case`. -/
inductive Action where
  | fontIncrease
  | fontDecrease
  | fontReset
  | feature (f : Feature)
  | skipLinks
  | resetAll
  | other
  deriving DecidableEq, Repr

/-- `AccessibilityToolkit.handleAction(action, button)`: the `switch`, then
`this.savePreferences()` for every action. -/
def handleAction (p : ToolkitPage) (action : Action) : ToolkitPage :=
  savePreferences
    (match action with
     | Action.fontIncrease => { p with font := adjustFontSize p.font (JsNum.fin (11 / 10)) }
     | Action.fontDecrease => { p with font := adjustFontSize p.font (JsNum.fin (9 / 10)) }
     | Action.fontReset => resetFontSize p
     | Action.feature f => toggleFeature p f
     | Action.skipLinks => toggleSkipLinks p
     | Action.resetAll => resetAllSettings p
     | Action.other => p)

/-- Handle a sequence of panel actions in order. -/
def handleActions (p : ToolkitPage) (actions : List Action) : ToolkitPage :=
  actions.foldl handleAction p

/-- What `JSON.parse` makes of an imported file: it throws, it yields `null`,
or it yields a value whose `preferences` and `fontSize` properties, written to
storage as strings, are the given entries (`absent` for a missing property). -/
inductive ImportFile where
  | malformed
  | null
  | settings (preferences : StoredPrefs) (fontSize : StoredScale)
  deriving DecidableEq

/-- `if (settings.preferences)`: a missing property and the empty string are
falsy. -/
def StoredPrefs.truthy : StoredPrefs → Bool
  | StoredPrefs.absent => false
  | StoredPrefs.empty => false
  | _ => true

/-- `if (settings.fontSize)`. -/
def StoredScale.truthy : StoredScale → Bool
  | StoredScale.absent => false
  | StoredScale.empty => false
  | StoredScale.text _ => true

/-- The `onload` callback of `AccessibilityToolkit.importSettings(file)`. An
exception of `JSON.parse` or of reading a property of `null` is caught. -/
def importSettings (p : ToolkitPage) (file : ImportFile) : ToolkitPage :=
  match file with
  | ImportFile.malformed => p
  | ImportFile.null => p
  | ImportFile.settings preferences fontSize =>
    let p1 : ToolkitPage :=
      if preferences.truthy then { p with preferences := preferences } else p
    let p2 : ToolkitPage :=
      if fontSize.truthy then { p1 with font := { p1.font with stored := fontSize } } else p1
    loadSavedPreferences p2

/-- Whether some entry of a parsed object names the feature and is truthy. -/
def activates (entries : List (String × JsonValue)) (f : Feature) : Bool :=
  entries.any (fun kv => kv.2.truthy && decide (Feature.ofKey kv.1 = some f))

/-- The comparison `document.activeElement === element`, where the element
may be `undefined` and the active element may be `null`. -/
def sameElement (active element : Option Nat) : Bool :=
  match active, element with
  | some a, some e => decide (a = e)
  | _, _ => false

/-- `AccessibilityToolkit.trapFocus(e, container)` for the focusable elements
of the container in document order, the active element and `e.shiftKey`. The
result is the active element afterwards and whether `preventDefault` ran. -/
def trapFocus (focusable : List Nat) (active : Option Nat) (shiftKey : Bool) :
    Option Nat × Bool :=
  let firstElement := focusable.head?
  let lastElement := focusable.getLast?
  if shiftKey then
    if sameElement active firstElement then (lastElement, true) else (active, false)
  else
    if sameElement active lastElement then (firstElement, true) else (active, false)

/-- The `keydown` listener `MobileMenu.setupFocusManagement` puts on the
overlay, for the focusable elements found at setup. -/
def MobileMenu.focusTrapKeydown (focusable : List Nat) (active : Option Nat) (key : String)
    (shiftKey : Bool) : Option Nat × Bool :=
  let firstFocusableElement := focusable.head?
  let lastFocusableElement := focusable.getLast?
  if key = "Tab" then
    if shiftKey then
      if sameElement active firstFocusableElement then (lastFocusableElement, true)
      else (active, false)
    else
      if sameElement active lastFocusableElement then (firstFocusableElement, true)
      else (active, false)
  else (active, false)

/-- The page as the toolkit constructor leaves it on first visit. -/
def firstVisitPage : ToolkitPage :=
  loadSavedPreferences (freshPage StoredScale.absent StoredPrefs.absent)

/-! ## mobile-menu.js: click listeners -/

/-- The click listener `testMobileMenuButton` puts on the toggle button: with
an overlay, inline styles force it visible and `body` gets `overflow: hidden`. -/
def testClickHandler (d : MenuDom) : MenuDom :=
  match d.menuOverlay with
  | none => d
  | some o => { d with menuOverlay := some { o with inlineShown := true }, bodyOverflow := "hidden" }

/-- The second click listener `MobileMenu.setupEventListeners` puts on the
toggle button: with an overlay, the overlay gets `active` and `body` gets
`menu-open`. -/
def directClickHandler (d : MenuDom) : MenuDom :=
  match d.menuOverlay with
  | none => d
  | some o => { d with menuOverlay := some { o with active := true }, bodyMenuOpen := true }

/-- A click on the toggle button with the listeners `initializeMobileMenu`
registers, in registration order: the one of `testMobileMenuButton`, then
`this.toggle()`, then the second listener of `setupEventListeners`. -/
def toggleButtonClick (s : MenuState) : MenuState :=
  let s1 : MenuState := { s with dom := testClickHandler s.dom }
  let s2 : MenuState := (MobileMenu.toggle s1).state
  { s2 with dom := directClickHandler s2.dom }

/-- A number of clicks on the toggle button. -/
def toggleButtonClicks (s : MenuState) : Nat → MenuState
  | 0 => s
  | n + 1 => toggleButtonClick (toggleButtonClicks s n)

/-- The overlay has `active` and `body` has `menu-open` exactly when the menu
is open. -/
def VisibleMatchesOpen (s : MenuState) : Prop :=
  (s.dom.menuOverlay.map (fun o => o.active) = some true ∧ s.dom.bodyMenuOpen = true)
    ↔ s.menu.isOpen = true

/-- Every `MobileMenu` instance created on the page, in order of creation,
and the document they share. -/
structure MenuPage where
  menus : List MobileMenu
  dom : MenuDom
  deriving DecidableEq, Repr

/-- Where a clicked link is: inside `#mobileMenuOverlay`, or outside both the
overlay and the toggle button. -/
inductive ClickTarget where
  | insideOverlay
  | outside
  deriving DecidableEq, Repr

/-- The document click listener of one instance: an open menu is closed when
the click is neither in the overlay nor in the toggle button. -/
def MobileMenu.documentClick (s : MenuState) (target : ClickTarget) : Ran MenuState :=
  if s.menu.isOpen then
    match s.dom.menuOverlay with
    | none => { state := s, completion := Completion.typeError }
    | some _ =>
      match target with
      | ClickTarget.insideOverlay => { state := s, completion := Completion.normal }
      | ClickTarget.outside =>
        match s.dom.menuToggle with
        | none => { state := s, completion := Completion.typeError }
        | some _ => MobileMenu.close s
  else { state := s, completion := Completion.normal }

/-- The document click listener at the end of the script, for a link to an
existing in-page target: when the overlay has `active`, a new `MobileMenu` is
constructed and `close()` is called on it. -/
def anchorHandler (p : MenuPage) (paired : Nat → Bool) (hasFocusable : Bool) : MenuPage :=
  match p.dom.menuOverlay with
  | none => p
  | some o =>
    if o.active then
      let made := MobileMenu.construct p.dom paired hasFocusable
      let closed := MobileMenu.close made.state
      { menus := p.menus ++ [closed.state.menu], dom := closed.state.dom }
    else p

/-- Run the document click listener of the instance at position `i`. -/
def MenuPage.instanceClick (p : MenuPage) (target : ClickTarget) (i : Nat) : MenuPage :=
  match p.menus.get? i with
  | none => p
  | some m =>
    let r := MobileMenu.documentClick { menu := m, dom := p.dom } target
    { menus := p.menus.set i r.state.menu, dom := r.state.dom }

/-- A click on an in-page link with an existing target. The script is
evaluated while the document is loading, so its own listener is registered
before those of any instance and runs first; then come the listeners of the
instances that existed before the click, in order of creation. -/
def anchorClick (p : MenuPage) (target : ClickTarget) (paired : Nat → Bool)
    (hasFocusable : Bool) : MenuPage :=
  (List.range p.menus.length).foldl (fun acc i => acc.instanceClick target i)
    (anchorHandler p paired hasFocusable)

/-- The sample page with its one menu instance open. -/
def openMenuPage : MenuPage :=
  { menus := [(MobileMenu.openMenu closedMenu).state.menu]
    dom := (MobileMenu.openMenu closedMenu).state.dom }

instance (s : MenuState) : Decidable (VisibleMatchesOpen s) := by
  unfold VisibleMatchesOpen
  exact inferInstance

/-! ## new-arrivals.js: changing the book list -/

namespace NewArrivalsCarousel

/-- `NewArrivalsCarousel.addBook(book)`, the book given by its id. -/
def addBook (c : NewArrivalsCarousel) (bookId : Nat) : Ran NewArrivalsCarousel :=
  renderBooks { c with books := c.books ++ [bookId] }

/-- `NewArrivalsCarousel.removeBook(bookId)`. -/
def removeBook (c : NewArrivalsCarousel) (bookId : Nat) : Ran NewArrivalsCarousel :=
  renderBooks { c with books := c.books.filter (fun id => id ≠ bookId) }

/-- `NewArrivalsCarousel.updateBook(bookId, updates)`: the first book with
that id is replaced; `updatedId` is its id afterwards, which is `bookId`
unless `updates` carries another one. Without such a book nothing happens. -/
def updateBook (c : NewArrivalsCarousel) (bookId updatedId : Nat) : Ran NewArrivalsCarousel :=
  if bookId ∈ c.books then renderBooks { c with books := c.books.replace bookId updatedId }
  else { state := c, completion := Completion.normal }

/-- `NewArrivalsCarousel.refresh()`. -/
def refresh (c : NewArrivalsCarousel) : Ran NewArrivalsCarousel :=
  (renderBooks c).andThen (fun c1 => updatePosition { c1 with currentPosition := 0 })

end NewArrivalsCarousel

/-- The sample carousel scrolled to its end. -/
def arrivalsAtEnd : NewArrivalsCarousel :=
  (NewArrivalsCarousel.scrollToEnd arrivalsOnPage).state

/-! ## stats.js

The arithmetic of `animateNumber` is that of JavaScript Numbers, binary64. A
finite binary64 number is kept as the integer number of units of `2^-1074` it
consists of, and a quotient or a sum is the exact rational rounded to the
nearest such number, ties to the even significand. The two zeros are not told
apart, and `NaN` and the infinities are not represented: a result of `2^1024`
or more is kept as it is.
-/

namespace Binary64

/-- The number of units in 1. A finite binary64 number is an integer multiple
of `2^-1074`, the smallest positive one, and is kept here as that integer. -/
def one : Nat := 2 ^ 1074

/-- The position of the leading bit of `q` by binary search: the largest `e`
among `lo, …, lo + 2^k - 1` with `2^e ≤ q`, given that `2^lo ≤ q`. -/
def leadingBit (q : Nat) : Nat → Nat → Nat
  | 0, lo => lo
  | k + 1, lo =>
    if 2 ^ (lo + 2 ^ k) ≤ q then leadingBit q k (lo + 2 ^ k) else leadingBit q k lo

/-- Round the non-negative rational `num / den`, given in units, to the
nearest binary64 number, ties to the even significand. With `q` the integer
part, a number of the size of `q` has a significand of 53 bits and so a
spacing of `2^s` units, `s` the number of bits of `q` beyond 53; `m` and
`m + 1` times the spacing are the two neighbours of `num / den`. Below `2^53`
units, which covers the subnormal numbers, the spacing is one unit. The
leading bit is looked for below `2^4096` units, above every quotient and sum
of binary64 numbers. -/
def roundNearestEven (num den : Nat) : Nat :=
  let q := num / den
  let s := (leadingBit q 12 0 + 1) - 53
  let m := q / 2 ^ s
  let twiceRest := 2 * ((q % 2 ^ s) * den + num % den)
  let spacing := 2 ^ s * den
  if twiceRest < spacing then m * 2 ^ s
  else if spacing < twiceRest then (m + 1) * 2 ^ s
  else if m % 2 = 0 then m * 2 ^ s
  else (m + 1) * 2 ^ s

/-- Rounding of a rational of either sign; rounding to nearest is symmetric. -/
def round (num : Int) (den : Nat) : Int :=
  if num < 0 then -((roundNearestEven num.natAbs den : Nat) : Int)
  else ((roundNearestEven num.natAbs den : Nat) : Int)

/-- The Number with the value of the integer `n`. -/
def ofInt (n : Int) : Int :=
  round (n * (one : Int)) 1

/-- The sum `a + b` of two Numbers. -/
def add (a b : Int) : Int :=
  round (a + b) 1

/-- The quotient `a / b` of two Numbers, `b` not zero. -/
def div (a b : Int) : Int :=
  round (a * (one : Int) * b.sign) b.natAbs

/-- The integer `Math.floor(a)`. -/
def floor (a : Int) : Int :=
  a / (one : Int)

/-- A non-negative number of units that is a binary64 number: a significand
below `2^53` times a power of two. -/
def IsBinary64 (y : Nat) : Prop :=
  ∃ m s : Nat, m < 2 ^ 53 ∧ y = m * 2 ^ s

end Binary64

/-- The state of one run of `StatsAnimator.animateNumber`: the local variable
`current` (a binary64 number, in units of `2^-1074`), whether the interval is
live, the numbers written to `textContent` (newest first), and the classes
`counting` and `completed` of the element. -/
structure StatCounter where
  current : Int
  running : Bool
  shown : List Int
  counting : Bool
  completed : Bool
  deriving DecidableEq

namespace StatsAnimator

/-- The value `parseInt(element.dataset.target) || 0`, `none` standing for a
missing or non-numeric attribute. -/
def target (parsed : Option Int) : Int :=
  parsed.getD 0

/-- `StatsAnimator.animateNumber(element)` up to the first tick: `current` is
0, the interval is live, the element has `counting`. -/
def animateNumber : StatCounter :=
  { current := 0, running := true, shown := [], counting := true, completed := false }

/-- The constant `increment` of `animateNumber`: `target / (duration / 16)`
with `duration = 2000`, both divisions in binary64. -/
def increment (target : Int) : Int :=
  Binary64.div (Binary64.ofInt target)
    (Binary64.div (Binary64.ofInt 2000) (Binary64.ofInt 16))

/-- One run of the interval callback of `animateNumber` for the given target:
`current += increment` in binary64, then the comparison with the target. A
cleared interval does not fire. -/
def tick (target : Int) (c : StatCounter) : StatCounter :=
  if !c.running then c
  else
    let current := Binary64.add c.current (increment target)
    if current ≥ Binary64.ofInt target then
      { current := Binary64.ofInt target
        running := false
        shown := Binary64.floor (Binary64.ofInt target) :: c.shown
        counting := false
        completed := true }
    else { c with current := current, shown := Binary64.floor current :: c.shown }

/-- The state after a number of ticks. -/
def ticks (target : Int) : Nat → StatCounter
  | 0 => animateNumber
  | n + 1 => tick target (ticks target n)

end StatsAnimator

/-! ## Carousel: auxiliary facts -/

theorem markItems_length (cur : Int) (k : Nat) (l : List Item) :
    (markItems cur k l).length = l.length := by
  induction l generalizing k with
  | nil => rfl
  | cons it rest ih => simp [markItems, ih]

theorem updateCarousel_skip (c : ModernCarousel) (h : c.isTransitioning = true) :
    updateCarousel c true = { state := c, completion := Completion.normal } := by
  simp [updateCarousel, h]

theorem updateCarousel_currentIndex (c : ModernCarousel) (animate : Bool) :
    (updateCarousel c animate).state.currentIndex = c.currentIndex := by
  unfold updateCarousel
  split
  · rfl
  · dsimp only
    split
    · rfl
    · split <;> rfl

theorem updateCarousel_items_length (c : ModernCarousel) (animate : Bool) :
    (updateCarousel c animate).state.items.length = c.items.length := by
  unfold updateCarousel
  split
  · rfl
  · dsimp only
    split
    · exact markItems_length _ _ _
    · split <;> exact markItems_length _ _ _

theorem updateCarousel_loop (c : ModernCarousel) (animate : Bool) :
    (updateCarousel c animate).state.loop = c.loop := by
  unfold updateCarousel
  split
  · rfl
  · dsimp only
    split
    · rfl
    · split <;> rfl

theorem updateCarousel_prevBtn (c : ModernCarousel) (animate : Bool)
    (h : (c.isTransitioning && animate) = false) :
    (updateCarousel c animate).state.prevBtn
      = c.prevBtn.map (fun _ => !c.loop && decide (c.currentIndex = 0)) := by
  unfold updateCarousel
  rw [if_neg (by simp [h])]
  dsimp only
  split
  · rfl
  · split <;> rfl

theorem updateCarousel_nextBtn (c : ModernCarousel) (animate : Bool)
    (h : (c.isTransitioning && animate) = false) :
    (updateCarousel c animate).state.nextBtn
      = c.nextBtn.map
          (fun _ => !c.loop && decide (c.currentIndex = (c.items.length : Int) - 1)) := by
  unfold updateCarousel
  rw [if_neg (by simp [h])]
  dsimp only
  split
  · rfl
  · split <;> rfl

theorem currentSlide_isSome (c : ModernCarousel) (h0 : 0 ≤ c.currentIndex)
    (h1 : c.currentIndex < (c.items.length : Int)) : (currentSlide c).isSome = true := by
  unfold currentSlide
  rw [if_pos h0]
  have hlt : c.currentIndex.toNat < c.items.length := by omega
  simp [List.get?_eq_getElem?, List.getElem?_eq_getElem hlt]

theorem updateCarousel_completion (c : ModernCarousel) (animate : Bool)
    (h0 : 0 ≤ c.currentIndex) (h1 : c.currentIndex < (c.items.length : Int)) :
    (updateCarousel c animate).completion = Completion.normal := by
  unfold updateCarousel
  split
  · rfl
  · dsimp only
    split
    · rename_i hnone
      have hs := currentSlide_isSome
        { c with
          isTransitioning := true
          translateX := -c.currentIndex * 100
          items := markItems c.currentIndex 0 c.items
          dots := c.dots.map (markDots c.currentIndex 0)
          prevBtn := c.prevBtn.map (fun _ => !c.loop && decide (c.currentIndex = 0))
          nextBtn := c.nextBtn.map
            (fun _ => !c.loop && decide (c.currentIndex = (c.items.length : Int) - 1)) }
        h0 (by simpa [markItems_length] using h1)
      rw [hnone] at hs
      simp at hs
    · split <;> rfl

theorem pauseAutoplay_fields (c : ModernCarousel) :
    (pauseAutoplay c).currentIndex = c.currentIndex ∧ (pauseAutoplay c).items = c.items
      ∧ (pauseAutoplay c).loop = c.loop ∧ (pauseAutoplay c).prevBtn = c.prevBtn
      ∧ (pauseAutoplay c).nextBtn = c.nextBtn
      ∧ (pauseAutoplay c).isTransitioning = c.isTransitioning := by
  unfold pauseAutoplay
  dsimp only
  split
  · simp
  · split <;> simp

theorem resumeAutoplay_fields (c : ModernCarousel) :
    (resumeAutoplay c).currentIndex = c.currentIndex ∧ (resumeAutoplay c).items = c.items
      ∧ (resumeAutoplay c).loop = c.loop ∧ (resumeAutoplay c).prevBtn = c.prevBtn
      ∧ (resumeAutoplay c).nextBtn = c.nextBtn
      ∧ (resumeAutoplay c).isTransitioning = c.isTransitioning := by
  unfold resumeAutoplay startAutoplay
  split
  · split <;> simp
  · simp

theorem restartAutoplay_fields (c : ModernCarousel) :
    (restartAutoplay c).currentIndex = c.currentIndex ∧ (restartAutoplay c).items = c.items
      ∧ (restartAutoplay c).loop = c.loop ∧ (restartAutoplay c).prevBtn = c.prevBtn
      ∧ (restartAutoplay c).nextBtn = c.nextBtn
      ∧ (restartAutoplay c).isTransitioning = c.isTransitioning := by
  unfold restartAutoplay
  obtain ⟨a1, a2, a3, a4, a5, a6⟩ := resumeAutoplay_fields (pauseAutoplay c)
  obtain ⟨b1, b2, b3, b4, b5, b6⟩ := pauseAutoplay_fields c
  exact ⟨a1.trans b1, a2.trans b2, a3.trans b3, a4.trans b4, a5.trans b5, a6.trans b6⟩

theorem andThen_restart_fields (o : Outcome) :
    (o.andThen restartAutoplay).state.currentIndex = o.state.currentIndex
      ∧ (o.andThen restartAutoplay).state.items = o.state.items
      ∧ (o.andThen restartAutoplay).state.loop = o.state.loop
      ∧ (o.andThen restartAutoplay).state.prevBtn = o.state.prevBtn
      ∧ (o.andThen restartAutoplay).state.nextBtn = o.state.nextBtn
      ∧ (o.andThen restartAutoplay).state.isTransitioning = o.state.isTransitioning
      ∧ (o.andThen restartAutoplay).completion = o.completion := by
  unfold Outcome.andThen
  split
  · rename_i hn
    obtain ⟨a1, a2, a3, a4, a5, a6⟩ := restartAutoplay_fields o.state
    exact ⟨a1, a2, a3, a4, a5, a6, hn.symm⟩
  · simp

/-- After setting the index to `i` and running `updateCarousel(); restartAutoplay()`
the index is `i` and the item count is unchanged. -/
theorem moveTo_index (c : ModernCarousel) (i : Int) :
    ((updateCarousel { c with currentIndex := i } true).andThen restartAutoplay).state.currentIndex
        = i
      ∧ ((updateCarousel { c with currentIndex := i } true).andThen
          restartAutoplay).state.items.length = c.items.length := by
  obtain ⟨a1, a2, -⟩ := andThen_restart_fields (updateCarousel { c with currentIndex := i } true)
  refine ⟨a1.trans (updateCarousel_currentIndex _ _), ?_⟩
  rw [a2]
  exact updateCarousel_items_length _ _

theorem moveTo_completion (c : ModernCarousel) (i : Int) (h0 : 0 ≤ i)
    (h1 : i < (c.items.length : Int)) :
    ((updateCarousel { c with currentIndex := i } true).andThen restartAutoplay).completion
      = Completion.normal := by
  obtain ⟨-, -, -, -, -, -, a7⟩ :=
    andThen_restart_fields (updateCarousel { c with currentIndex := i } true)
  rw [a7]
  exact updateCarousel_completion _ _ h0 h1


/-! ## Carousel: navigation at the boundaries -/

/-- C1: without looping, `nextSlide` at the last index returns the state it was
given (index, transition flag, markers and autoplay timer included), and once
`updateCarousel` has applied that index the next button, when present, is
disabled and `nextSlide` keeps it so; the same for `previousSlide` and the
previous button at index 0. -/
theorem boundary_noop_without_loop (c : ModernCarousel) (animate : Bool)
    (hloop : c.loop = false) :
    (c.currentIndex = (c.items.length : Int) - 1 →
      nextSlide c = { state := c, completion := Completion.normal } ∧
      ((c.isTransitioning && animate) = false →
        (updateCarousel c animate).state.nextBtn = c.nextBtn.map (fun _ => true) ∧
        nextSlide (updateCarousel c animate).state
          = { state := (updateCarousel c animate).state, completion := Completion.normal })) ∧
    (c.currentIndex = 0 →
      previousSlide c = { state := c, completion := Completion.normal } ∧
      ((c.isTransitioning && animate) = false →
        (updateCarousel c animate).state.prevBtn = c.prevBtn.map (fun _ => true) ∧
        previousSlide (updateCarousel c animate).state
          = { state := (updateCarousel c animate).state, completion := Completion.normal })) := by
  have hnext : ∀ d : ModernCarousel, d.loop = false →
      d.currentIndex = (d.items.length : Int) - 1 →
      nextSlide d = { state := d, completion := Completion.normal } := by
    intro d hl hc
    unfold nextSlide
    rw [if_neg (by omega), if_neg (by simp [hl])]
  have hprev : ∀ d : ModernCarousel, d.loop = false → d.currentIndex = 0 →
      previousSlide d = { state := d, completion := Completion.normal } := by
    intro d hl hc
    unfold previousSlide
    rw [if_neg (by omega), if_neg (by simp [hl])]
  refine ⟨fun hc => ⟨hnext c hloop hc, fun hg => ⟨?_, ?_⟩⟩,
    fun hc => ⟨hprev c hloop hc, fun hg => ⟨?_, ?_⟩⟩⟩
  · rw [updateCarousel_nextBtn c animate hg]
    simp [hloop, hc]
  · apply hnext
    · rw [updateCarousel_loop, hloop]
    · rw [updateCarousel_currentIndex, updateCarousel_items_length, hc]
  · rw [updateCarousel_prevBtn c animate hg]
    simp [hloop, hc]
  · apply hprev
    · rw [updateCarousel_loop, hloop]
    · rw [updateCarousel_currentIndex, hc]

/-- Witness for C1: the three-slide carousel at its last index, and at index 0. -/
theorem boundary_noop_without_loop_witness :
    (nextSlide boundedAtLast = { state := boundedAtLast, completion := Completion.normal } ∧
      (updateCarousel boundedAtLast false).state.nextBtn = some true) ∧
    (previousSlide boundedAtFirst
        = { state := boundedAtFirst, completion := Completion.normal } ∧
      (updateCarousel boundedAtFirst false).state.prevBtn = some true) :=
  ⟨⟨((boundary_noop_without_loop boundedAtLast false (by decide)).1 (by decide)).1,
      (((boundary_noop_without_loop boundedAtLast false (by decide)).1 (by decide)).2
        (by decide)).1⟩,
    ⟨((boundary_noop_without_loop boundedAtFirst false (by decide)).2 (by decide)).1,
      (((boundary_noop_without_loop boundedAtFirst false (by decide)).2 (by decide)).2
        (by decide)).1⟩⟩

/-- C2: with looping and at least one item, `nextSlide` at the last index
returns normally with index 0, and `previousSlide` at index 0 returns normally
with the last index. -/
theorem wrap_around_with_loop (c : ModernCarousel) (hloop : c.loop = true)
    (hne : c.items ≠ []) :
    (c.currentIndex = (c.items.length : Int) - 1 →
      (nextSlide c).state.currentIndex = 0 ∧ (nextSlide c).completion = Completion.normal) ∧
    (c.currentIndex = 0 →
      (previousSlide c).state.currentIndex = (c.items.length : Int) - 1 ∧
      (previousSlide c).completion = Completion.normal) := by
  have hpos : 0 < c.items.length := List.length_pos.mpr hne
  constructor
  · intro hc
    unfold nextSlide
    rw [if_neg (by omega), if_pos hloop]
    exact ⟨(moveTo_index c 0).1, moveTo_completion c 0 (le_refl 0) (by omega)⟩
  · intro hc
    unfold previousSlide
    rw [if_neg (by omega), if_pos hloop]
    exact ⟨(moveTo_index c _).1, moveTo_completion c _ (by omega) (by omega)⟩

/-- Witness for C2: five slides, index 4 moves to 0 and index 0 moves to 4. -/
theorem wrap_around_with_loop_witness :
    (loopingAtLast.currentIndex = 4 ∧ (nextSlide loopingAtLast).state.currentIndex = 0) ∧
    (loopingAtFirst.currentIndex = 0 ∧ (previousSlide loopingAtFirst).state.currentIndex = 4) :=
  ⟨⟨by decide, ((wrap_around_with_loop loopingAtLast (by decide) (by decide)).1 (by decide)).1⟩,
    ⟨by decide,
      ((wrap_around_with_loop loopingAtFirst (by decide) (by decide)).2 (by decide)).1⟩⟩

/-- C3: with looping, whenever `updateCarousel` applies the index (it is not
skipped by the transition guard) both buttons, when present, end up enabled,
whatever the index; in particular `nextSlide` from the last slide, with no
transition in flight, lands on index 0 with both buttons enabled. -/
theorem loop_never_disables_controls (c : ModernCarousel) (hloop : c.loop = true) :
    (∀ animate : Bool, (c.isTransitioning && animate) = false →
      (updateCarousel c animate).state.prevBtn = c.prevBtn.map (fun _ => false) ∧
      (updateCarousel c animate).state.nextBtn = c.nextBtn.map (fun _ => false)) ∧
    (c.items ≠ [] → c.currentIndex = (c.items.length : Int) - 1 → c.isTransitioning = false →
      (nextSlide c).state.currentIndex = 0 ∧
      (nextSlide c).state.prevBtn = c.prevBtn.map (fun _ => false) ∧
      (nextSlide c).state.nextBtn = c.nextBtn.map (fun _ => false)) := by
  constructor
  · intro animate hg
    rw [updateCarousel_prevBtn c animate hg, updateCarousel_nextBtn c animate hg]
    simp [hloop]
  · intro hne hc ht
    have hpos : 0 < c.items.length := List.length_pos.mpr hne
    unfold nextSlide
    rw [if_neg (by omega), if_pos hloop]
    obtain ⟨a1, -, -, a4, a5, -⟩ :=
      andThen_restart_fields (updateCarousel { c with currentIndex := 0 } true)
    refine ⟨(moveTo_index c 0).1, ?_, ?_⟩
    · rw [a4, updateCarousel_prevBtn _ _ (by simp [ht])]
      simp [hloop]
    · rw [a5, updateCarousel_nextBtn _ _ (by simp [ht])]
      simp [hloop]

/-- Witness for C3: the five-slide looping carousel at index 4, once its first
transition has ended. -/
theorem loop_never_disables_controls_witness :
    (nextSlide (transitionTimeout loopingAtLast)).state.currentIndex = 0 ∧
    (nextSlide (transitionTimeout loopingAtLast)).state.prevBtn = some false ∧
    (nextSlide (transitionTimeout loopingAtLast)).state.nextBtn = some false :=
  (loop_never_disables_controls (transitionTimeout loopingAtLast) (by decide)).2
    (by decide) (by decide) (by decide)

/-- C4: `goToSlide(i)` with `i` negative, `i` at or past the item count, or `i`
equal to the current index returns the state it was given, unchanged in every
field. -/
theorem goToSlide_rejected (c : ModernCarousel) (i : Int)
    (h : i < 0 ∨ i ≥ (c.items.length : Int) ∨ i = c.currentIndex) :
    goToSlide c i = { state := c, completion := Completion.normal } := by
  unfold goToSlide
  rw [if_pos h]

/-- Witness for C4: index 3 on a three-slide carousel. -/
theorem goToSlide_rejected_witness :
    goToSlide boundedAtFirst 3 = { state := boundedAtFirst, completion := Completion.normal } :=
  goToSlide_rejected boundedAtFirst 3 (by decide)

/-- C5 (what the code does): during a transition `nextSlide`, `previousSlide`
and `goToSlide` still write `currentIndex`; only the view update is skipped. -/
theorem navigation_during_transition_moves_index :
    boundedAtFirst.isTransitioning = true ∧ boundedAtFirst.currentIndex = 0 ∧
    (nextSlide boundedAtFirst).state.currentIndex = 1 ∧
    (goToSlide boundedAtFirst 2).state.currentIndex = 2 ∧
    boundedAtLast.isTransitioning = true ∧ boundedAtLast.currentIndex = 2 ∧
    (previousSlide boundedAtLast).state.currentIndex = 1 := by
  decide

/-- C6: from a state whose index addresses an item, `nextSlide`,
`previousSlide` and `goToSlide(i)` for every integer `i` return normally and
leave an index that addresses an item, with looping on or off. -/
theorem navigation_keeps_index_in_range (c : ModernCarousel) (h : InRange c) :
    (InRange (nextSlide c).state ∧ (nextSlide c).completion = Completion.normal) ∧
    (InRange (previousSlide c).state ∧ (previousSlide c).completion = Completion.normal) ∧
    (∀ i : Int, InRange (goToSlide c i).state ∧
      (goToSlide c i).completion = Completion.normal) := by
  obtain ⟨h0, h1⟩ := h
  have key : ∀ i : Int, 0 ≤ i → i < (c.items.length : Int) →
      InRange ((updateCarousel { c with currentIndex := i } true).andThen
        restartAutoplay).state ∧
      ((updateCarousel { c with currentIndex := i } true).andThen restartAutoplay).completion
        = Completion.normal := by
    intro i hi0 hi1
    obtain ⟨e1, e2⟩ := moveTo_index c i
    refine ⟨?_, moveTo_completion c i hi0 hi1⟩
    unfold InRange
    rw [e1, e2]
    exact ⟨hi0, hi1⟩
  refine ⟨?_, ?_, ?_⟩
  · unfold nextSlide
    split
    · exact key _ (by omega) (by omega)
    · split
      · exact key 0 (le_refl 0) (by omega)
      · exact ⟨⟨h0, h1⟩, rfl⟩
  · unfold previousSlide
    split
    · exact key _ (by omega) (by omega)
    · split
      · exact key _ (by omega) (by omega)
      · exact ⟨⟨h0, h1⟩, rfl⟩
  · intro i
    unfold goToSlide
    split
    · exact ⟨⟨h0, h1⟩, rfl⟩
    · rename_i hn
      exact key i (by omega) (by omega)

/-- Witness for C6: the three-slide carousel at its last index. -/
theorem navigation_keeps_index_in_range_witness :
    InRange boundedAtLast ∧ InRange (nextSlide boundedAtLast).state ∧
    InRange (previousSlide boundedAtLast).state ∧ InRange (goToSlide boundedAtLast 7).state :=
  ⟨by decide,
    (navigation_keeps_index_in_range boundedAtLast (by decide)).1.1,
    (navigation_keeps_index_in_range boundedAtLast (by decide)).2.1.1,
    ((navigation_keeps_index_in_range boundedAtLast (by decide)).2.2 7).1⟩

/-- C7 (what the code does): a `nextSlide` that arrives while the transition
started by the constructor is in flight moves `currentIndex` to 1 while item 0
and dot 0 keep the `active` marker, and the mismatch is still there after the
transition timer has fired. -/
theorem active_marker_can_lag_behind_index :
    (run boundedAtFirst [Event.next]).currentIndex = 1 ∧
    (run boundedAtFirst [Event.next]).items.map (fun it => it.active) = [true, false, false] ∧
    (run boundedAtFirst [Event.next]).dots.map (fun ds => ds.map (fun d => d.active))
      = some [true, false, false] ∧
    (run boundedAtFirst [Event.next, Event.timeout]).isTransitioning = false ∧
    (run boundedAtFirst [Event.next, Event.timeout]).currentIndex = 1 ∧
    (run boundedAtFirst [Event.next, Event.timeout]).items.map (fun it => it.active)
      = [true, false, false] := by
  decide

/-- C8: after a touch that starts at `s` and ends at `e`, `handleSwipe` leaves
the carousel as it is when `|s - e| ≤ 50`, is one call of `nextSlide` when
`s - e > 50`, and one call of `previousSlide` when `s - e < -50`. -/
theorem handleSwipe_threshold (c : ModernCarousel) (s e : Int) :
    (|s - e| ≤ 50 →
      touchEnd (touchStart c s) e
        = { state := { c with touchStartX := s, touchEndX := e },
            completion := Completion.normal }) ∧
    (s - e > 50 →
      touchEnd (touchStart c s) e = nextSlide { c with touchStartX := s, touchEndX := e }) ∧
    (s - e < -50 →
      touchEnd (touchStart c s) e
        = previousSlide { c with touchStartX := s, touchEndX := e }) := by
  refine ⟨fun h => ?_, fun h => ?_, fun h => ?_⟩
  · unfold touchEnd touchStart handleSwipe
    dsimp only
    rw [if_neg (by omega)]
  · have habs : |s - e| > 50 := lt_of_lt_of_le h (le_abs_self _)
    unfold touchEnd touchStart handleSwipe
    dsimp only
    rw [if_pos habs, if_pos (by omega)]
  · have habs : |s - e| > 50 := by
      have := neg_le_abs (s - e)
      omega
    unfold touchEnd touchStart handleSwipe
    dsimp only
    rw [if_pos habs, if_neg (by omega)]

/-- Witness for C8: a 30px swipe changes no index, a 60px swipe to the right
from index 2 is one `previousSlide`, a 60px swipe to the left from index 0 is
one `nextSlide`. -/
theorem handleSwipe_threshold_witness :
    (touchEnd (touchStart boundedAtLast 100) 130).state.currentIndex = 2 ∧
    touchEnd (touchStart boundedAtLast 100) 160
      = previousSlide { boundedAtLast with touchStartX := 100, touchEndX := 160 } ∧
    touchEnd (touchStart boundedAtFirst 160) 100
      = nextSlide { boundedAtFirst with touchStartX := 160, touchEndX := 100 } :=
  ⟨by rw [(handleSwipe_threshold boundedAtLast 100 130).1 (by decide)]; decide,
    (handleSwipe_threshold boundedAtLast 100 160).2.2 (by decide),
    (handleSwipe_threshold boundedAtFirst 160 100).2.1 (by decide)⟩


/-! ## Dropdown groups -/

namespace DesktopDropdowns

theorem wired_closed (d : DesktopDropdown) : wired (closed d) = wired d := by
  cases d with
  | mk a t m => cases t <;> rfl

/-- One visit of the `forEach` in `closeAllDropdowns`. -/
theorem closeAll_visit (k : Nat) :
    ∀ s : DesktopDropdowns, k ≤ s.dropdowns.length →
      ∀ j : Nat,
        (((List.range k).foldl
            (fun acc i =>
              match acc.dropdowns.get? i with
              | some d => if wired d then closeDropdown acc i else acc
              | none => acc) s).dropdowns)[j]?
          = if j < k then (s.dropdowns[j]?).map (fun d => if wired d then closed d else d)
            else s.dropdowns[j]? := by
  induction k with
  | zero => intro s _ j; simp
  | succ k ih =>
    intro s hk j
    rw [List.range_succ, List.foldl_append]
    simp only [List.foldl_cons, List.foldl_nil]
    have ihk := ih s (Nat.le_of_succ_le hk)
    generalize (List.range k).foldl
        (fun acc i =>
          match acc.dropdowns.get? i with
          | some d => if wired d then closeDropdown acc i else acc
          | none => acc) s = acc at ihk ⊢
    have hacck : acc.dropdowns[k]? = s.dropdowns[k]? := by
      rw [ihk k]; simp
    have hklt : k < s.dropdowns.length := hk
    rw [List.get?_eq_getElem?, hacck, List.getElem?_eq_getElem hklt]
    dsimp only
    by_cases hw : wired s.dropdowns[k] = true
    · rw [if_pos hw]
      unfold closeDropdown
      dsimp only
      by_cases hjk : j = k
      · subst hjk
        rw [List.getElem?_modify_eq, hacck, List.getElem?_eq_getElem hklt]
        simp [hw, closed]
      · rw [List.getElem?_modify_ne _ _ (Ne.symm hjk), ihk j]
        by_cases hlt : j < k
        · simp [hlt, Nat.lt_succ_of_lt hlt]
        · have : ¬ j < k + 1 := by omega
          simp [hlt, this]
    · rw [if_neg hw, ihk j]
      by_cases hjk : j = k
      · subst hjk
        simp [List.getElem?_eq_getElem hklt, hw]
      · by_cases hlt : j < k
        · simp [hlt, Nat.lt_succ_of_lt hlt]
        · have : ¬ j < k + 1 := by omega
          simp [hlt, this]

/-- The element list `closeAllDropdowns` leaves: every dropdown that passes the
guard is closed, the others are untouched. -/
theorem closeAll_dropdowns (s : DesktopDropdowns) :
    (closeAllDropdowns s).dropdowns
      = s.dropdowns.map (fun d => if wired d then closed d else d) := by
  apply List.ext_getElem?
  intro j
  unfold closeAllDropdowns
  rw [closeAll_visit s.dropdowns.length s (le_refl _) j, List.getElem?_map]
  by_cases hlt : j < s.dropdowns.length
  · simp [hlt]
  · have hnone : s.dropdowns[j]? = none := List.getElem?_eq_none (by omega)
    simp [hlt, hnone]

end DesktopDropdowns


/-- C9 (as stated, refuted): opening the complete dropdown of a header whose
other `.dropdown` element has no `.dropdown-menu` and carries `active` leaves
both elements with the `active` class, so the target is not the only open one. -/
theorem openDropdown_skips_bare_dropdown :
    ¬ (∀ (j : Nat) (d : DesktopDropdown),
        (DesktopDropdowns.openDropdown headerWithBareDropdown 0).dropdowns.get? j = some d →
        d.active = true → j = 0) := by
  intro h
  have h1 := h 1 { active := true, trigger := some false, hasMenu := false } (by decide) rfl
  exact absurd h1 (by decide)

/-- C9 (amended): after `MobileMenu.toggleDropdown` every dropdown other than
the target has no `active` class, every trigger other than the target's has
`aria-expanded` false, and the target is open exactly when its trigger was not
expanded before, so at most one dropdown is open. After
`DesktopDropdowns.openDropdown` on a dropdown that has a trigger and a menu,
the target is open and expanded and is `activeDropdown`, every other dropdown
that has a trigger and a menu is closed with `aria-expanded` false, and a
dropdown lacking either is left as it was. -/
theorem dropdown_exclusivity (m : MobileMenuDropdowns) (t d : Nat)
    (s : DesktopDropdowns) (i : Nat) (x : DesktopDropdown) :
    (t < m.dropdownTriggers.length → d < m.dropdowns.length →
      (∀ (j : Nat) (y : MobileDropdown), j ≠ d →
        (MobileMenu.toggleDropdown m t d).dropdowns.get? j = some y → y.active = false) ∧
      (∀ (j : Nat) (b : Bool), j ≠ t →
        (MobileMenu.toggleDropdown m t d).dropdownTriggers.get? j = some b → b = false) ∧
      ((MobileMenu.toggleDropdown m t d).dropdowns.get? d).map (fun y => y.active)
        = some (!m.dropdownTriggers.getD t false) ∧
      (MobileMenu.toggleDropdown m t d).dropdownTriggers.get? t
        = some (!m.dropdownTriggers.getD t false) ∧
      (∀ (j k : Nat) (y z : MobileDropdown),
        (MobileMenu.toggleDropdown m t d).dropdowns.get? j = some y →
        (MobileMenu.toggleDropdown m t d).dropdowns.get? k = some z →
        y.active = true → z.active = true → j = k)) ∧
    (s.dropdowns.get? i = some x → DesktopDropdowns.wired x = true →
      (DesktopDropdowns.openDropdown s i).dropdowns.get? i
        = some { active := true, trigger := some true, hasMenu := true } ∧
      (DesktopDropdowns.openDropdown s i).activeDropdown = some i ∧
      (∀ (j : Nat) (y : DesktopDropdown), j ≠ i → s.dropdowns.get? j = some y →
        (DesktopDropdowns.openDropdown s i).dropdowns.get? j
          = some (if DesktopDropdowns.wired y then
              { active := false, trigger := y.trigger.map (fun _ => false), hasMenu := y.hasMenu }
            else y)) ∧
      (∀ (j k : Nat) (y z : DesktopDropdown),
        (DesktopDropdowns.openDropdown s i).dropdowns.get? j = some y →
        (DesktopDropdowns.openDropdown s i).dropdowns.get? k = some z →
        DesktopDropdowns.wired y = true → DesktopDropdowns.wired z = true →
        y.active = true → z.active = true → j = k)) := by
  have hothers : ∀ (j : Nat) (y : MobileDropdown), j ≠ d →
      (MobileMenu.toggleDropdown m t d).dropdowns.get? j = some y → y.active = false := by
    intro j y hj hy
    unfold MobileMenu.toggleDropdown MobileMenu.closeAllDropdowns at hy
    dsimp only at hy
    split at hy
    · rw [List.get?_eq_getElem?, List.getElem?_modify_ne _ _ (Ne.symm hj),
        List.getElem?_map] at hy
      cases hget : m.dropdowns[j]? with
      | none => rw [hget] at hy; simp at hy
      | some y0 =>
        rw [hget] at hy
        simp only [Option.map_some', Option.some.injEq] at hy
        rw [← hy]
    · rw [List.get?_eq_getElem?, List.getElem?_map] at hy
      cases hget : m.dropdowns[j]? with
      | none => rw [hget] at hy; simp at hy
      | some y0 =>
        rw [hget] at hy
        simp only [Option.map_some', Option.some.injEq] at hy
        rw [← hy]
  have hdesk : ∀ (j : Nat) (y : DesktopDropdown), j ≠ i → s.dropdowns.get? j = some y →
      (DesktopDropdowns.openDropdown s i).dropdowns.get? j
        = some (if DesktopDropdowns.wired y then
            { active := false, trigger := y.trigger.map (fun _ => false), hasMenu := y.hasMenu }
          else y) := by
    intro j y hj hy
    rw [List.get?_eq_getElem?] at hy
    unfold DesktopDropdowns.openDropdown
    dsimp only
    rw [List.get?_eq_getElem?, List.getElem?_modify_ne _ _ (Ne.symm hj),
      DesktopDropdowns.closeAll_dropdowns, List.getElem?_map, hy]
    rfl
  have htarget : s.dropdowns.get? i = some x → DesktopDropdowns.wired x = true →
      (DesktopDropdowns.openDropdown s i).dropdowns.get? i
        = some { active := true, trigger := some true, hasMenu := true } := by
    intro hx hw
    rw [List.get?_eq_getElem?] at hx
    unfold DesktopDropdowns.openDropdown
    dsimp only
    rw [List.get?_eq_getElem?, List.getElem?_modify_eq,
      DesktopDropdowns.closeAll_dropdowns, List.getElem?_map, hx]
    cases x with
    | mk a tr hm =>
      cases tr with
      | none => simp [DesktopDropdowns.wired] at hw
      | some b =>
        simp only [DesktopDropdowns.wired, Option.isSome_some, Bool.true_and] at hw
        simp [DesktopDropdowns.wired, DesktopDropdowns.closed, hw]
  refine ⟨fun ht hd => ⟨hothers, ?_, ?_, ?_, ?_⟩, fun hx hw => ⟨htarget hx hw, rfl, hdesk, ?_⟩⟩
  · intro j b hj hb
    unfold MobileMenu.toggleDropdown MobileMenu.closeAllDropdowns at hb
    dsimp only at hb
    split at hb
    · rw [List.get?_eq_getElem?, List.getElem?_set_ne (Ne.symm hj), List.getElem?_map] at hb
      cases hget : m.dropdownTriggers[j]? with
      | none => rw [hget] at hb; simp at hb
      | some b0 => rw [hget] at hb; simpa using hb.symm
    · rw [List.get?_eq_getElem?, List.getElem?_map] at hb
      cases hget : m.dropdownTriggers[j]? with
      | none => rw [hget] at hb; simp at hb
      | some b0 => rw [hget] at hb; simpa using hb.symm
  · unfold MobileMenu.toggleDropdown MobileMenu.closeAllDropdowns
    dsimp only
    split
    · rename_i he
      rw [List.get?_eq_getElem?, List.getElem?_modify_eq, List.getElem?_map,
        List.getElem?_eq_getElem hd]
      simpa [MobileMenu.animateDropdownItems] using he
    · rename_i he
      rw [List.get?_eq_getElem?, List.getElem?_map, List.getElem?_eq_getElem hd]
      simpa using he
  · unfold MobileMenu.toggleDropdown MobileMenu.closeAllDropdowns
    dsimp only
    split
    · rename_i he
      rw [List.get?_eq_getElem?, List.getElem?_set_eq_of_lt _ (by simpa using ht)]
      simpa using he
    · rename_i he
      rw [List.get?_eq_getElem?, List.getElem?_map, List.getElem?_eq_getElem ht]
      simpa using he
  · intro j k y z hy hz hya hza
    have hj : j = d := by
      by_contra hne
      have := hothers j y hne hy
      rw [hya] at this
      exact absurd this (by decide)
    have hk : k = d := by
      by_contra hne
      have := hothers k z hne hz
      rw [hza] at this
      exact absurd this (by decide)
    rw [hj, hk]
  · have honly : ∀ (j : Nat) (y : DesktopDropdown),
        (DesktopDropdowns.openDropdown s i).dropdowns.get? j = some y →
        DesktopDropdowns.wired y = true → y.active = true → j = i := by
      intro j y hy hwy hya
      by_contra hne
      have hlen : j < (DesktopDropdowns.openDropdown s i).dropdowns.length := by
        rw [List.get?_eq_getElem?] at hy
        exact (List.getElem?_eq_some_iff.mp hy).1
      have hlen2 : j < s.dropdowns.length := by
        unfold DesktopDropdowns.openDropdown at hlen
        dsimp only at hlen
        rw [List.length_modify, DesktopDropdowns.closeAll_dropdowns, List.length_map] at hlen
        exact hlen
      have hsj : s.dropdowns.get? j = some s.dropdowns[j] := by
        rw [List.get?_eq_getElem?, List.getElem?_eq_getElem hlen2]
      have h2 := hdesk j _ hne hsj
      rw [hy] at h2
      simp only [Option.some.injEq] at h2
      by_cases hw0 : DesktopDropdowns.wired s.dropdowns[j] = true
      · rw [if_pos hw0] at h2
        rw [h2] at hya
        exact absurd hya (by simp)
      · rw [if_neg hw0] at h2
        rw [h2] at hwy
        exact hw0 hwy
    intro j k y z hy hz hwy hwz hya hza
    rw [honly j y hy hwy hya, honly k z hz hwz hza]

/-- Witness for C9: the second of three mobile dropdowns and the first of
three desktop dropdowns. -/
theorem dropdown_exclusivity_witness :
    (MobileMenu.toggleDropdown mobileThree 1 1).dropdownTriggers.get? 1 = some true ∧
    (DesktopDropdowns.openDropdown headerThree 0).dropdowns.get? 0
      = some { active := true, trigger := some true, hasMenu := true } :=
  ⟨((dropdown_exclusivity mobileThree 1 1 headerThree 0
      { active := false, trigger := some false, hasMenu := true }).1
      (by decide) (by decide)).2.2.2.1,
    ((dropdown_exclusivity mobileThree 1 1 headerThree 0
      { active := false, trigger := some false, hasMenu := true }).2
      (by decide) (by decide)).1⟩


/-! ## Font scale -/

theorem newSize_of_fin (s : StoredScale) (q m : ℚ) (h : currentSize s = JsNum.fin q) :
    newSize s (JsNum.fin m) = JsNum.fin (max (4 / 5) (min 2 (q * m))) := by
  unfold newSize
  rw [h]
  rfl

theorem newSize_bounds (s : StoredScale) (a : FontAction) (h : currentSize s ≠ JsNum.nan) :
    ∃ q : ℚ, newSize s a.multiplier = JsNum.fin q ∧ 4 / 5 ≤ q ∧ q ≤ 2 := by
  have hm : ∃ m : ℚ, a.multiplier = JsNum.fin m ∧ 0 < m := by
    cases a
    · exact ⟨11 / 10, rfl, by norm_num⟩
    · exact ⟨9 / 10, rfl, by norm_num⟩
  obtain ⟨m, hma, hmpos⟩ := hm
  rw [hma]
  cases hc : currentSize s with
  | nan => exact absurd hc h
  | fin q =>
    refine ⟨max (4 / 5) (min 2 (q * m)), newSize_of_fin s q m hc, le_max_left _ _, ?_⟩
    exact max_le (by norm_num) (min_le_left _ _)
  | posInf =>
    refine ⟨2, ?_, by norm_num, le_refl _⟩
    unfold newSize
    rw [hc]
    simp only [JsNum.mul, JsNum.min, JsNum.max, hmpos, ne_of_gt hmpos, if_true, if_false]
    congr 1
    exact max_eq_right (by norm_num)
  | negInf =>
    refine ⟨4 / 5, ?_, le_refl _, by norm_num⟩
    unfold newSize
    rw [hc]
    simp [JsNum.mul, JsNum.min, JsNum.max, hmpos, ne_of_gt hmpos]

theorem fontTrace_bounds (acts : List FontAction) :
    ∀ st : FontScaleState, currentSize st.stored ≠ JsNum.nan →
      ∀ st1 ∈ fontTrace st acts,
        ∃ q : ℚ, st1.stored = StoredScale.text (JsNum.fin q) ∧
          st1.cssScale = some (JsNum.fin q) ∧ 4 / 5 ≤ q ∧ q ≤ 2 := by
  induction acts with
  | nil => intro st _ st1 hmem; simp [fontTrace] at hmem
  | cons a rest ih =>
    intro st h st1 hmem
    obtain ⟨q, hq, hlo, hhi⟩ := newSize_bounds st.stored a h
    have hstored : (adjustFontSize st a.multiplier).stored = StoredScale.text (JsNum.fin q) := by
      unfold adjustFontSize
      dsimp only
      rw [hq]
    have hcss : (adjustFontSize st a.multiplier).cssScale = some (JsNum.fin q) := by
      unfold adjustFontSize
      dsimp only
      rw [hq]
    simp only [fontTrace, List.mem_cons] at hmem
    rcases hmem with hmem | hmem
    · rw [hmem]
      exact ⟨q, hstored, hcss, hlo, hhi⟩
    · apply ih (adjustFontSize st a.multiplier) _ st1 hmem
      rw [hstored]
      simp [currentSize]

/-- C10: with a numeric scale in storage (or none), `adjustFontSize(m)` on a
finite current scale `q` stores `max(0.8, min(2, q * m))`, and after every
step of every sequence of increase (`1.1`) and decrease (`0.9`) actions the
stored scale and the CSS scale are the same finite number in `[0.8, 2]`,
whether the initial scale was inside that interval or not. -/
theorem fontScale_clamped (st : FontScaleState) (acts : List FontAction)
    (h : currentSize st.stored ≠ JsNum.nan) :
    (∀ (st0 : FontScaleState) (q m : ℚ), currentSize st0.stored = JsNum.fin q →
      (adjustFontSize st0 (JsNum.fin m)).stored
        = StoredScale.text (JsNum.fin (max (4 / 5) (min 2 (q * m))))) ∧
    (∀ st1 ∈ fontTrace st acts,
      ∃ q : ℚ, st1.stored = StoredScale.text (JsNum.fin q) ∧
        st1.cssScale = some (JsNum.fin q) ∧ 4 / 5 ≤ q ∧ q ≤ 2) := by
  refine ⟨?_, fontTrace_bounds acts st h⟩
  intro st0 q m hq
  unfold adjustFontSize
  dsimp only
  rw [newSize_of_fin st0.stored q m hq]

/-- Witness for C10: a stored scale of 5 followed by an increase and a
decrease. -/
theorem fontScale_clamped_witness :
    (adjustFontSize oversizedFont (JsNum.fin (11 / 10))).stored
      = StoredScale.text (JsNum.fin (max (4 / 5) (min 2 (5 * (11 / 10))))) ∧
    (∃ q : ℚ, (adjustFontSize oversizedFont (JsNum.fin (11 / 10))).stored
        = StoredScale.text (JsNum.fin q) ∧
      (adjustFontSize oversizedFont (JsNum.fin (11 / 10))).cssScale = some (JsNum.fin q) ∧
      4 / 5 ≤ q ∧ q ≤ 2) :=
  ⟨(fontScale_clamped oversizedFont [FontAction.increase, FontAction.decrease]
      (by simp [oversizedFont, currentSize])).1 oversizedFont 5 (11 / 10) rfl,
    (fontScale_clamped oversizedFont [FontAction.increase, FontAction.decrease]
      (by simp [oversizedFont, currentSize])).2 _ (by simp [fontTrace, FontAction.multiplier])⟩

/-! ## Preferences -/

theorem applyEntry_feature (p : ToolkitPage) (f : Feature) (b : Bool) :
    applyEntry p (Key.name f.key) (JsonValue.bool b)
      = if b then updateButtonState { p with bodyClass := Function.update p.bodyClass f true } f true
        else p := by
  cases b <;> cases f <;> rfl

theorem applyEntry_fontSize (p : ToolkitPage) (v : JsonValue) :
    (applyEntry p (Key.name "fontSize") v).bodyClass = p.bodyClass
      ∧ (applyEntry p (Key.name "fontSize") v).pressed = p.pressed := by
  unfold applyEntry
  split
  · exact ⟨rfl, rfl⟩
  · have hk : Feature.ofKey "fontSize" = none := by decide
    simp only [hk]
    repeat' split
    all_goals exact ⟨rfl, rfl⟩

theorem mem_all (f : Feature) : f ∈ Feature.all := by
  cases f <;> decide

/-- Replaying the feature entries of a saved object turns on exactly the
recorded flags, on top of what is already on. -/
theorem foldl_feature_entries (flag : Feature → Bool) (fs : List Feature) :
    ∀ q : ToolkitPage,
      ((fs.map (fun f => (Key.name f.key, JsonValue.bool (flag f)))).foldl
          (fun acc kv => applyEntry acc kv.1 kv.2) q).bodyClass
        = (fun g => q.bodyClass g || (decide (g ∈ fs) && flag g))
      ∧ ((fs.map (fun f => (Key.name f.key, JsonValue.bool (flag f)))).foldl
          (fun acc kv => applyEntry acc kv.1 kv.2) q).pressed
        = (fun g => q.pressed g || (decide (g ∈ fs) && flag g)) := by
  induction fs with
  | nil => intro q; simp
  | cons f rest ih =>
    intro q
    simp only [List.map_cons, List.foldl_cons]
    rw [applyEntry_feature]
    cases hb : flag f with
    | false =>
      simp only [Bool.false_eq_true, if_false]
      obtain ⟨h1, h2⟩ := ih q
      rw [h1, h2]
      constructor <;> funext g <;> by_cases hg : g = f
      · subst hg; simp [hb]
      · simp [hg]
      · subst hg; simp [hb]
      · simp [hg]
    | true =>
      simp only [if_true]
      obtain ⟨h1, h2⟩ :=
        ih (updateButtonState { q with bodyClass := Function.update q.bodyClass f true } f true)
      rw [h1, h2]
      constructor <;> funext g <;> by_cases hg : g = f
      · subst hg; simp [updateButtonState, hb]
      · simp [updateButtonState, hg, Function.update_noteq hg]
      · subst hg; simp [updateButtonState, hb]
      · simp [updateButtonState, hg, Function.update_noteq hg]

/-- What `loadSavedPreferences` does with a string written by
`savePreferences`. -/
theorem load_saved_object (p q : ToolkitPage)
    (hs : q.preferences = (savePreferences p).preferences) :
    (loadSavedPreferences q).bodyClass = (fun g => q.bodyClass g || p.bodyClass g)
      ∧ (loadSavedPreferences q).pressed = (fun g => q.pressed g || p.bodyClass g) := by
  have hpref : q.preferences = StoredPrefs.json (preferencesObject p) := hs
  unfold loadSavedPreferences
  rw [hpref]
  simp only [tryLoad, hpref, StoredPrefs.parse, preferencesObject, JsonDoc.entries,
    List.map_append, List.map_map, List.foldl_append, List.map_cons, List.map_nil,
    List.foldl_cons, List.foldl_nil]
  obtain ⟨h1, h2⟩ := foldl_feature_entries p.bodyClass Feature.all q
  have e : ((fun kv : String × JsonValue => (Key.name kv.1, kv.2))
      ∘ fun f : Feature => (f.key, JsonValue.bool (p.bodyClass f)))
      = fun f : Feature => (Key.name f.key, JsonValue.bool (p.bodyClass f)) := rfl
  rw [e]
  obtain ⟨f1, f2⟩ := applyEntry_fontSize
    ((Feature.all.map (fun f => (Key.name f.key, JsonValue.bool (p.bodyClass f)))).foldl
      (fun acc kv => applyEntry acc kv.1 kv.2) q) p.font.stored.toJson
  rw [f1, f2, h1, h2]
  constructor <;> funext g <;> simp [mem_all g]

/-- C11: when `savePreferences` has run on a page with any assignment of the
twelve feature classes, `loadSavedPreferences` on a page that holds the saved
string and has every feature class off ends with exactly the same classes on;
the option buttons, all unpressed before, end up pressed for exactly those
features. -/
theorem save_then_load_restores_flags (p q : ToolkitPage)
    (hs : q.preferences = (savePreferences p).preferences)
    (hflags : ∀ f, q.bodyClass f = false) (hpressed : ∀ f, q.pressed f = false) :
    (loadSavedPreferences q).bodyClass = p.bodyClass
      ∧ (loadSavedPreferences q).pressed = p.bodyClass := by
  obtain ⟨h1, h2⟩ := load_saved_object p q hs
  rw [h1, h2]
  constructor <;> funext g
  · simp [hflags g]
  · simp [hpressed g]

/-- Witness for C11: dark mode and big cursor saved, then loaded on a fresh
page. -/
theorem save_then_load_restores_flags_witness :
    (loadSavedPreferences
        (freshPage (StoredScale.text (JsNum.fin (11 / 10)))
          (savePreferences darkBigCursorPage).preferences)).bodyClass
      = darkBigCursorPage.bodyClass :=
  (save_then_load_restores_flags darkBigCursorPage
    (freshPage (StoredScale.text (JsNum.fin (11 / 10)))
      (savePreferences darkBigCursorPage).preferences)
    rfl (fun _ => rfl) (fun _ => rfl)).1


theorem applyEntry_index (p : ToolkitPage) (i : Nat) (v : JsonValue) :
    applyEntry p (Key.index i) v = p := by
  unfold applyEntry
  split <;> rfl

theorem foldl_index_entries (l : List (Key × JsonValue))
    (h : ∀ kv ∈ l, ∃ i, kv.1 = Key.index i) (p : ToolkitPage) :
    l.foldl (fun acc kv => applyEntry acc kv.1 kv.2) p = p := by
  induction l with
  | nil => rfl
  | cons kv rest ih =>
    obtain ⟨i, hi⟩ := h kv (List.mem_cons_self _ _)
    simp only [List.foldl_cons]
    rw [hi, applyEntry_index]
    exact ih (fun kv2 hkv2 => h kv2 (List.mem_cons_of_mem _ hkv2))

/-- The entries of a parsed value that is not a plain object: none can be
read (`null`), or all keys are positions. -/
theorem entries_of_non_object (d : JsonDoc) (hd : d.isObject = false) :
    d.entries = Except.error JsError.typeError
      ∨ ∃ l, d.entries = Except.ok l ∧ ∀ kv ∈ l, ∃ i, kv.1 = Key.index i := by
  cases d with
  | null => exact Or.inl rfl
  | bool b => exact Or.inr ⟨[], rfl, fun _ h => absurd h (List.not_mem_nil _)⟩
  | num q => exact Or.inr ⟨[], rfl, fun _ h => absurd h (List.not_mem_nil _)⟩
  | str chars =>
    refine Or.inr ⟨_, rfl, ?_⟩
    intro kv hkv
    obtain ⟨ic, -, hic⟩ := List.mem_map.mp hkv
    exact ⟨ic.1, by rw [← hic]⟩
  | array elements =>
    refine Or.inr ⟨_, rfl, ?_⟩
    intro kv hkv
    obtain ⟨ie, -, hie⟩ := List.mem_map.mp hkv
    exact ⟨ie.1, by rw [← hie]⟩
  | object entries => simp [JsonDoc.isObject] at hd

/-- C12: when the stored preferences string is empty, does not parse, or parses to
anything but a plain object (`null`, a boolean, a number, a string, an array),
`loadSavedPreferences` returns a page with the same feature classes, button
states, skip-link state, font scale state and storage; for an unparseable
string and for `null` the exception raised inside the `try` block is caught
and only counted as a warning. -/
theorem load_ignores_invalid_data (p : ToolkitPage)
    (h : p.preferences = StoredPrefs.empty ∨ p.preferences = StoredPrefs.malformed
      ∨ ∃ d, p.preferences = StoredPrefs.json d ∧ d.isObject = false) :
    ((loadSavedPreferences p).bodyClass = p.bodyClass
      ∧ (loadSavedPreferences p).pressed = p.pressed
      ∧ (loadSavedPreferences p).skipLinksVisible = p.skipLinksVisible
      ∧ (loadSavedPreferences p).skipLinksPressed = p.skipLinksPressed
      ∧ (loadSavedPreferences p).font = p.font
      ∧ (loadSavedPreferences p).preferences = p.preferences)
    ∧ (p.preferences = StoredPrefs.malformed →
        tryLoad p = Except.error JsError.syntaxError
          ∧ (loadSavedPreferences p).warnings = p.warnings + 1)
    ∧ (p.preferences = StoredPrefs.json JsonDoc.null →
        tryLoad p = Except.error JsError.typeError
          ∧ (loadSavedPreferences p).warnings = p.warnings + 1) := by
  have hmal : p.preferences = StoredPrefs.malformed →
      tryLoad p = Except.error JsError.syntaxError
        ∧ loadSavedPreferences p = { p with warnings := p.warnings + 1 } := by
    intro hm
    have ht : tryLoad p = Except.error JsError.syntaxError := by
      simp [tryLoad, hm, StoredPrefs.parse]
    refine ⟨ht, ?_⟩
    unfold loadSavedPreferences
    rw [hm]
    simp only [ht]
  have hnull : p.preferences = StoredPrefs.json JsonDoc.null →
      tryLoad p = Except.error JsError.typeError
        ∧ loadSavedPreferences p = { p with warnings := p.warnings + 1 } := by
    intro hm
    have ht : tryLoad p = Except.error JsError.typeError := by
      simp [tryLoad, hm, StoredPrefs.parse, JsonDoc.entries]
    refine ⟨ht, ?_⟩
    unfold loadSavedPreferences
    rw [hm]
    simp only [ht]
  refine ⟨?_, fun hm => ⟨(hmal hm).1, by rw [(hmal hm).2]⟩,
    fun hm => ⟨(hnull hm).1, by rw [(hnull hm).2]⟩⟩
  rcases h with he | hm | ⟨d, hd, hobj⟩
  · have hr : loadSavedPreferences p = p := by
      unfold loadSavedPreferences
      rw [he]
    rw [hr]
    exact ⟨rfl, rfl, rfl, rfl, rfl, rfl⟩
  · rw [(hmal hm).2]
    exact ⟨rfl, rfl, rfl, rfl, rfl, rfl⟩
  · rcases entries_of_non_object d hobj with he | ⟨l, hl, hkeys⟩
    · have ht : tryLoad p = Except.error JsError.typeError := by
        simp [tryLoad, hd, StoredPrefs.parse, he]
      have hr : loadSavedPreferences p = { p with warnings := p.warnings + 1 } := by
        unfold loadSavedPreferences
        rw [hd]
        simp only [ht]
      rw [hr]
      exact ⟨rfl, rfl, rfl, rfl, rfl, rfl⟩
    · have ht : tryLoad p = Except.ok p := by
        simp [tryLoad, hd, StoredPrefs.parse, hl, foldl_index_entries l hkeys p]
      have hr : loadSavedPreferences p = p := by
        unfold loadSavedPreferences
        rw [hd]
        simp only [ht]
      rw [hr]
      exact ⟨rfl, rfl, rfl, rfl, rfl, rfl⟩

/-- Witness for C12: the stored text `null` on a page with dark mode on. -/
theorem load_ignores_invalid_data_witness :
    (loadSavedPreferences
        { darkBigCursorPage with preferences := StoredPrefs.json JsonDoc.null }).bodyClass
      = darkBigCursorPage.bodyClass
    ∧ (loadSavedPreferences
        { darkBigCursorPage with preferences := StoredPrefs.json JsonDoc.null }).font
      = darkBigCursorPage.font :=
  ⟨(load_ignores_invalid_data
      { darkBigCursorPage with preferences := StoredPrefs.json JsonDoc.null }
      (Or.inr (Or.inr ⟨JsonDoc.null, rfl, rfl⟩))).1.1,
    (load_ignores_invalid_data
      { darkBigCursorPage with preferences := StoredPrefs.json JsonDoc.null }
      (Or.inr (Or.inr ⟨JsonDoc.null, rfl, rfl⟩))).1.2.2.2.2.1⟩

/-- C13 (what the code does): with a stored font size that `parseFloat` reads
as `NaN`, `adjustFontSize(1.1)` stores `NaN` and sets the CSS scale to `NaN`,
and a further `adjustFontSize(0.9)` keeps `NaN`; with the key absent the same
call stores `1.1`. -/
theorem adjustFontSize_keeps_nan :
    (adjustFontSize
        { stored := StoredScale.text JsNum.nan, cssScale := none, announced := none }
        (JsNum.fin (11 / 10))).stored = StoredScale.text JsNum.nan
    ∧ (adjustFontSize
        { stored := StoredScale.text JsNum.nan, cssScale := none, announced := none }
        (JsNum.fin (11 / 10))).cssScale = some JsNum.nan
    ∧ (adjustFontSize
        (adjustFontSize
          { stored := StoredScale.text JsNum.nan, cssScale := none, announced := none }
          (JsNum.fin (11 / 10)))
        (JsNum.fin (9 / 10))).stored = StoredScale.text JsNum.nan
    ∧ (adjustFontSize
        { stored := StoredScale.absent, cssScale := none, announced := none }
        (JsNum.fin (11 / 10))).stored = StoredScale.text (JsNum.fin (11 / 10)) := by
  refine ⟨rfl, rfl, rfl, ?_⟩
  simp only [adjustFontSize, newSize, currentSize, JsNum.mul, JsNum.min, JsNum.max]
  norm_num


/-! ## Notification banner -/

/-- C14: on a banner whose element exists, `closeBanner` returns normally,
stores the closed flag, adds `hidden`, shows the restore control when there is
one, forgets the interval handle and clears it in the host, and keeps
`currentIndex`; a following `showBanner` returns normally, removes `hidden`,
hides the restore control, removes the flag, keeps `currentIndex`, and
`startRotation` starts a fresh interval when there is more than one message
(none otherwise, as at construction). -/
theorem close_then_show_keeps_index (b : NotificationBanner) (e : Bool)
    (hb : b.banner = some e) (hh : b.interval ≠ some 0) :
    ((NotificationBanner.closeBanner b).completion = Completion.normal
      ∧ (NotificationBanner.closeBanner b).state.closedFlag = some "true"
      ∧ (NotificationBanner.closeBanner b).state.banner = some true
      ∧ (NotificationBanner.closeBanner b).state.toggleContainer
          = b.toggleContainer.map (fun _ => true)
      ∧ (NotificationBanner.closeBanner b).state.interval = none
      ∧ (∀ h, b.interval = some h → h ∉ (NotificationBanner.closeBanner b).state.running)
      ∧ ((∀ h ∈ b.running, b.interval = some h) →
          (NotificationBanner.closeBanner b).state.running = [])
      ∧ (NotificationBanner.closeBanner b).state.currentIndex = b.currentIndex)
    ∧ ((NotificationBanner.showBanner (NotificationBanner.closeBanner b).state).completion
        = Completion.normal
      ∧ (NotificationBanner.showBanner (NotificationBanner.closeBanner b).state).state.banner
        = some false
      ∧ (NotificationBanner.showBanner
          (NotificationBanner.closeBanner b).state).state.toggleContainer
        = b.toggleContainer.map (fun _ => false)
      ∧ (NotificationBanner.showBanner (NotificationBanner.closeBanner b).state).state.closedFlag
        = none
      ∧ (NotificationBanner.showBanner
          (NotificationBanner.closeBanner b).state).state.currentIndex = b.currentIndex
      ∧ (NotificationBanner.showBanner (NotificationBanner.closeBanner b).state).state.interval
        = (if b.items.length ≤ 1 then none else some (b.timerSeq + 1))
      ∧ (1 < b.items.length →
          b.timerSeq + 1 ∈ (NotificationBanner.showBanner
            (NotificationBanner.closeBanner b).state).state.running)) := by
  have hstop : (NotificationBanner.stopRotation b).banner = some e
      ∧ (NotificationBanner.stopRotation b).interval = none
      ∧ (NotificationBanner.stopRotation b).toggleContainer = b.toggleContainer
      ∧ (NotificationBanner.stopRotation b).currentIndex = b.currentIndex
      ∧ (NotificationBanner.stopRotation b).items = b.items
      ∧ (NotificationBanner.stopRotation b).timerSeq = b.timerSeq
      ∧ (∀ h, b.interval = some h → h ∉ (NotificationBanner.stopRotation b).running)
      ∧ ((∀ h ∈ b.running, b.interval = some h) →
          (NotificationBanner.stopRotation b).running = []) := by
    unfold NotificationBanner.stopRotation
    split
    · rename_i hi
      refine ⟨hb, hi, rfl, rfl, rfl, rfl, ?_, ?_⟩
      · intro h hh2
        rw [hi] at hh2
        exact absurd hh2 (by simp)
      · intro hall
        cases hr : b.running with
        | nil => rfl
        | cons k rest =>
          have hk := hall k (by rw [hr]; exact List.mem_cons_self _ _)
          rw [hi] at hk
          exact absurd hk (by simp)
    · rename_i h hi
      have hne : h ≠ 0 := fun h0 => hh (by rw [hi, h0])
      rw [if_neg hne]
      refine ⟨hb, rfl, rfl, rfl, rfl, rfl, ?_, ?_⟩
      · intro k hk
        rw [hi] at hk
        simp only [Option.some.injEq] at hk
        subst hk
        simp
      · intro hall
        apply List.filter_eq_nil_iff.mpr
        intro k hk
        have hk2 := hall k hk
        rw [hi] at hk2
        simp only [Option.some.injEq] at hk2
        simp [hk2]
  obtain ⟨s1, s2, s3, s4, s5, s6, s7, s8⟩ := hstop
  have hclose : (NotificationBanner.closeBanner b).state
      = NotificationBanner.announceToScreenReader
          { NotificationBanner.stopRotation b with
            banner := some true
            toggleContainer := (NotificationBanner.stopRotation b).toggleContainer.map
              (fun _ => true)
            closedFlag := some "true" }
          "Notification banner closed. Use the notification button to show it again."
      ∧ (NotificationBanner.closeBanner b).completion = Completion.normal := by
    simp [NotificationBanner.closeBanner, s1]
  obtain ⟨c1, c2⟩ := hclose
  refine ⟨⟨c2, ?_, ?_, ?_, ?_, ?_, ?_, ?_⟩, ?_⟩
  · rw [c1]; rfl
  · rw [c1]; rfl
  · rw [c1]; simp [NotificationBanner.announceToScreenReader, s3]
  · rw [c1]; simpa [NotificationBanner.announceToScreenReader] using s2
  · rw [c1]; simpa [NotificationBanner.announceToScreenReader] using s7
  · rw [c1]; simpa [NotificationBanner.announceToScreenReader] using s8
  · rw [c1]; simpa [NotificationBanner.announceToScreenReader] using s4
  · rw [c1]
    unfold NotificationBanner.showBanner
    simp only [NotificationBanner.announceToScreenReader, NotificationBanner.startRotation, s3,
      s5, s6, s4]
    by_cases hlen : b.items.length ≤ 1
    · simp [hlen, s2, Option.map_map, Function.comp_def, Nat.not_lt.mpr hlen]
    · simp [hlen, s2, Option.map_map, Function.comp_def]

/-- Witness for C14: a three-message banner showing its second message. -/
theorem close_then_show_keeps_index_witness :
    (NotificationBanner.closeBanner bannerAtSecond).state.currentIndex = 1
    ∧ (NotificationBanner.closeBanner bannerAtSecond).state.running = []
    ∧ (NotificationBanner.showBanner
        (NotificationBanner.closeBanner bannerAtSecond).state).state.currentIndex = 1
    ∧ (NotificationBanner.showBanner
        (NotificationBanner.closeBanner bannerAtSecond).state).state.interval = some 5 :=
  ⟨(close_then_show_keeps_index bannerAtSecond false rfl (by decide)).1.2.2.2.2.2.2.2,
    (close_then_show_keeps_index bannerAtSecond false rfl (by decide)).1.2.2.2.2.2.2.1
      (by decide),
    (close_then_show_keeps_index bannerAtSecond false rfl (by decide)).2.2.2.2.2.1,
    (close_then_show_keeps_index bannerAtSecond false rfl (by decide)).2.2.2.2.2.2.1⟩


/-! ## Mobile menu -/

theorem openMenu_scrollLock (s0 s : MenuState) (h : ScrollLockFrom s0 s) :
    ScrollLockFrom s0 (MobileMenu.openMenu s).state := by
  unfold MobileMenu.openMenu
  split
  · exact h
  · dsimp only
    split <;> simp [ScrollLockFrom, MobileMenu.announceToScreenReader]

theorem close_scrollLock (s0 s : MenuState) (h : ScrollLockFrom s0 s) :
    ScrollLockFrom s0 (MobileMenu.close s).state := by
  unfold MobileMenu.close
  split
  · exact h
  · simp [ScrollLockFrom, MobileMenu.announceToScreenReader]

theorem call_scrollLock (s0 s : MenuState) (c : MenuCall) (h : ScrollLockFrom s0 s) :
    ScrollLockFrom s0 (s.call c) := by
  cases c with
  | openMenu => exact openMenu_scrollLock s0 s h
  | close => exact close_scrollLock s0 s h
  | toggle =>
    show ScrollLockFrom s0 (MobileMenu.toggle s).state
    unfold MobileMenu.toggle
    by_cases ho : s.menu.isOpen = true
    · rw [if_pos ho]
      exact close_scrollLock s0 s h
    · rw [if_neg ho]
      exact openMenu_scrollLock s0 s h

theorem calls_scrollLock (s0 : MenuState) (cs : List MenuCall) :
    ∀ s : MenuState, ScrollLockFrom s0 s → ScrollLockFrom s0 (s.calls cs) := by
  induction cs with
  | nil => intro s h; exact h
  | cons c rest ih =>
    intro s h
    exact ih (s.call c) (call_scrollLock s0 s c h)

/-- C16: starting from a closed menu on a body without the `menu-open` class,
after every sequence of `open`, `close` and `toggle` calls: the body has
`overflow: hidden` and the class `menu-open` exactly when `isOpen` is true; a
closed menu has no `menu-open` class and its inline `overflow` is the empty
string unless the state is still the initial one; so when the initial
`overflow` is not `hidden`, each of the two marks alone is there exactly when
`isOpen` is true. `open` on an open menu and `close` on a closed menu return
the state they were given. -/
theorem scroll_lock_tracks_isOpen (s0 : MenuState) (cs : List MenuCall)
    (hclosed : s0.menu.isOpen = false) (hbody : s0.dom.bodyMenuOpen = false) :
    (((s0.calls cs).dom.bodyOverflow = "hidden" ∧ (s0.calls cs).dom.bodyMenuOpen = true)
        ↔ (s0.calls cs).menu.isOpen = true)
    ∧ ((s0.calls cs).menu.isOpen = false →
        (s0.calls cs).dom.bodyMenuOpen = false
          ∧ ((s0.calls cs).dom.bodyOverflow = "" ∨ s0.calls cs = s0))
    ∧ (s0.dom.bodyOverflow ≠ "hidden" → ScrollLockMatches (s0.calls cs))
    ∧ (∀ s : MenuState, s.menu.isOpen = true →
        (MobileMenu.openMenu s).state = s
          ∧ (MobileMenu.openMenu s).completion = Completion.normal)
    ∧ (∀ s : MenuState, s.menu.isOpen = false →
        (MobileMenu.close s).state = s
          ∧ (MobileMenu.close s).completion = Completion.normal) := by
  have hinv : ScrollLockFrom s0 (s0.calls cs) := by
    apply calls_scrollLock s0 cs s0
    constructor
    · intro h
      rw [hclosed] at h
      exact absurd h (by simp)
    · intro _
      exact ⟨hbody, Or.inr rfl⟩
  obtain ⟨hopen, hshut⟩ := hinv
  refine ⟨?_, hshut, ?_, ?_, ?_⟩
  · constructor
    · intro h
      by_contra hne
      have hf : (s0.calls cs).menu.isOpen = false := by simpa using hne
      have := (hshut hf).1
      rw [h.2] at this
      exact absurd this (by simp)
    · exact hopen
  · intro hscroll
    constructor
    · constructor
      · intro h
        by_contra hne
        have hf : (s0.calls cs).menu.isOpen = false := by simpa using hne
        rcases (hshut hf).2 with he | he
        · rw [he] at h
          exact absurd h (by decide)
        · rw [he] at h
          exact hscroll h
      · intro h
        exact (hopen h).1
    · constructor
      · intro h
        by_contra hne
        have hf : (s0.calls cs).menu.isOpen = false := by simpa using hne
        have := (hshut hf).1
        rw [h] at this
        exact absurd this (by simp)
      · intro h
        exact (hopen h).2
  · intro s hs
    simp [MobileMenu.openMenu, hs]
  · intro s hs
    simp [MobileMenu.close, hs]

/-- Witness for C16: open, toggle, toggle, open, close on the sample page,
whose body starts with an empty inline `overflow`. -/
theorem scroll_lock_tracks_isOpen_witness :
    ScrollLockMatches
      (closedMenu.calls
        [MenuCall.openMenu, MenuCall.toggle, MenuCall.toggle, MenuCall.openMenu,
          MenuCall.close]) :=
  (scroll_lock_tracks_isOpen closedMenu
    [MenuCall.openMenu, MenuCall.toggle, MenuCall.toggle, MenuCall.openMenu, MenuCall.close]
    (by decide) (by decide)).2.2.1 (by decide)


/-! ## Construction on incomplete documents -/

/-- C15 (what the code does): constructing `MobileMenu` on a document without
`#mobileMenuOverlay`, `ModernCarousel` on an element without `.mc-track` or
with an empty track, and `NewArrivalsCarousel` on a document with `#na-track`
but without `.na-track-wrapper`, each ends in a `TypeError`; without the track
`NewArrivalsCarousel` does construct normally. -/
theorem constructors_throw_on_missing_elements :
    (MobileMenu.construct menuPageWithoutOverlay (fun _ => true) false).completion
      = Completion.typeError
    ∧ constructCarousel none true (some false) (some false) none none false false
      = Completion.typeError
    ∧ constructCarousel (some []) true (some false) (some false) none none false false
      = Completion.typeError
    ∧ (NewArrivalsCarousel.construct true (some false) (some false) none).completion
      = Completion.typeError
    ∧ (NewArrivalsCarousel.construct false (some false) (some false) none).completion
      = Completion.normal := by
  decide

/-! ## Pause sources -/

/-- C17 (as stated, refuted): with `pauseOnHover`, after pointer enter, window
blur and pointer leave the window is still blurred and the autoplay timer is
running; and after pointer enter and a click on next the pointer is still over
the carousel and the timer is running. -/
theorem autoplay_runs_with_pause_source_active :
    ((hostRun (hoverPausing, noPause)
        [HostEvent.mouseEnter, HostEvent.windowBlur, HostEvent.mouseLeave]).2.anyActive = true
      ∧ (hostRun (hoverPausing, noPause)
        [HostEvent.mouseEnter, HostEvent.windowBlur, HostEvent.mouseLeave]).1.autoplayTimer.isSome
          = true)
    ∧ ((hostRun (hoverPausing, noPause)
        [HostEvent.mouseEnter, HostEvent.navigate Event.next]).2.hovering = true
      ∧ (hostRun (hoverPausing, noPause)
        [HostEvent.mouseEnter, HostEvent.navigate Event.next]).1.autoplayTimer.isSome = true) := by
  decide

theorem updateCarousel_autoplay (c : ModernCarousel) (animate : Bool) :
    (updateCarousel c animate).state.autoplayDelay = c.autoplayDelay
      ∧ (updateCarousel c animate).state.autoplayTimer = c.autoplayTimer
      ∧ (updateCarousel c animate).state.isAutoPlaying = c.isAutoPlaying := by
  unfold updateCarousel
  split
  · exact ⟨rfl, rfl, rfl⟩
  · dsimp only
    split
    · exact ⟨rfl, rfl, rfl⟩
    · split <;> exact ⟨rfl, rfl, rfl⟩

theorem pauseAutoplay_autoplay (c : ModernCarousel) :
    (pauseAutoplay c).isAutoPlaying = false
      ∧ (pauseAutoplay c).autoplayDelay = c.autoplayDelay := by
  unfold pauseAutoplay
  dsimp only
  split
  · exact ⟨rfl, rfl⟩
  · split <;> exact ⟨rfl, rfl⟩

theorem restartAutoplay_running (c : ModernCarousel) (hd : 0 < c.autoplayDelay) :
    (restartAutoplay c).autoplayTimer.isSome = true
      ∧ (restartAutoplay c).isAutoPlaying = true := by
  obtain ⟨hp, hdelay⟩ := pauseAutoplay_autoplay c
  have hd2 : 0 < (pauseAutoplay c).autoplayDelay := by rw [hdelay]; exact hd
  unfold restartAutoplay resumeAutoplay startAutoplay
  simp [hp, hd2, not_le.mpr hd2]

/-- Setting the index to `i` and running `updateCarousel(); restartAutoplay()`:
when the call returns, autoplay is on with a timer for a positive delay; when
`updateCarousel` throws, the timer and the flag are as before. -/
theorem moveTo_autoplay (c : ModernCarousel) (i : Int) :
    (((updateCarousel { c with currentIndex := i } true).andThen restartAutoplay).completion
        = Completion.normal → 0 < c.autoplayDelay →
      ((updateCarousel { c with currentIndex := i } true).andThen
          restartAutoplay).state.autoplayTimer.isSome = true
        ∧ ((updateCarousel { c with currentIndex := i } true).andThen
          restartAutoplay).state.isAutoPlaying = true)
    ∧ (((updateCarousel { c with currentIndex := i } true).andThen restartAutoplay).completion
        = Completion.typeError →
      ((updateCarousel { c with currentIndex := i } true).andThen
          restartAutoplay).state.autoplayTimer = c.autoplayTimer
        ∧ ((updateCarousel { c with currentIndex := i } true).andThen
          restartAutoplay).state.isAutoPlaying = c.isAutoPlaying) := by
  obtain ⟨u1, u2, u3⟩ := updateCarousel_autoplay { c with currentIndex := i } true
  unfold Outcome.andThen
  split
  · rename_i hn
    constructor
    · intro _ hd
      exact restartAutoplay_running _ (by rw [u1]; exact hd)
    · intro h
      exact absurd h (by simp)
  · rename_i ht
    constructor
    · intro h
      rw [ht] at h
      exact absurd h (by simp)
    · intro _
      exact ⟨u2, u3⟩

/-- C17 (amended): let the stored timer handle not be the falsy handle `0`
and let a timer be stored whenever `isAutoPlaying` is set. Whatever the pause
sources are: every pause event (pointer enter with `pauseOnHover`, document
hidden, window blur) leaves the carousel without an autoplay timer; every
resume event (pointer leave with `pauseOnHover`, document visible, window
focus) leaves autoplay on with a timer whenever `autoplayDelay` is positive;
a manual navigation (`nextSlide`, `previousSlide`, `goToSlide`) that gets past
the early `return` of its method and returns normally also leaves autoplay on
with a timer whenever `autoplayDelay` is positive; a navigation that takes
the early `return` leaves the carousel as it is, and one that ends in a
`TypeError` leaves the timer and the autoplay flag as they are. -/
theorem pause_and_resume_events (c : ModernCarousel) (env : PauseSources)
    (hhandle : c.autoplayTimer ≠ some 0)
    (hconsistent : c.isAutoPlaying = true → c.autoplayTimer.isSome = true) :
    (∀ ev : HostEvent,
      (ev = HostEvent.mouseEnter ∧ c.pauseOnHover = true) ∨ ev = HostEvent.visibilityChange true
        ∨ ev = HostEvent.windowBlur →
      (hostStep (c, env) ev).1.autoplayTimer = none
        ∧ (hostStep (c, env) ev).1.isAutoPlaying = false)
    ∧ (∀ ev : HostEvent,
      (ev = HostEvent.mouseLeave ∧ c.pauseOnHover = true) ∨ ev = HostEvent.visibilityChange false
        ∨ ev = HostEvent.windowFocus →
      0 < c.autoplayDelay →
      (hostStep (c, env) ev).1.autoplayTimer.isSome = true
        ∧ (hostStep (c, env) ev).1.isAutoPlaying = true)
    ∧ (∀ e : Event,
      (e = Event.next ∧ (c.currentIndex < (c.items.length : Int) - 1 ∨ c.loop = true)
          ∧ (nextSlide c).completion = Completion.normal)
        ∨ (e = Event.previous ∧ (c.currentIndex > 0 ∨ c.loop = true)
          ∧ (previousSlide c).completion = Completion.normal)
        ∨ (∃ i : Int, e = Event.goTo i
          ∧ ¬ (i < 0 ∨ i ≥ (c.items.length : Int) ∨ i = c.currentIndex)
          ∧ (goToSlide c i).completion = Completion.normal) →
      0 < c.autoplayDelay →
      (hostStep (c, env) (HostEvent.navigate e)).1.autoplayTimer.isSome = true
        ∧ (hostStep (c, env) (HostEvent.navigate e)).1.isAutoPlaying = true)
    ∧ (∀ e : Event,
      (e = Event.next ∧ ¬ (c.currentIndex < (c.items.length : Int) - 1) ∧ c.loop = false)
        ∨ (e = Event.previous ∧ ¬ (c.currentIndex > 0) ∧ c.loop = false)
        ∨ (∃ i : Int, e = Event.goTo i
          ∧ (i < 0 ∨ i ≥ (c.items.length : Int) ∨ i = c.currentIndex)) →
      hostStep (c, env) (HostEvent.navigate e) = (c, env))
    ∧ (∀ e : Event,
      (e = Event.next ∧ (nextSlide c).completion = Completion.typeError)
        ∨ (e = Event.previous ∧ (previousSlide c).completion = Completion.typeError)
        ∨ (∃ i : Int, e = Event.goTo i
          ∧ (goToSlide c i).completion = Completion.typeError) →
      (hostStep (c, env) (HostEvent.navigate e)).1.autoplayTimer = c.autoplayTimer
        ∧ (hostStep (c, env) (HostEvent.navigate e)).1.isAutoPlaying = c.isAutoPlaying) := by
  have hpause : (pauseAutoplay c).autoplayTimer = none
      ∧ (pauseAutoplay c).isAutoPlaying = false := by
    unfold pauseAutoplay
    dsimp only
    split
    · rename_i hn
      exact ⟨hn, rfl⟩
    · rename_i h hs
      have hne : h ≠ 0 := fun h0 => hhandle (by rw [hs, h0])
      rw [if_neg hne]
      exact ⟨rfl, rfl⟩
  have hresume : 0 < c.autoplayDelay →
      (resumeAutoplay c).autoplayTimer.isSome = true
        ∧ (resumeAutoplay c).isAutoPlaying = true := by
    intro hd
    unfold resumeAutoplay startAutoplay
    by_cases hp : c.isAutoPlaying = true
    · simp [hp, hconsistent hp]
    · have hp2 : c.isAutoPlaying = false := by simpa using hp
      simp [hp2, hd, not_le.mpr hd]
  refine ⟨?_, ?_, ?_, ?_, ?_⟩
  · intro ev hev
    rcases hev with ⟨h1, h2⟩ | h1 | h1
    · subst h1; simpa [hostStep, h2] using hpause
    · subst h1; simpa [hostStep] using hpause
    · subst h1; simpa [hostStep] using hpause
  · intro ev hev hd
    rcases hev with ⟨h1, h2⟩ | h1 | h1
    · subst h1; simpa [hostStep, h2] using hresume hd
    · subst h1; simpa [hostStep] using hresume hd
    · subst h1; simpa [hostStep] using hresume hd
  · intro e he hd
    rcases he with ⟨h1, hmove, hn⟩ | ⟨h1, hmove, hn⟩ | ⟨i, h1, hmove, hn⟩
    · subst h1
      show (nextSlide c).state.autoplayTimer.isSome = true
        ∧ (nextSlide c).state.isAutoPlaying = true
      unfold nextSlide at hn ⊢
      by_cases hlt : c.currentIndex < (c.items.length : Int) - 1
      · rw [if_pos hlt] at hn ⊢
        exact (moveTo_autoplay c _).1 hn hd
      · have hl : c.loop = true := hmove.resolve_left hlt
        rw [if_neg hlt, if_pos hl] at hn ⊢
        exact (moveTo_autoplay c _).1 hn hd
    · subst h1
      show (previousSlide c).state.autoplayTimer.isSome = true
        ∧ (previousSlide c).state.isAutoPlaying = true
      unfold previousSlide at hn ⊢
      by_cases hlt : c.currentIndex > 0
      · rw [if_pos hlt] at hn ⊢
        exact (moveTo_autoplay c _).1 hn hd
      · have hl : c.loop = true := hmove.resolve_left hlt
        rw [if_neg hlt, if_pos hl] at hn ⊢
        exact (moveTo_autoplay c _).1 hn hd
    · subst h1
      show (goToSlide c i).state.autoplayTimer.isSome = true
        ∧ (goToSlide c i).state.isAutoPlaying = true
      unfold goToSlide at hn ⊢
      rw [if_neg hmove] at hn ⊢
      exact (moveTo_autoplay c _).1 hn hd
  · intro e he
    rcases he with ⟨h1, hlt, hl⟩ | ⟨h1, hlt, hl⟩ | ⟨i, h1, hguard⟩
    · subst h1
      show ((nextSlide c).state, env) = (c, env)
      unfold nextSlide
      rw [if_neg hlt, if_neg (by simp [hl])]
    · subst h1
      show ((previousSlide c).state, env) = (c, env)
      unfold previousSlide
      rw [if_neg hlt, if_neg (by simp [hl])]
    · subst h1
      show ((goToSlide c i).state, env) = (c, env)
      unfold goToSlide
      rw [if_pos hguard]
  · intro e he
    rcases he with ⟨h1, ht⟩ | ⟨h1, ht⟩ | ⟨i, h1, ht⟩
    · subst h1
      show (nextSlide c).state.autoplayTimer = c.autoplayTimer
        ∧ (nextSlide c).state.isAutoPlaying = c.isAutoPlaying
      unfold nextSlide at ht ⊢
      by_cases hlt : c.currentIndex < (c.items.length : Int) - 1
      · rw [if_pos hlt] at ht ⊢
        exact (moveTo_autoplay c _).2 ht
      · rw [if_neg hlt] at ht ⊢
        by_cases hl : c.loop = true
        · rw [if_pos hl] at ht ⊢
          exact (moveTo_autoplay c _).2 ht
        · rw [if_neg hl] at ht ⊢
          exact ⟨rfl, rfl⟩
    · subst h1
      show (previousSlide c).state.autoplayTimer = c.autoplayTimer
        ∧ (previousSlide c).state.isAutoPlaying = c.isAutoPlaying
      unfold previousSlide at ht ⊢
      by_cases hlt : c.currentIndex > 0
      · rw [if_pos hlt] at ht ⊢
        exact (moveTo_autoplay c _).2 ht
      · rw [if_neg hlt] at ht ⊢
        by_cases hl : c.loop = true
        · rw [if_pos hl] at ht ⊢
          exact (moveTo_autoplay c _).2 ht
        · rw [if_neg hl] at ht ⊢
          exact ⟨rfl, rfl⟩
    · subst h1
      show (goToSlide c i).state.autoplayTimer = c.autoplayTimer
        ∧ (goToSlide c i).state.isAutoPlaying = c.isAutoPlaying
      unfold goToSlide at ht ⊢
      by_cases hg : i < 0 ∨ i ≥ (c.items.length : Int) ∨ i = c.currentIndex
      · rw [if_pos hg] at ht ⊢
        exact ⟨rfl, rfl⟩
      · rw [if_neg hg] at ht ⊢
        exact (moveTo_autoplay c _).2 ht

/-- Witness for C17: window blur on the sample carousel; pointer leave while
the window is still blurred; a click on next while the pointer is over the
carousel; and a click on next at the last slide, which changes nothing. -/
theorem pause_and_resume_events_witness :
    (hostStep (hoverPausing, noPause) HostEvent.windowBlur).1.autoplayTimer = none
    ∧ (hostStep
        (pauseAutoplay hoverPausing,
          { hovering := true, documentHidden := false, windowBlurred := true })
        HostEvent.mouseLeave).1.autoplayTimer.isSome = true
    ∧ (hostStep
        (pauseAutoplay hoverPausing,
          { hovering := true, documentHidden := false, windowBlurred := false })
        (HostEvent.navigate Event.next)).1.autoplayTimer.isSome = true
    ∧ hostStep
        (pauseAutoplay { hoverPausing with currentIndex := 2 },
          { hovering := true, documentHidden := false, windowBlurred := false })
        (HostEvent.navigate Event.next)
      = (pauseAutoplay { hoverPausing with currentIndex := 2 },
          { hovering := true, documentHidden := false, windowBlurred := false }) :=
  ⟨((pause_and_resume_events hoverPausing noPause (by decide) (by decide)).1
      HostEvent.windowBlur (Or.inr (Or.inr rfl))).1,
    ((pause_and_resume_events (pauseAutoplay hoverPausing)
        { hovering := true, documentHidden := false, windowBlurred := true }
        (by decide) (by decide)).2.1
      HostEvent.mouseLeave (Or.inl ⟨rfl, by decide⟩) (by decide)).1,
    ((pause_and_resume_events (pauseAutoplay hoverPausing)
        { hovering := true, documentHidden := false, windowBlurred := false }
        (by decide) (by decide)).2.2.1
      Event.next (Or.inl ⟨rfl, by decide, by decide⟩) (by decide)).1,
    (pause_and_resume_events (pauseAutoplay { hoverPausing with currentIndex := 2 })
        { hovering := true, documentHidden := false, windowBlurred := false }
        (by decide) (by decide)).2.2.2.1
      Event.next (Or.inl ⟨rfl, by decide, by decide⟩)⟩

/-! ## Mouse drag -/

/-- C18: a mouse drag from `s` released at `e` and a touch from `s` to `e`
both carry out the navigation the threshold rule names for `s` and `e`, the
drag on the carousel as it is and the touch on the carousel with the two
coordinates recorded; `mousemove` leaves the carousel and the drag variables
as they are. -/
theorem mouse_drag_follows_swipe_rule (c : ModernCarousel) (d : DragState) (s e : Int) :
    (mouseUp c (mouseDown d s) e).1 = (swipeRule s e).run c
    ∧ touchEnd (touchStart c s) e
      = (swipeRule s e).run { c with touchStartX := s, touchEndX := e }
    ∧ (mouseMove c (mouseDown d s)).1 = { state := c, completion := Completion.normal }
    ∧ (mouseMove c (mouseDown d s)).2.1 = mouseDown d s := by
  refine ⟨?_, ?_, ?_, ?_⟩
  · unfold mouseUp mouseDown swipeRule
    dsimp only
    by_cases h1 : |s - e| > 50
    · by_cases h2 : s - e > 0
      · simp [h1, h2, Navigation.run]
      · simp [h1, h2, Navigation.run]
    · simp [h1, Navigation.run]
  · unfold touchEnd touchStart handleSwipe swipeRule
    dsimp only
    by_cases h1 : |s - e| > 50
    · by_cases h2 : s - e > 0
      · simp [h1, h2, Navigation.run]
      · simp [h1, h2, Navigation.run]
    · simp [h1, Navigation.run]
  · unfold mouseMove
    split <;> rfl
  · unfold mouseMove
    split <;> rfl

/-! ## New arrivals -/

/-- C19 (what the code does): on a freshly constructed carousel a touch that
starts at X = 200 and is released without moving scrolls to position 274,
because `touchend` compares with the `currentX` left at 0; and after a swipe
from 300 to 100 a touch at 300 released without moving scrolls again. -/
theorem tap_scrolls_with_stale_currentX :
    arrivalsOnPage.currentPosition = 0
    ∧ (NewArrivalsCarousel.touchEnd
        (NewArrivalsCarousel.touchStart arrivalsOnPage 200)).state.currentPosition = 274
    ∧ (NewArrivalsCarousel.touchEnd
        (NewArrivalsCarousel.touchMove
          (NewArrivalsCarousel.touchStart arrivalsOnPage 300) 100)).state.currentPosition = 274
    ∧ (NewArrivalsCarousel.touchEnd
        (NewArrivalsCarousel.touchStart
          (NewArrivalsCarousel.touchEnd
            (NewArrivalsCarousel.touchMove
              (NewArrivalsCarousel.touchStart arrivalsOnPage 300) 100)).state
          300)).state.currentPosition = 548 := by
  decide

/-- C20 (as stated, refuted): on a carousel constructed without `#na-track`,
where position and maximum are both 0, `scrollNext` and `scrollPrevious` leave
the buttons enabled as the markup has them. -/
theorem inert_carousel_keeps_buttons_enabled :
    (0 ≤ arrivalsWithoutTrack.currentPosition
      ∧ arrivalsWithoutTrack.currentPosition = arrivalsWithoutTrack.maxPosition)
    ∧ (NewArrivalsCarousel.scrollNext arrivalsWithoutTrack).state.nextBtn = some false
    ∧ (NewArrivalsCarousel.scrollPrevious arrivalsWithoutTrack).state.prevBtn = some false := by
  decide

theorem updatePosition_fields (c : NewArrivalsCarousel) :
    (NewArrivalsCarousel.updatePosition c).state.currentPosition = c.currentPosition
    ∧ (NewArrivalsCarousel.updatePosition c).state.maxPosition = c.maxPosition
    ∧ (c.track = true →
        (NewArrivalsCarousel.updatePosition c).state.prevBtn
            = c.prevBtn.map (fun _ => decide (c.currentPosition ≤ 0))
          ∧ (NewArrivalsCarousel.updatePosition c).state.nextBtn
            = c.nextBtn.map (fun _ => decide (c.currentPosition ≥ c.maxPosition))) := by
  unfold NewArrivalsCarousel.updatePosition NewArrivalsCarousel.updateButtons
  by_cases ht : c.track = true
  · simp only [ht, Bool.not_true, Bool.false_eq_true, if_false]
    split <;> exact ⟨rfl, rfl, fun _ => ⟨rfl, rfl⟩⟩
  · have ht2 : c.track = false := by simpa using ht
    simp [ht2]

/-- C20 (amended): from a state with `0 ≤ currentPosition ≤ maxPosition`,
`scrollNext` sets the position to `min(currentPosition + scrollAmount,
maxPosition)` and `scrollPrevious` to `max(currentPosition - scrollAmount, 0)`,
both within the bounds and with `maxPosition` unchanged; at `maxPosition`
`scrollNext` keeps the position and, when the track element exists, leaves the
next button disabled; at 0 `scrollPrevious` keeps the position and, when the
track element exists, leaves the previous button disabled. -/
theorem scroll_keeps_bounds (c : NewArrivalsCarousel)
    (h0 : 0 ≤ c.currentPosition) (h1 : c.currentPosition ≤ c.maxPosition) :
    ((NewArrivalsCarousel.scrollNext c).state.currentPosition
        = min (c.currentPosition + (c.scrollAmount : Int)) c.maxPosition
      ∧ 0 ≤ (NewArrivalsCarousel.scrollNext c).state.currentPosition
      ∧ (NewArrivalsCarousel.scrollNext c).state.currentPosition
        ≤ (NewArrivalsCarousel.scrollNext c).state.maxPosition
      ∧ (NewArrivalsCarousel.scrollNext c).state.maxPosition = c.maxPosition)
    ∧ ((NewArrivalsCarousel.scrollPrevious c).state.currentPosition
        = max (c.currentPosition - (c.scrollAmount : Int)) 0
      ∧ 0 ≤ (NewArrivalsCarousel.scrollPrevious c).state.currentPosition
      ∧ (NewArrivalsCarousel.scrollPrevious c).state.currentPosition
        ≤ (NewArrivalsCarousel.scrollPrevious c).state.maxPosition
      ∧ (NewArrivalsCarousel.scrollPrevious c).state.maxPosition = c.maxPosition)
    ∧ (c.currentPosition = c.maxPosition →
        (NewArrivalsCarousel.scrollNext c).state.currentPosition = c.currentPosition
          ∧ (c.track = true →
            (NewArrivalsCarousel.scrollNext c).state.nextBtn = c.nextBtn.map (fun _ => true)))
    ∧ (c.currentPosition = 0 →
        (NewArrivalsCarousel.scrollPrevious c).state.currentPosition = 0
          ∧ (c.track = true →
            (NewArrivalsCarousel.scrollPrevious c).state.prevBtn
              = c.prevBtn.map (fun _ => true))) := by
  have hsa : (0 : Int) ≤ (c.scrollAmount : Int) := Int.natCast_nonneg _
  obtain ⟨n1, n2, n3⟩ := updatePosition_fields
    { c with currentPosition := min (c.currentPosition + (c.scrollAmount : Int)) c.maxPosition }
  obtain ⟨p1, p2, p3⟩ := updatePosition_fields
    { c with currentPosition := max (c.currentPosition - (c.scrollAmount : Int)) 0 }
  have en : (NewArrivalsCarousel.scrollNext c).state.currentPosition
      = min (c.currentPosition + (c.scrollAmount : Int)) c.maxPosition := n1
  have em : (NewArrivalsCarousel.scrollNext c).state.maxPosition = c.maxPosition := n2
  have ep : (NewArrivalsCarousel.scrollPrevious c).state.currentPosition
      = max (c.currentPosition - (c.scrollAmount : Int)) 0 := p1
  have eq : (NewArrivalsCarousel.scrollPrevious c).state.maxPosition = c.maxPosition := p2
  refine ⟨⟨en, ?_, ?_, em⟩, ⟨ep, ?_, ?_, eq⟩, ?_, ?_⟩
  · rw [en]; exact le_min (by omega) (by omega)
  · rw [en, em]; exact min_le_right _ _
  · rw [ep]; exact le_max_right _ _
  · rw [ep, eq]; exact max_le (by omega) (by omega)
  · intro hc
    refine ⟨?_, fun ht => ?_⟩
    · rw [en]
      have hle : c.maxPosition ≤ c.currentPosition + (c.scrollAmount : Int) := by omega
      rw [min_eq_right hle, hc]
    · have hb := (n3 ht).2
      have hmin : min (c.currentPosition + (c.scrollAmount : Int)) c.maxPosition
          = c.maxPosition := min_eq_right (by omega)
      show (NewArrivalsCarousel.updatePosition _).state.nextBtn = _
      rw [hb]
      simp [hmin]
  · intro hc
    refine ⟨?_, fun ht => ?_⟩
    · rw [ep]; exact max_eq_right (by omega)
    · have hb := (p3 ht).1
      have hmax : max (c.currentPosition - (c.scrollAmount : Int)) 0 = 0 :=
        max_eq_right (by omega)
      show (NewArrivalsCarousel.updatePosition _).state.prevBtn = _
      rw [hb]
      simp [hmax]

/-- Witness for C20: the sample carousel at position 0, and scrolled to its
end. -/
theorem scroll_keeps_bounds_witness :
    (NewArrivalsCarousel.scrollNext arrivalsOnPage).state.currentPosition
      = min (arrivalsOnPage.currentPosition + (arrivalsOnPage.scrollAmount : Int))
          arrivalsOnPage.maxPosition
    ∧ (NewArrivalsCarousel.scrollPrevious arrivalsOnPage).state.prevBtn
      = arrivalsOnPage.prevBtn.map (fun _ => true) :=
  ⟨(scroll_keeps_bounds arrivalsOnPage (by decide) (by decide)).1.1,
    ((scroll_keeps_bounds arrivalsOnPage (by decide) (by decide)).2.2.2 (by decide)).2
      (by decide)⟩

/-! ## Notification banner: navigation -/

theorem nextNotification_spec (b : NotificationBanner) (h : b.currentIndex < b.items.length) :
    (NotificationBanner.nextNotification b).completion = Completion.normal
    ∧ (NotificationBanner.nextNotification b).state.currentIndex
      = (b.currentIndex + 1) % b.items.length
    ∧ (NotificationBanner.nextNotification b).state.items.length = b.items.length := by
  unfold NotificationBanner.nextNotification
  rw [List.get?_eq_getElem?, List.getElem?_eq_getElem h]
  exact ⟨rfl, rfl, List.length_modify _ _ _⟩

theorem previousNotification_spec (b : NotificationBanner)
    (h : b.currentIndex < b.items.length) :
    (NotificationBanner.previousNotification b).completion = Completion.normal
    ∧ (NotificationBanner.previousNotification b).state.currentIndex
      = (if b.currentIndex = 0 then b.items.length - 1 else b.currentIndex - 1)
    ∧ (NotificationBanner.previousNotification b).state.items.length = b.items.length := by
  unfold NotificationBanner.previousNotification
  rw [List.get?_eq_getElem?, List.getElem?_eq_getElem h]
  exact ⟨rfl, rfl, List.length_modify _ _ _⟩

theorem next_index_lt (k n : Nat) (h : k < n) : (k + 1) % n < n :=
  Nat.mod_lt _ (by omega)

theorem previous_index_eq (k n : Nat) (h : k < n) :
    (if k = 0 then n - 1 else k - 1) = (k + n - 1) % n := by
  by_cases hk : k = 0
  · subst hk
    rw [if_pos rfl, Nat.zero_add]
    exact (Nat.mod_eq_of_lt (by omega)).symm
  · rw [if_neg hk]
    have e : k + n - 1 = (k - 1) + n := by omega
    rw [e, Nat.add_mod_right]
    exact (Nat.mod_eq_of_lt (by omega)).symm

theorem previous_of_next (k n : Nat) (h : k < n) :
    (if (k + 1) % n = 0 then n - 1 else (k + 1) % n - 1) = k := by
  by_cases hk : k + 1 = n
  · rw [hk, Nat.mod_self, if_pos rfl]
    omega
  · have hlt : k + 1 < n := by omega
    rw [Nat.mod_eq_of_lt hlt, if_neg (by omega)]
    omega

theorem next_of_previous (k n : Nat) (h : k < n) :
    ((if k = 0 then n - 1 else k - 1) + 1) % n = k := by
  by_cases hk : k = 0
  · subst hk
    rw [if_pos rfl]
    have e : n - 1 + 1 = n := by omega
    rw [e, Nat.mod_self]
  · rw [if_neg hk]
    have e : k - 1 + 1 = k := by omega
    rw [e]
    exact Nat.mod_eq_of_lt h

/-- C21: with the index at one of the `n` items, `nextNotification` returns
normally with index `(currentIndex + 1) mod n` and `previousNotification` with
index `(currentIndex - 1 + n) mod n`; both results are below `n`, and each
call undoes the index change of the other. -/
theorem notification_index_wraps (b : NotificationBanner)
    (h : b.currentIndex < b.items.length) :
    ((NotificationBanner.nextNotification b).completion = Completion.normal
      ∧ (NotificationBanner.nextNotification b).state.currentIndex
        = (b.currentIndex + 1) % b.items.length
      ∧ (NotificationBanner.nextNotification b).state.currentIndex
        < (NotificationBanner.nextNotification b).state.items.length)
    ∧ ((NotificationBanner.previousNotification b).completion = Completion.normal
      ∧ (NotificationBanner.previousNotification b).state.currentIndex
        = (b.currentIndex + b.items.length - 1) % b.items.length
      ∧ (NotificationBanner.previousNotification b).state.currentIndex
        < (NotificationBanner.previousNotification b).state.items.length)
    ∧ (NotificationBanner.previousNotification
        (NotificationBanner.nextNotification b).state).state.currentIndex = b.currentIndex
    ∧ (NotificationBanner.nextNotification
        (NotificationBanner.previousNotification b).state).state.currentIndex
      = b.currentIndex := by
  obtain ⟨n1, n2, n3⟩ := nextNotification_spec b h
  obtain ⟨p1, p2, p3⟩ := previousNotification_spec b h
  have hn : (NotificationBanner.nextNotification b).state.currentIndex
      < (NotificationBanner.nextNotification b).state.items.length := by
    rw [n2, n3]
    exact next_index_lt _ _ h
  have hp : (NotificationBanner.previousNotification b).state.currentIndex
      < (NotificationBanner.previousNotification b).state.items.length := by
    rw [p2, p3, previous_index_eq _ _ h]
    exact Nat.mod_lt _ (by omega)
  refine ⟨⟨n1, n2, hn⟩, ⟨p1, ?_, hp⟩, ?_, ?_⟩
  · rw [p2]
    exact previous_index_eq _ _ h
  · rw [(previousNotification_spec _ hn).2.1, n2, n3]
    exact previous_of_next _ _ h
  · rw [(nextNotification_spec _ hp).2.1, p2, p3]
    exact next_of_previous _ _ h

/-- Witness for C21: the three-message banner at its second message. -/
theorem notification_index_wraps_witness :
    (NotificationBanner.nextNotification bannerAtSecond).state.currentIndex = (1 + 1) % 3
    ∧ (NotificationBanner.previousNotification
        (NotificationBanner.nextNotification bannerAtSecond).state).state.currentIndex = 1 :=
  ⟨(notification_index_wraps bannerAtSecond (by decide)).1.2.1,
    (notification_index_wraps bannerAtSecond (by decide)).2.2.1⟩

/-- C30 (what the code does): `showBanner` on the banner as constructed starts
a second interval next to the first; a following `closeBanner` clears only the
stored handle, so one interval stays live with no handle stored. -/
theorem showBanner_leaks_interval :
    bannerConstructed.interval = some 1 ∧ bannerConstructed.running = [1]
    ∧ (bannerConstructed.calls [BannerCall.showBanner]).running = [3, 1]
    ∧ (bannerConstructed.calls [BannerCall.showBanner]).interval = some 3
    ∧ (bannerConstructed.calls [BannerCall.showBanner, BannerCall.closeBanner]).interval = none
    ∧ (bannerConstructed.calls [BannerCall.showBanner, BannerCall.closeBanner]).running
      = [1] := by
  decide


/-! ## Focus trap -/

theorem sameElement_some (a : Nat) : sameElement (some a) (some a) = true := by
  simp [sameElement]

/-- C22: for the focus trap of the accessibility panel and of the mobile menu
overlay alike, Tab on the last focusable element moves focus to the first and
cancels the default, Shift+Tab on the first moves focus to the last and
cancels the default, and otherwise (focus elsewhere, another key on the
overlay, or no focusable element at all) focus stays and nothing is
cancelled. -/
theorem focus_trap_cycles (l : List Nat) (active : Option Nat) (shiftKey : Bool) (key : String) :
    (∀ x, l.getLast? = some x →
      trapFocus l (some x) false = (l.head?, true)
        ∧ MobileMenu.focusTrapKeydown l (some x) "Tab" false = (l.head?, true)
        ∧ l.head?.isSome = true)
    ∧ (∀ x, l.head? = some x →
      trapFocus l (some x) true = (l.getLast?, true)
        ∧ MobileMenu.focusTrapKeydown l (some x) "Tab" true = (l.getLast?, true)
        ∧ l.getLast?.isSome = true)
    ∧ ((shiftKey = true → sameElement active l.head? = false) →
        (shiftKey = false → sameElement active l.getLast? = false) →
      trapFocus l active shiftKey = (active, false)
        ∧ MobileMenu.focusTrapKeydown l active key shiftKey = (active, false))
    ∧ (key ≠ "Tab" → MobileMenu.focusTrapKeydown l active key shiftKey = (active, false))
    ∧ trapFocus [] active shiftKey = (active, false)
    ∧ MobileMenu.focusTrapKeydown [] active key shiftKey = (active, false) := by
  refine ⟨?_, ?_, ?_, ?_, ?_, ?_⟩
  · intro x hx
    refine ⟨?_, ?_, ?_⟩
    · simp [trapFocus, hx, sameElement_some]
    · simp [MobileMenu.focusTrapKeydown, hx, sameElement_some]
    · cases l with
      | nil => simp at hx
      | cons a rest => rfl
  · intro x hx
    refine ⟨?_, ?_, ?_⟩
    · simp [trapFocus, hx, sameElement_some]
    · simp [MobileMenu.focusTrapKeydown, hx, sameElement_some]
    · cases l with
      | nil => simp at hx
      | cons a rest => simp [List.getLast?_cons]
  · intro h1 h2
    cases shiftKey with
    | true =>
      have h := h1 rfl
      constructor
      · simp [trapFocus, h]
      · by_cases hk : key = "Tab" <;> simp [MobileMenu.focusTrapKeydown, hk, h]
    | false =>
      have h := h2 rfl
      constructor
      · simp [trapFocus, h]
      · by_cases hk : key = "Tab" <;> simp [MobileMenu.focusTrapKeydown, hk, h]
  · intro hk
    simp [MobileMenu.focusTrapKeydown, hk]
  · cases shiftKey <;> cases active <;> simp [trapFocus, sameElement]
  · by_cases hk : key = "Tab" <;> cases shiftKey <;> cases active <;>
      simp [MobileMenu.focusTrapKeydown, hk, sameElement]

/-- Witness for C22: elements 4, 7, 9; Tab on 9 goes to 4, Shift+Tab on 4 goes
to 9. -/
theorem focus_trap_cycles_witness :
    trapFocus [4, 7, 9] (some 9) false = (some 4, true)
    ∧ MobileMenu.focusTrapKeydown [4, 7, 9] (some 4) "Tab" true = (some 9, true) :=
  ⟨((focus_trap_cycles [4, 7, 9] none false "Tab").1 9 rfl).1,
    ((focus_trap_cycles [4, 7, 9] none false "Tab").2.1 4 rfl).2.1⟩

/-! ## Reset -/

/-- C23 (what the code does): after `handleAction('reset-all')` the font size
key is absent but the preferences key holds the object `savePreferences`
writes at the end of `handleAction`, for every page. -/
theorem reset_all_action_writes_preferences (p : ToolkitPage) :
    (handleAction p Action.resetAll).font.stored = StoredScale.absent
    ∧ (handleAction p Action.resetAll).preferences ≠ StoredPrefs.absent
    ∧ (handleAction p Action.resetAll).preferences
      = StoredPrefs.json (preferencesObject (resetAllSettings p))
    ∧ (resetAllSettings p).preferences = StoredPrefs.absent := by
  refine ⟨rfl, ?_, rfl, rfl⟩
  simp [handleAction, savePreferences]

/-- C24 (what the code does): after showing the skip links through the panel
and then `resetAllSettings`, the skip links are still visible while their
button says `aria-pressed` false; `resetAllSettings` never changes the
`visible` class of `#skip-links`. -/
theorem reset_all_leaves_skip_links :
    (∀ p : ToolkitPage, (resetAllSettings p).skipLinksVisible = p.skipLinksVisible)
    ∧ (resetAllSettings (handleActions firstVisitPage [Action.skipLinks])).skipLinksVisible
      = true
    ∧ (resetAllSettings (handleActions firstVisitPage [Action.skipLinks])).skipLinksPressed
      = false := by
  refine ⟨fun _ => rfl, ?_, ?_⟩ <;> rfl


/-! ## Loading a valid preferences object -/

theorem applyEntry_name (p : ToolkitPage) (s : String) (v : JsonValue) :
    (applyEntry p (Key.name s) v).bodyClass
        = (fun g => p.bodyClass g || (v.truthy && decide (Feature.ofKey s = some g)))
    ∧ (applyEntry p (Key.name s) v).pressed
        = (fun g => p.pressed g || (v.truthy && decide (Feature.ofKey s = some g)))
    ∧ (applyEntry p (Key.name s) v).preferences = p.preferences
    ∧ (applyEntry p (Key.name s) v).warnings = p.warnings := by
  unfold applyEntry
  by_cases ht : v.truthy = true
  · rw [if_neg (by simp [ht])]
    dsimp only
    split
    · rename_i f hf
      refine ⟨?_, ?_, rfl, rfl⟩
      · funext g
        by_cases hg : g = f
        · subst hg; simp [updateButtonState, ht, hf]
        · have hfg : ¬ f = g := fun e => hg e.symm
          simp [updateButtonState, Function.update_noteq hg, hfg, ht, hf]
      · funext g
        by_cases hg : g = f
        · subst hg; simp [updateButtonState, ht, hf]
        · have hfg : ¬ f = g := fun e => hg e.symm
          simp [updateButtonState, Function.update_noteq hg, hfg, ht, hf]
    · rename_i hnone
      repeat' split
      all_goals exact ⟨by funext g; simp [hnone], by funext g; simp [hnone], rfl, rfl⟩
  · have hf : v.truthy = false := by simpa using ht
    rw [if_pos (by simp [hf])]
    exact ⟨by funext g; simp [hf], by funext g; simp [hf], rfl, rfl⟩

theorem foldl_object_entries (es : List (String × JsonValue)) :
    ∀ p : ToolkitPage,
      ((es.map (fun kv => (Key.name kv.1, kv.2))).foldl
          (fun acc kv => applyEntry acc kv.1 kv.2) p).bodyClass
        = (fun g => p.bodyClass g || activates es g)
      ∧ ((es.map (fun kv => (Key.name kv.1, kv.2))).foldl
          (fun acc kv => applyEntry acc kv.1 kv.2) p).pressed
        = (fun g => p.pressed g || activates es g)
      ∧ ((es.map (fun kv => (Key.name kv.1, kv.2))).foldl
          (fun acc kv => applyEntry acc kv.1 kv.2) p).preferences = p.preferences
      ∧ ((es.map (fun kv => (Key.name kv.1, kv.2))).foldl
          (fun acc kv => applyEntry acc kv.1 kv.2) p).warnings = p.warnings := by
  induction es with
  | nil => intro p; simp [activates]
  | cons kv rest ih =>
    intro p
    simp only [List.map_cons, List.foldl_cons]
    obtain ⟨a1, a2, a3, a4⟩ := applyEntry_name p kv.1 kv.2
    obtain ⟨h1, h2, h3, h4⟩ := ih (applyEntry p (Key.name kv.1) kv.2)
    rw [h1, h2, h3, h4, a1, a2, a3, a4]
    refine ⟨?_, ?_, rfl, rfl⟩
    · funext g
      simp [activates, List.any_cons, Bool.or_assoc]
    · funext g
      simp [activates, List.any_cons, Bool.or_assoc]

theorem load_object (p : ToolkitPage) (es : List (String × JsonValue))
    (hp : p.preferences = StoredPrefs.json (JsonDoc.object es)) :
    (loadSavedPreferences p).bodyClass = (fun g => p.bodyClass g || activates es g)
    ∧ (loadSavedPreferences p).pressed = (fun g => p.pressed g || activates es g)
    ∧ (loadSavedPreferences p).preferences = p.preferences
    ∧ (loadSavedPreferences p).warnings = p.warnings := by
  unfold loadSavedPreferences
  rw [hp]
  simp only [tryLoad, hp, StoredPrefs.parse, JsonDoc.entries]
  rw [← hp]
  exact foldl_object_entries es p

/-- C25: with a stored object, `loadSavedPreferences` leaves on exactly the
features that were on before or have a truthy entry, presses the buttons of
the features with a truthy entry and leaves the other buttons as they were,
turns no feature off, gives the same features and buttons when run a second
time, and does the same on a live page when `importSettings` has stored the
object. -/
theorem load_activates_truthy_entries (p : ToolkitPage) (es : List (String × JsonValue))
    (fontSize : StoredScale) (hp : p.preferences = StoredPrefs.json (JsonDoc.object es)) :
    ((loadSavedPreferences p).bodyClass = (fun g => p.bodyClass g || activates es g)
      ∧ (loadSavedPreferences p).pressed = (fun g => p.pressed g || activates es g))
    ∧ (∀ g, p.bodyClass g = true → (loadSavedPreferences p).bodyClass g = true)
    ∧ ((loadSavedPreferences (loadSavedPreferences p)).bodyClass
        = (loadSavedPreferences p).bodyClass
      ∧ (loadSavedPreferences (loadSavedPreferences p)).pressed
        = (loadSavedPreferences p).pressed)
    ∧ (∀ q : ToolkitPage,
        (importSettings q
            (ImportFile.settings (StoredPrefs.json (JsonDoc.object es)) fontSize)).bodyClass
          = (fun g => q.bodyClass g || activates es g)) := by
  obtain ⟨h1, h2, h3, -⟩ := load_object p es hp
  refine ⟨⟨h1, h2⟩, ?_, ?_, ?_⟩
  · intro g hg
    rw [h1]
    simp [hg]
  · obtain ⟨k1, k2, -, -⟩ := load_object (loadSavedPreferences p) es (h3.trans hp)
    rw [k1, k2, h1, h2]
    constructor <;> funext g <;> simp [Bool.or_assoc]
  · intro q
    unfold importSettings
    simp only [StoredPrefs.truthy, if_true]
    by_cases hf : fontSize.truthy = true
    · simp only [hf, if_true]
      exact (load_object _ es rfl).1
    · simp only [hf, Bool.false_eq_true, if_false]
      exact (load_object _ es rfl).1

/-- Witness for C25: a stored object with dark mode true and grayscale false,
loaded on a page that has dark mode and big cursor on. -/
theorem load_activates_truthy_entries_witness :
    (loadSavedPreferences
        { darkBigCursorPage with
          preferences := StoredPrefs.json (JsonDoc.object
            [("darkMode", JsonValue.bool true), ("grayscale", JsonValue.bool false)]) }).bodyClass
      = (fun g => darkBigCursorPage.bodyClass g
          || activates [("darkMode", JsonValue.bool true), ("grayscale", JsonValue.bool false)] g) :=
  (load_activates_truthy_entries
    { darkBigCursorPage with
      preferences := StoredPrefs.json (JsonDoc.object
        [("darkMode", JsonValue.bool true), ("grayscale", JsonValue.bool false)]) }
    [("darkMode", JsonValue.bool true), ("grayscale", JsonValue.bool false)]
    StoredScale.absent rfl).1.1


/-! ## Mobile menu: clicks -/

/-- C26 (what the code does): with the menu open, a click on an in-page link
inside the overlay leaves the overlay with `active` and the open instance with
`isOpen` true; the handler has constructed a second instance, closed from the
start, and called `close()` on that one. A link outside the overlay does get
the menu closed, by the document click listener of the open instance. -/
theorem anchor_click_inside_overlay_keeps_menu_open :
    (openMenuPage.menus.map (fun m => m.isOpen) = [true]
      ∧ openMenuPage.dom.menuOverlay.map (fun o => o.active) = some true)
    ∧ ((anchorClick openMenuPage ClickTarget.insideOverlay (fun _ => true) true).menus.map
          (fun m => m.isOpen) = [true, false]
      ∧ (anchorClick openMenuPage ClickTarget.insideOverlay
          (fun _ => true) true).dom.menuOverlay.map (fun o => o.active) = some true)
    ∧ ((anchorClick openMenuPage ClickTarget.outside (fun _ => true) true).menus.map
          (fun m => m.isOpen) = [false, false]
      ∧ (anchorClick openMenuPage ClickTarget.outside
          (fun _ => true) true).dom.menuOverlay.map (fun o => o.active) = some false) := by
  decide

/-- C27 (what the code does): the first click on the toggle button opens the
menu; the second click closes it (`isOpen` false) and then the last listener
puts `active` back on the overlay and `menu-open` back on `body`, so the
visible state no longer agrees with `isOpen`. After any click with an overlay
present the overlay has `active` and `body` has `menu-open`. -/
theorem toggle_click_leaves_overlay_active :
    ((toggleButtonClicks closedMenu 1).menu.isOpen = true
      ∧ VisibleMatchesOpen (toggleButtonClicks closedMenu 1))
    ∧ ((toggleButtonClicks closedMenu 2).menu.isOpen = false
      ∧ (toggleButtonClicks closedMenu 2).dom.menuOverlay.map (fun o => o.active) = some true
      ∧ (toggleButtonClicks closedMenu 2).dom.bodyMenuOpen = true
      ∧ ¬ VisibleMatchesOpen (toggleButtonClicks closedMenu 2))
    ∧ (∀ s : MenuState, s.dom.menuOverlay.isSome = true →
        (toggleButtonClick s).dom.menuOverlay.map (fun o => o.active) = some true
          ∧ (toggleButtonClick s).dom.bodyMenuOpen = true) := by
  refine ⟨by decide, by decide, ?_⟩
  intro s hs
  have key : ∀ d : MenuDom, d.menuOverlay.isSome = true →
      (directClickHandler d).menuOverlay.map (fun o => o.active) = some true
        ∧ (directClickHandler d).bodyMenuOpen = true := by
    intro d hd
    unfold directClickHandler
    cases ho : d.menuOverlay with
    | none => rw [ho] at hd; simp at hd
    | some o => exact ⟨rfl, rfl⟩
  have htoggle : ∀ s1 : MenuState, s1.dom.menuOverlay.isSome = true →
      ((MobileMenu.toggle s1).state.dom.menuOverlay).isSome = true := by
    intro s1 h1
    unfold MobileMenu.toggle MobileMenu.close MobileMenu.openMenu
    cases ho : s1.dom.menuOverlay with
    | none => rw [ho] at h1; simp at h1
    | some o =>
      by_cases hopen : s1.menu.isOpen = true
      · simp [hopen, ho, MobileMenu.announceToScreenReader]
      · simp [hopen, ho, MobileMenu.announceToScreenReader]
  have h1 : (testClickHandler s.dom).menuOverlay.isSome = true := by
    unfold testClickHandler
    cases ho : s.dom.menuOverlay with
    | none => rw [ho] at hs; simp at hs
    | some o => rfl
  have hpres := htoggle { s with dom := testClickHandler s.dom } h1
  exact key _ hpres


/-! ## New arrivals: changing the book list -/

/-- C28 (what the code does): on the sample carousel scrolled to its end
(position 644 of at most 644), `removeBook(6)` recomputes `maxPosition` as 370
and leaves `currentPosition` at 644; `addBook`, `updateBook` and `refresh`
keep the position within the bounds there. -/
theorem removeBook_leaves_position_past_max :
    (arrivalsAtEnd.currentPosition = 644 ∧ arrivalsAtEnd.maxPosition = 644)
    ∧ ((NewArrivalsCarousel.removeBook arrivalsAtEnd 6).completion = Completion.normal
      ∧ (NewArrivalsCarousel.removeBook arrivalsAtEnd 6).state.maxPosition = 370
      ∧ (NewArrivalsCarousel.removeBook arrivalsAtEnd 6).state.currentPosition = 644)
    ∧ ((NewArrivalsCarousel.addBook arrivalsAtEnd 7).state.currentPosition
        ≤ (NewArrivalsCarousel.addBook arrivalsAtEnd 7).state.maxPosition
      ∧ (NewArrivalsCarousel.updateBook arrivalsAtEnd 6 6).state.currentPosition
        ≤ (NewArrivalsCarousel.updateBook arrivalsAtEnd 6 6).state.maxPosition
      ∧ (NewArrivalsCarousel.refresh arrivalsAtEnd).state.currentPosition = 0) := by
  decide


/-! ## Statistics counter: binary64 rounding -/

namespace Binary64

theorem leadingBit_spec (q : Nat) : ∀ k lo : Nat, 2 ^ lo ≤ q → q < 2 ^ (lo + 2 ^ k) →
    2 ^ leadingBit q k lo ≤ q ∧ q < 2 ^ (leadingBit q k lo + 1) := by
  intro k
  induction k with
  | zero =>
    intro lo h1 h2
    exact ⟨h1, h2⟩
  | succ k ih =>
    intro lo h1 h2
    unfold leadingBit
    split
    · rename_i h
      apply ih _ h
      have he : lo + 2 ^ k + 2 ^ k = lo + 2 ^ (k + 1) := by ring
      rw [he]
      exact h2
    · rename_i h
      exact ih lo h1 (not_le.mp h)

theorem leadingBit_zero : ∀ k lo : Nat, leadingBit 0 k lo = lo := by
  intro k
  induction k with
  | zero => intro lo; rfl
  | succ k ih =>
    intro lo
    unfold leadingBit
    have hpos : ¬ 2 ^ (lo + 2 ^ k) ≤ 0 := by
      have hp : 0 < 2 ^ (lo + 2 ^ k) := by positivity
      omega
    rw [if_neg hpos]
    exact ih lo

/-- The spacing exponent chosen by `roundNearestEven`. -/
theorem spacing_spec (q : Nat) (hq : q < 2 ^ 4096) :
    q < 2 ^ 53 * 2 ^ ((leadingBit q 12 0 + 1) - 53)
      ∧ (0 < (leadingBit q 12 0 + 1) - 53 →
          2 ^ 52 * 2 ^ ((leadingBit q 12 0 + 1) - 53) ≤ q) := by
  by_cases h0 : q = 0
  · subst h0
    rw [leadingBit_zero]
    constructor
    · positivity
    · intro h
      omega
  · have h1 : 2 ^ 0 ≤ q := by
      simp
      omega
    have h2 : q < 2 ^ (0 + 2 ^ 12) := by
      norm_num
      norm_num at hq
      exact hq
    obtain ⟨ha, hb⟩ := leadingBit_spec q 12 0 h1 h2
    generalize leadingBit q 12 0 = e at ha hb
    by_cases he : e + 1 ≤ 53
    · have hs : e + 1 - 53 = 0 := by omega
      rw [hs]
      constructor
      · calc q < 2 ^ (e + 1) := hb
          _ ≤ 2 ^ 53 := Nat.pow_le_pow_right (by norm_num) he
          _ = 2 ^ 53 * 2 ^ 0 := by norm_num
      · intro h
        omega
    · have hs : 53 + (e + 1 - 53) = e + 1 := by omega
      have hs2 : 52 + (e + 1 - 53) = e := by omega
      constructor
      · rw [← pow_add, hs]
        exact hb
      · intro _
        rw [← pow_add, hs2]
        exact ha

/-- What `roundNearestEven` returns: with `m` the significand and `2^s` the
spacing of the binary64 number below `num / den`, that number or the next
one, whichever is nearer. -/
theorem roundNearestEven_cases (num den : Nat) (hden : 0 < den) (hq : num / den < 2 ^ 4096) :
    ∃ m s rest : Nat, m < 2 ^ 53 ∧ (0 < s → 2 ^ 52 ≤ m)
      ∧ num = m * 2 ^ s * den + rest ∧ rest < 2 ^ s * den
      ∧ ((roundNearestEven num den = m * 2 ^ s ∧ 2 * rest ≤ 2 ^ s * den)
        ∨ (roundNearestEven num den = (m + 1) * 2 ^ s ∧ 2 ^ s * den ≤ 2 * rest)) := by
  obtain ⟨hs1, hs2⟩ := spacing_spec (num / den) hq
  refine ⟨(num / den) / 2 ^ ((leadingBit (num / den) 12 0 + 1) - 53),
    (leadingBit (num / den) 12 0 + 1) - 53,
    ((num / den) % 2 ^ ((leadingBit (num / den) 12 0 + 1) - 53)) * den + num % den,
    ?_, ?_, ?_, ?_, ?_⟩
  · rw [Nat.div_lt_iff_lt_mul (by positivity)]
    exact hs1
  · intro hs
    rw [Nat.le_div_iff_mul_le (by positivity)]
    exact hs2 hs
  · generalize (leadingBit (num / den) 12 0 + 1) - 53 = s
    have h1 := Nat.div_add_mod num den
    have h2 := Nat.div_add_mod (num / den) (2 ^ s)
    calc num = den * (num / den) + num % den := h1.symm
      _ = den * (2 ^ s * (num / den / 2 ^ s) + num / den % 2 ^ s) + num % den := by rw [h2]
      _ = num / den / 2 ^ s * 2 ^ s * den + (num / den % 2 ^ s * den + num % den) := by ring
  · generalize (leadingBit (num / den) 12 0 + 1) - 53 = s
    have h1 : num % den < den := Nat.mod_lt _ hden
    have h2 : num / den % 2 ^ s < 2 ^ s := Nat.mod_lt _ (by positivity)
    calc num / den % 2 ^ s * den + num % den < num / den % 2 ^ s * den + den := by omega
      _ = (num / den % 2 ^ s + 1) * den := by ring
      _ ≤ 2 ^ s * den := Nat.mul_le_mul_right den h2
  · unfold roundNearestEven
    dsimp only
    generalize (leadingBit (num / den) 12 0 + 1) - 53 = s
    split
    · left
      exact ⟨rfl, by omega⟩
    · split
      · right
        exact ⟨rfl, by omega⟩
      · split
        · left
          exact ⟨rfl, by omega⟩
        · right
          exact ⟨rfl, by omega⟩

/-- A binary64 number of at least `2^52` spacings lies on the grid of that
spacing. -/
theorem IsBinary64.on_grid {y : Nat} (hy : IsBinary64 y) (s : Nat)
    (hs : s = 0 ∨ 2 ^ 52 * 2 ^ s ≤ y) : ∃ k : Nat, y = k * 2 ^ s := by
  rcases hs with hs | hs
  · subst hs
    exact ⟨y, by simp⟩
  · obtain ⟨m, e, hm, rfl⟩ := hy
    by_cases hse : s ≤ e
    · refine ⟨m * 2 ^ (e - s), ?_⟩
      rw [mul_assoc, ← pow_add, Nat.sub_add_cancel hse]
    · exfalso
      have h1 : e + 1 ≤ s := by omega
      have h2 : m * 2 ^ e < 2 ^ 53 * 2 ^ e :=
        Nat.mul_lt_mul_of_pos_right hm (by positivity)
      have h3 : 2 ^ 53 * 2 ^ e = 2 ^ 52 * 2 ^ (e + 1) := by
        rw [pow_succ]
        ring
      have h4 : 2 ^ 52 * 2 ^ (e + 1) ≤ 2 ^ 52 * 2 ^ s :=
        Nat.mul_le_mul_left _ (Nat.pow_le_pow_right (by norm_num) h1)
      omega

/-- The result of `roundNearestEven` is a binary64 number. -/
theorem roundNearestEven_isBinary64 (num den : Nat) (hden : 0 < den)
    (hq : num / den < 2 ^ 4096) : IsBinary64 (roundNearestEven num den) := by
  obtain ⟨m, s, rest, hm, -, -, -, hr⟩ := roundNearestEven_cases num den hden hq
  rcases hr with ⟨hr, -⟩ | ⟨hr, -⟩
  · exact ⟨m, s, hm, hr⟩
  · by_cases hm1 : m + 1 < 2 ^ 53
    · exact ⟨m + 1, s, hm1, hr⟩
    · have hm2 : m + 1 = 2 ^ 53 := by omega
      refine ⟨2 ^ 52, s + 1, by norm_num, ?_⟩
      rw [hr, hm2, pow_succ]
      ring

/-- Rounding does not go below a binary64 number that is not above the exact
value. -/
theorem le_roundNearestEven (num den y : Nat) (hden : 0 < den) (hq : num / den < 2 ^ 4096)
    (hy : IsBinary64 y) (hle : y * den ≤ num) : y ≤ roundNearestEven num den := by
  obtain ⟨m, s, rest, hm, hs, hnum, hrest, hr⟩ := roundNearestEven_cases num den hden hq
  have hlt : y * den < (m + 1) * 2 ^ s * den := by
    have : (m + 1) * 2 ^ s * den = m * 2 ^ s * den + 2 ^ s * den := by ring
    omega
  have hy1 : y < (m + 1) * 2 ^ s := lt_of_mul_lt_mul_right hlt (Nat.zero_le den)
  rcases hr with ⟨hr, -⟩ | ⟨hr, -⟩
  · rw [hr]
    by_cases hsmall : s = 0 ∨ 2 ^ 52 * 2 ^ s ≤ y
    · obtain ⟨k, hk⟩ := hy.on_grid s hsmall
      rw [hk] at hy1 ⊢
      have hk1 : k < m + 1 := lt_of_mul_lt_mul_right hy1 (Nat.zero_le _)
      exact Nat.mul_le_mul_right _ (by omega)
    · push_neg at hsmall
      have hs0 : 0 < s := Nat.pos_of_ne_zero hsmall.1
      have h1 : 2 ^ 52 * 2 ^ s ≤ m * 2 ^ s := Nat.mul_le_mul_right _ (hs hs0)
      omega
  · rw [hr]
    exact le_of_lt hy1

/-- Rounding does not go above a binary64 number that is not below the exact
value. -/
theorem roundNearestEven_le (num den y : Nat) (hden : 0 < den) (hq : num / den < 2 ^ 4096)
    (hy : IsBinary64 y) (hle : num ≤ y * den) : roundNearestEven num den ≤ y := by
  obtain ⟨m, s, rest, hm, hs, hnum, hrest, hr⟩ := roundNearestEven_cases num den hden hq
  rcases hr with ⟨hr, -⟩ | ⟨hr, hhalf⟩
  · rw [hr]
    have h1 : m * 2 ^ s * den ≤ y * den := by omega
    exact le_of_mul_le_mul_right h1 hden
  · rw [hr]
    have hpos : 0 < 2 ^ s * den := by positivity
    have h1 : m * 2 ^ s * den < y * den := by omega
    have hy1 : m * 2 ^ s < y := lt_of_mul_lt_mul_right h1 (Nat.zero_le den)
    have hgrid : s = 0 ∨ 2 ^ 52 * 2 ^ s ≤ y := by
      by_cases hs0 : s = 0
      · exact Or.inl hs0
      · right
        have h2 : 2 ^ 52 * 2 ^ s ≤ m * 2 ^ s :=
          Nat.mul_le_mul_right _ (hs (Nat.pos_of_ne_zero hs0))
        omega
    obtain ⟨k, hk⟩ := hy.on_grid s hgrid
    rw [hk] at hy1 ⊢
    have hk1 : m < k := lt_of_mul_lt_mul_right hy1 (Nat.zero_le _)
    exact Nat.mul_le_mul_right _ (by omega)

/-- A binary64 number rounds to itself. -/
theorem roundNearestEven_exact (den y : Nat) (hden : 0 < den) (hq : y < 2 ^ 4096)
    (hy : IsBinary64 y) : roundNearestEven (y * den) den = y := by
  have hq2 : y * den / den < 2 ^ 4096 := by
    rw [Nat.mul_div_cancel _ hden]
    exact hq
  exact le_antisymm (roundNearestEven_le _ _ y hden hq2 hy (le_refl _))
    (le_roundNearestEven _ _ y hden hq2 hy (le_refl _))

/-- The relative error of rounding is at most `2^-53` from `2^52` units on. -/
theorem roundNearestEven_relative (num den : Nat) (hden : 0 < den)
    (hq : num / den < 2 ^ 4096) (hbig : 2 ^ 52 * den ≤ num) :
    (2 ^ 53 - 1) * num ≤ 2 ^ 53 * (roundNearestEven num den * den) := by
  obtain ⟨m, s, rest, hm, hs, hnum, hrest, hr⟩ := roundNearestEven_cases num den hden hq
  have hspace : 2 ^ 52 * (2 ^ s * den) ≤ num := by
    by_cases hs0 : s = 0
    · subst hs0
      simpa using hbig
    · have h1 : 2 ^ 52 * 2 ^ s * den ≤ m * 2 ^ s * den :=
        Nat.mul_le_mul_right _ (Nat.mul_le_mul_right _ (hs (Nat.pos_of_ne_zero hs0)))
      have h2 : 2 ^ 52 * (2 ^ s * den) = 2 ^ 52 * 2 ^ s * den := by ring
      omega
  rcases hr with ⟨hr, hhalf⟩ | ⟨hr, -⟩
  · rw [hr]
    norm_num at hspace ⊢
    omega
  · rw [hr]
    have h1 : (m + 1) * 2 ^ s * den = m * 2 ^ s * den + 2 ^ s * den := by ring
    rw [h1]
    norm_num
    omega

theorem one_pos : 0 < one := by
  unfold one
  positivity

theorem pow_le_pow_two (a b : Nat) (h : a ≤ b) : 2 ^ a ≤ 2 ^ b :=
  Nat.pow_le_pow_right (by decide) h

theorem one_large : 2 ^ 52 * 125 ≤ one := by
  have h1 : 2 ^ 52 * 125 ≤ 2 ^ 59 := by norm_num
  exact le_trans h1 (pow_le_pow_two 59 1074 (by decide))

theorem isBinary64_mul_one (k : Nat) (hk : k < 2 ^ 53) : IsBinary64 (k * one) :=
  ⟨k, 1074, hk, rfl⟩

theorem mul_one_lt (k : Nat) (hk : k < 2 ^ 53) : 2 * (k * one) < 2 ^ 4096 := by
  unfold one
  have h1 : k * 2 ^ 1074 < 2 ^ 53 * 2 ^ 1074 := Nat.mul_lt_mul_of_pos_right hk (by positivity)
  have h2 : 2 * (2 ^ 53 * 2 ^ 1074) = 2 ^ 1128 := by
    rw [← pow_add, ← pow_succ']
  have h3 := pow_le_pow_two 1128 4096 (by decide)
  omega

theorem roundNearestEven_zero (den : Nat) (hden : 0 < den) : roundNearestEven 0 den = 0 := by
  have hq : 0 / den < 2 ^ 4096 := by
    rw [Nat.zero_div]
    positivity
  have h := roundNearestEven_le 0 den 0 hden hq ⟨0, 0, by norm_num, by simp⟩ (by simp)
  omega

theorem round_natCast (num den : Nat) :
    round (num : Int) den = ((roundNearestEven num den : Nat) : Int) := by
  unfold round
  rw [if_neg (by omega)]
  simp

theorem round_neg_natCast (num den : Nat) (hden : 0 < den) :
    round (-(num : Int)) den = -((roundNearestEven num den : Nat) : Int) := by
  unfold round
  by_cases h0 : num = 0
  · subst h0
    simp [roundNearestEven_zero den hden]
  · rw [if_pos (by omega)]
    simp

/-- A safe integer is a Number. -/
theorem ofInt_natCast (k : Nat) (hk : k < 2 ^ 53) : ofInt (k : Int) = ((k * one : Nat) : Int) := by
  unfold ofInt
  have h1 : (k : Int) * (one : Int) = ((k * one : Nat) : Int) := by push_cast; ring
  rw [h1, round_natCast]
  have h2 := roundNearestEven_exact 1 (k * one) (by norm_num)
    (by have := mul_one_lt k hk; omega) (isBinary64_mul_one k hk)
  rw [Nat.mul_one] at h2
  rw [h2]

theorem ofInt_neg_natCast (k : Nat) (hk : k < 2 ^ 53) :
    ofInt (-(k : Int)) = -((k * one : Nat) : Int) := by
  unfold ofInt
  have h1 : -(k : Int) * (one : Int) = -((k * one : Nat) : Int) := by push_cast; ring
  rw [h1, round_neg_natCast _ _ (by norm_num)]
  have h2 := roundNearestEven_exact 1 (k * one) (by norm_num)
    (by have := mul_one_lt k hk; omega) (isBinary64_mul_one k hk)
  rw [Nat.mul_one] at h2
  rw [h2]

theorem div_natCast (a b : Nat) (hb : 0 < b) :
    div (a : Int) (b : Int) = ((roundNearestEven (a * one) b : Nat) : Int) := by
  unfold div
  have hs : (b : Int).sign = 1 := Int.sign_eq_one_of_pos (by exact_mod_cast hb)
  have h1 : (a : Int) * (one : Int) * (b : Int).sign = ((a * one : Nat) : Int) := by
    rw [hs]; push_cast; ring
  rw [h1, round_natCast, Int.natAbs_ofNat]

theorem div_neg_natCast (a b : Nat) (hb : 0 < b) :
    div (-(a : Int)) (b : Int) = -((roundNearestEven (a * one) b : Nat) : Int) := by
  unfold div
  have hs : (b : Int).sign = 1 := Int.sign_eq_one_of_pos (by exact_mod_cast hb)
  have h1 : -(a : Int) * (one : Int) * (b : Int).sign = -((a * one : Nat) : Int) := by
    rw [hs]; push_cast; ring
  rw [h1, Int.natAbs_ofNat, round_neg_natCast _ _ hb]

theorem add_natCast (a b : Nat) :
    add (a : Int) (b : Int) = ((roundNearestEven (a + b) 1 : Nat) : Int) := by
  unfold add
  have h1 : (a : Int) + (b : Int) = ((a + b : Nat) : Int) := by push_cast; ring
  rw [h1, round_natCast]

/-- The divisor `duration / 16` is 125. -/
theorem frames_eq : div (ofInt 2000) (ofInt 16) = ((125 * one : Nat) : Int) := by
  have h1 := ofInt_natCast 2000 (by norm_num)
  have h2 := ofInt_natCast 16 (by norm_num)
  have h1' : ofInt 2000 = ((2000 * one : Nat) : Int) := by exact_mod_cast h1
  have h2' : ofInt 16 = ((16 * one : Nat) : Int) := by exact_mod_cast h2
  rw [h1', h2', div_natCast _ _ (by have := one_pos; omega)]
  have h3 : 2000 * one * one = 125 * one * (16 * one) := by ring
  rw [h3, roundNearestEven_exact (16 * one) (125 * one) (by have := one_pos; omega)
    (by have := mul_one_lt 125 (by norm_num); omega) (isBinary64_mul_one 125 (by norm_num))]

end Binary64

/-! ## Statistics counter -/

theorem tick_of_stopped (t : Int) (c : StatCounter) (h : c.running = false) :
    StatsAnimator.tick t c = c := by
  simp [StatsAnimator.tick, h]

/-- A cleared interval stays cleared. -/
theorem ticks_stopped_later (t : Int) (n : Nat) (h : (StatsAnimator.ticks t n).running = false) :
    ∀ m, StatsAnimator.ticks t (n + m) = StatsAnimator.ticks t n := by
  intro m
  induction m with
  | zero => rfl
  | succ m ih =>
    show StatsAnimator.tick t (StatsAnimator.ticks t (n + m)) = StatsAnimator.ticks t n
    rw [ih]
    exact tick_of_stopped t _ h

theorem increment_natCast (k : Nat) (hk : k < 2 ^ 53) :
    StatsAnimator.increment (k : Int)
      = ((Binary64.roundNearestEven (k * Binary64.one * Binary64.one) (125 * Binary64.one) : Nat)
          : Int) := by
  unfold StatsAnimator.increment
  rw [Binary64.frames_eq, Binary64.ofInt_natCast k hk,
    Binary64.div_natCast _ _ (by have := Binary64.one_pos; omega)]

theorem increment_neg_natCast (k : Nat) (hk : k < 2 ^ 53) :
    StatsAnimator.increment (-(k : Int))
      = -((Binary64.roundNearestEven (k * Binary64.one * Binary64.one) (125 * Binary64.one) : Nat)
          : Int) := by
  unfold StatsAnimator.increment
  rw [Binary64.frames_eq, Binary64.ofInt_neg_natCast k hk,
    Binary64.div_neg_natCast _ _ (by have := Binary64.one_pos; omega)]

/-- The increment for a safe target `k`: a binary64 number, at most the
target, at least `2^52` units for a positive target, and within a relative
error of `2^-53` of `k / 125`. -/
theorem increment_facts (k : Nat) (hk : k < 2 ^ 53) :
    Binary64.IsBinary64
        (Binary64.roundNearestEven (k * Binary64.one * Binary64.one) (125 * Binary64.one))
      ∧ Binary64.roundNearestEven (k * Binary64.one * Binary64.one) (125 * Binary64.one)
          ≤ k * Binary64.one
      ∧ (0 < k →
          2 ^ 52 ≤ Binary64.roundNearestEven (k * Binary64.one * Binary64.one)
            (125 * Binary64.one))
      ∧ (0 < k →
          (2 ^ 53 - 1) * (k * Binary64.one)
            ≤ 2 ^ 53 * (Binary64.roundNearestEven (k * Binary64.one * Binary64.one)
                (125 * Binary64.one) * 125)) := by
  have hU := Binary64.one_pos
  have hUl := Binary64.one_large
  have hden : 0 < 125 * Binary64.one := by omega
  have hkU := Binary64.mul_one_lt k hk
  have hq : k * Binary64.one * Binary64.one / (125 * Binary64.one) < 2 ^ 4096 := by
    rw [Nat.div_lt_iff_lt_mul hden]
    have h1 : k * Binary64.one * Binary64.one ≤ k * Binary64.one * (125 * Binary64.one) :=
      Nat.mul_le_mul_left _ (by omega)
    have h2 : k * Binary64.one * (125 * Binary64.one) < 2 ^ 4096 * (125 * Binary64.one) :=
      Nat.mul_lt_mul_of_pos_right (by omega) hden
    omega
  refine ⟨Binary64.roundNearestEven_isBinary64 _ _ hden hq, ?_, ?_, ?_⟩
  · apply Binary64.roundNearestEven_le _ _ _ hden hq (Binary64.isBinary64_mul_one k hk)
    exact Nat.mul_le_mul_left _ (by omega)
  · intro hk0
    apply Binary64.le_roundNearestEven _ _ _ hden hq ⟨2 ^ 52, 0, by norm_num, by simp⟩
    have h1 : 2 ^ 52 * (125 * Binary64.one) = 2 ^ 52 * 125 * Binary64.one := by ring
    have h2 : 2 ^ 52 * 125 * Binary64.one ≤ Binary64.one * Binary64.one :=
      Nat.mul_le_mul_right _ hUl
    have h3 : Binary64.one * Binary64.one ≤ k * Binary64.one * Binary64.one :=
      Nat.mul_le_mul_right _ (Nat.le_mul_of_pos_left _ hk0)
    omega
  · intro hk0
    have hbig : 2 ^ 52 * (125 * Binary64.one) ≤ k * Binary64.one * Binary64.one := by
      have h1 : 2 ^ 52 * (125 * Binary64.one) = 2 ^ 52 * 125 * Binary64.one := by ring
      have h2 : 2 ^ 52 * 125 * Binary64.one ≤ Binary64.one * Binary64.one :=
        Nat.mul_le_mul_right _ hUl
      have h3 : Binary64.one * Binary64.one ≤ k * Binary64.one * Binary64.one :=
        Nat.mul_le_mul_right _ (Nat.le_mul_of_pos_left _ hk0)
      omega
    have hrel := Binary64.roundNearestEven_relative _ _ hden hq hbig
    have h4 : (2 ^ 53 - 1) * (k * Binary64.one * Binary64.one)
        = (2 ^ 53 - 1) * (k * Binary64.one) * Binary64.one := by ring
    have h5 : 2 ^ 53 * (Binary64.roundNearestEven (k * Binary64.one * Binary64.one)
          (125 * Binary64.one) * (125 * Binary64.one))
        = 2 ^ 53 * (Binary64.roundNearestEven (k * Binary64.one * Binary64.one)
          (125 * Binary64.one) * 125) * Binary64.one := by ring
    rw [h4, h5] at hrel
    exact Nat.le_of_mul_le_mul_right hrel hU

theorem floor_natCast_mul_one (k : Nat) :
    Binary64.floor ((k * Binary64.one : Nat) : Int) = (k : Int) := by
  unfold Binary64.floor
  have hU : ((Binary64.one : Nat) : Int) ≠ 0 := by
    have := Binary64.one_pos
    omega
  rw [Nat.cast_mul]
  exact Int.mul_ediv_cancel _ hU

/-- What holds after `n` ticks towards a positive safe target `k`: `current`
is a binary64 number from 0 to `k`, below `k` while the interval is live after
a tick, and then at least `n (1 - 2^-53)^n` increments; a cleared interval has
shown `k` last; every shown value is a non-negative integer not above
`current`, and no shown value is below an earlier one. -/
theorem ticks_positive (k : Nat) (hk0 : 0 < k) (hk : k < 2 ^ 53) (n : Nat) :
    ∃ a : Nat, (StatsAnimator.ticks (k : Int) n).current = (a : Int)
      ∧ Binary64.IsBinary64 a
      ∧ a ≤ k * Binary64.one
      ∧ (1 ≤ n → (StatsAnimator.ticks (k : Int) n).running = true → a < k * Binary64.one)
      ∧ ((StatsAnimator.ticks (k : Int) n).running = true →
          (n : ℚ) * (1 - 1 / 2 ^ 53) ^ n
              * (Binary64.roundNearestEven (k * Binary64.one * Binary64.one)
                  (125 * Binary64.one) : ℚ)
            ≤ (a : ℚ))
      ∧ ((StatsAnimator.ticks (k : Int) n).running = false →
          (StatsAnimator.ticks (k : Int) n).shown.head? = some (k : Int))
      ∧ (∀ v ∈ (StatsAnimator.ticks (k : Int) n).shown,
          0 ≤ v ∧ v * (Binary64.one : Int) ≤ (a : Int))
      ∧ (StatsAnimator.ticks (k : Int) n).shown.Pairwise (fun x y => y ≤ x) := by
  have hU := Binary64.one_pos
  have hUi : (0 : Int) < (Binary64.one : Int) := by exact_mod_cast hU
  obtain ⟨hI1, hI2, hI3, -⟩ := increment_facts k hk
  have hI3 := hI3 hk0
  have hkU := Binary64.mul_one_lt k hk
  induction n with
  | zero =>
    refine ⟨0, rfl, ⟨0, 0, by norm_num, by simp⟩, Nat.zero_le _, ?_, ?_, ?_, ?_, ?_⟩
    · intro h; omega
    · intro _; simp
    · intro h
      simp [StatsAnimator.ticks, StatsAnimator.animateNumber] at h
    · intro v hv
      simp [StatsAnimator.ticks, StatsAnimator.animateNumber] at hv
    · simp [StatsAnimator.ticks, StatsAnimator.animateNumber]
  | succ n ih =>
    obtain ⟨a, ha, hbin, hle, hlt, hlow, hhead, hshown, hpair⟩ := ih
    have hstep : StatsAnimator.ticks (k : Int) (n + 1)
        = StatsAnimator.tick (k : Int) (StatsAnimator.ticks (k : Int) n) := rfl
    rw [hstep]
    cases hrun : (StatsAnimator.ticks (k : Int) n).running with
    | false =>
      rw [tick_of_stopped _ _ hrun]
      refine ⟨a, ha, hbin, hle, ?_, ?_, hhead, hshown, hpair⟩
      · intro _ h
        rw [hrun] at h
        exact absurd h (by simp)
      · intro h
        rw [hrun] at h
        exact absurd h (by simp)
    | true =>
      have hq : (a + Binary64.roundNearestEven (k * Binary64.one * Binary64.one)
          (125 * Binary64.one)) / 1 < 2 ^ 4096 := by
        rw [Nat.div_one]
        omega
      have hbin2 := Binary64.roundNearestEven_isBinary64 _ 1 (by norm_num) hq
      have hmono := Binary64.le_roundNearestEven _ 1 a (by norm_num) hq hbin (by omega)
      have hrel := Binary64.roundNearestEven_relative _ 1 (by norm_num) hq (by omega)
      have hadd : Binary64.add (StatsAnimator.ticks (k : Int) n).current
            (StatsAnimator.increment (k : Int))
          = ((Binary64.roundNearestEven
              (a + Binary64.roundNearestEven (k * Binary64.one * Binary64.one)
                (125 * Binary64.one)) 1 : Nat) : Int) := by
        rw [ha, increment_natCast k hk, Binary64.add_natCast]
      generalize Binary64.roundNearestEven
        (a + Binary64.roundNearestEven (k * Binary64.one * Binary64.one)
          (125 * Binary64.one)) 1 = a' at hbin2 hmono hrel hadd
      generalize Binary64.roundNearestEven (k * Binary64.one * Binary64.one)
        (125 * Binary64.one) = inc at hI1 hI2 hI3 hlow hrel
      have hold : ∀ v ∈ (StatsAnimator.ticks (k : Int) n).shown,
          0 ≤ v ∧ v * (Binary64.one : Int) ≤ (a' : Int) := by
        intro v hv
        refine ⟨(hshown v hv).1, le_trans (hshown v hv).2 ?_⟩
        exact_mod_cast hmono
      by_cases hge : k * Binary64.one ≤ a'
      · have htick : StatsAnimator.tick (k : Int) (StatsAnimator.ticks (k : Int) n)
            = { current := ((k * Binary64.one : Nat) : Int)
                running := false
                shown := (k : Int) :: (StatsAnimator.ticks (k : Int) n).shown
                counting := false
                completed := true } := by
          have hge2 : ((a' : Nat) : Int) ≥ ((k * Binary64.one : Nat) : Int) := by
            exact_mod_cast hge
          simp only [StatsAnimator.tick, hrun, Bool.not_true, Bool.false_eq_true, if_false,
            hadd, Binary64.ofInt_natCast k hk, hge2, if_true, floor_natCast_mul_one]
        rw [htick]
        refine ⟨k * Binary64.one, rfl, Binary64.isBinary64_mul_one k hk, le_refl _, ?_, ?_, ?_,
          ?_, ?_⟩
        · intro _ h
          exact absurd h (by simp)
        · intro h
          exact absurd h (by simp)
        · intro _
          rfl
        · intro v hv
          simp only [List.mem_cons] at hv
          rcases hv with hv | hv
          · subst hv
            refine ⟨by omega, ?_⟩
            push_cast
            exact le_refl _
          · refine ⟨(hshown v hv).1, le_trans (hshown v hv).2 ?_⟩
            exact_mod_cast hle
        · refine List.Pairwise.cons ?_ hpair
          intro b hb
          have h1 : b * (Binary64.one : Int) ≤ ((k * Binary64.one : Nat) : Int) :=
            le_trans (hshown b hb).2 (by exact_mod_cast hle)
          rw [Nat.cast_mul] at h1
          exact le_of_mul_le_mul_right h1 hUi
      · have hlt2 : a' < k * Binary64.one := not_le.mp hge
        have htick : StatsAnimator.tick (k : Int) (StatsAnimator.ticks (k : Int) n)
            = { StatsAnimator.ticks (k : Int) n with
                current := (a' : Int)
                shown := Binary64.floor (a' : Int) :: (StatsAnimator.ticks (k : Int) n).shown } := by
          have hge2 : ¬ ((a' : Nat) : Int) ≥ ((k * Binary64.one : Nat) : Int) := by
            intro h
            exact hge (by exact_mod_cast h)
          simp only [StatsAnimator.tick, hrun, Bool.not_true, Bool.false_eq_true, if_false,
            hadd, Binary64.ofInt_natCast k hk, hge2]
        rw [htick]
        have hfloor0 : 0 ≤ Binary64.floor (a' : Int) :=
          Int.ediv_nonneg (by omega) (le_of_lt hUi)
        have hfloor1 : Binary64.floor (a' : Int) * (Binary64.one : Int) ≤ (a' : Int) :=
          Int.ediv_mul_le _ (ne_of_gt hUi)
        refine ⟨a', rfl, hbin2, le_of_lt hlt2, ?_, ?_, ?_, ?_, ?_⟩
        · intro _ _
          exact hlt2
        · intro _
          have hlow2 := hlow hrun
          have hrelq : ((2 : ℚ) ^ 53 - 1) * ((a : ℚ) + (inc : ℚ)) ≤ 2 ^ 53 * (a' : ℚ) := by
            have h1 : (2 ^ 53 - 1) * (a + inc) ≤ 2 ^ 53 * a' := by
              rw [Nat.mul_one] at hrel
              exact hrel
            have h2 : ((2 ^ 53 - 1 : Nat) : ℚ) = (2 : ℚ) ^ 53 - 1 := by norm_num
            rw [← h2]
            exact_mod_cast h1
          have hr0 : (0 : ℚ) ≤ 1 - 1 / 2 ^ 53 := by norm_num
          have hr1 : (1 - 1 / 2 ^ 53 : ℚ) ≤ 1 := by norm_num
          have hpow1 : (1 - 1 / 2 ^ 53 : ℚ) ^ n ≤ 1 := pow_le_one₀ hr0 hr1
          have hinc0 : (0 : ℚ) ≤ (inc : ℚ) := Nat.cast_nonneg _
          have hstep2 : (1 - 1 / 2 ^ 53 : ℚ) * ((a : ℚ) + (inc : ℚ)) ≤ (a' : ℚ) := by
            have h3 : (1 - 1 / 2 ^ 53 : ℚ) * ((a : ℚ) + (inc : ℚ))
                = (((2 : ℚ) ^ 53 - 1) * ((a : ℚ) + (inc : ℚ))) / 2 ^ 53 := by
              field_simp
            rw [h3, div_le_iff₀ (by positivity)]
            linarith
          have h4 : ((n + 1 : Nat) : ℚ) * (1 - 1 / 2 ^ 53) ^ (n + 1) * (inc : ℚ)
              ≤ (1 - 1 / 2 ^ 53 : ℚ) * ((a : ℚ) + (inc : ℚ)) := by
            have h5 : (1 - 1 / 2 ^ 53 : ℚ) ^ n * (inc : ℚ) ≤ (inc : ℚ) := by
              calc (1 - 1 / 2 ^ 53 : ℚ) ^ n * (inc : ℚ) ≤ 1 * (inc : ℚ) :=
                    mul_le_mul_of_nonneg_right hpow1 hinc0
                _ = (inc : ℚ) := one_mul _
            have h6 : ((n + 1 : Nat) : ℚ) * (1 - 1 / 2 ^ 53) ^ (n + 1) * (inc : ℚ)
                = (1 - 1 / 2 ^ 53 : ℚ)
                  * ((n : ℚ) * (1 - 1 / 2 ^ 53) ^ n * (inc : ℚ)
                    + (1 - 1 / 2 ^ 53 : ℚ) ^ n * (inc : ℚ)) := by
              push_cast
              ring
            rw [h6]
            exact mul_le_mul_of_nonneg_left (by linarith) hr0
          exact le_trans h4 hstep2
        · intro h
          rw [hrun] at h
          exact absurd h (by simp)
        · intro v hv
          simp only [List.mem_cons] at hv
          rcases hv with hv | hv
          · subst hv
            exact ⟨hfloor0, hfloor1⟩
          · exact hold v hv
        · refine List.Pairwise.cons ?_ hpair
          intro b hb
          exact Int.le_ediv_of_mul_le hUi (hold b hb).2

/-- With a safe target that is not positive the first tick already stops. -/
theorem ticks_nonpositive (k : Nat) (hk : k < 2 ^ 53) :
    ∀ n, (StatsAnimator.ticks (-(k : Int)) (n + 1)).running = false
      ∧ (StatsAnimator.ticks (-(k : Int)) (n + 1)).shown = [-(k : Int)]
      ∧ (StatsAnimator.ticks (-(k : Int)) (n + 1)).current
          = -((k * Binary64.one : Nat) : Int) := by
  have hU := Binary64.one_pos
  have hUi : ((Binary64.one : Nat) : Int) ≠ 0 := by omega
  obtain ⟨-, hI2, -, -⟩ := increment_facts k hk
  have hkU := Binary64.mul_one_lt k hk
  have hfirst : (StatsAnimator.ticks (-(k : Int)) 1).running = false
      ∧ (StatsAnimator.ticks (-(k : Int)) 1).shown = [-(k : Int)]
      ∧ (StatsAnimator.ticks (-(k : Int)) 1).current = -((k * Binary64.one : Nat) : Int) := by
    have hq : Binary64.roundNearestEven (k * Binary64.one * Binary64.one) (125 * Binary64.one) / 1
        < 2 ^ 4096 := by
      rw [Nat.div_one]
      omega
    have hle := Binary64.roundNearestEven_le _ 1 (k * Binary64.one) (by norm_num) hq
      (Binary64.isBinary64_mul_one k hk) (by omega)
    have hadd : Binary64.add 0 (StatsAnimator.increment (-(k : Int)))
        = -((Binary64.roundNearestEven
            (Binary64.roundNearestEven (k * Binary64.one * Binary64.one) (125 * Binary64.one))
            1 : Nat) : Int) := by
      rw [increment_neg_natCast k hk]
      unfold Binary64.add
      rw [zero_add, Binary64.round_neg_natCast _ _ (by norm_num)]
    generalize Binary64.roundNearestEven
      (Binary64.roundNearestEven (k * Binary64.one * Binary64.one) (125 * Binary64.one)) 1
      = a' at hle hadd
    have hge : -((a' : Nat) : Int) ≥ -((k * Binary64.one : Nat) : Int) := by
      have : ((a' : Nat) : Int) ≤ ((k * Binary64.one : Nat) : Int) := by exact_mod_cast hle
      omega
    have hfloor : Binary64.floor (-((k * Binary64.one : Nat) : Int)) = -(k : Int) := by
      unfold Binary64.floor
      rw [Nat.cast_mul, ← neg_mul]
      exact Int.mul_ediv_cancel _ hUi
    have htick : StatsAnimator.ticks (-(k : Int)) 1
        = { current := -((k * Binary64.one : Nat) : Int)
            running := false
            shown := [-(k : Int)]
            counting := false
            completed := true } := by
      show StatsAnimator.tick (-(k : Int)) StatsAnimator.animateNumber = _
      simp only [StatsAnimator.tick, StatsAnimator.animateNumber, Bool.not_true,
        Bool.false_eq_true, if_false, hadd, Binary64.ofInt_neg_natCast k hk, hge, if_true,
        hfloor]
    rw [htick]
    exact ⟨rfl, rfl, rfl⟩
  intro n
  have h := ticks_stopped_later (-(k : Int)) 1 hfirst.1 n
  rw [Nat.add_comm 1 n] at h
  rw [h]
  exact hfirst

/-- Towards a positive safe target the interval is cleared by tick 126. -/
theorem ticks_positive_stops (k : Nat) (hk0 : 0 < k) (hk : k < 2 ^ 53) (n : Nat)
    (hn : 126 ≤ n) : (StatsAnimator.ticks (k : Int) n).running = false := by
  cases hrun : (StatsAnimator.ticks (k : Int) n).running with
  | false => rfl
  | true =>
    exfalso
    have hrun126 : (StatsAnimator.ticks (k : Int) 126).running = true := by
      cases h126 : (StatsAnimator.ticks (k : Int) 126).running with
      | true => rfl
      | false =>
        have h := ticks_stopped_later (k : Int) 126 h126 (n - 126)
        rw [Nat.add_sub_cancel' hn] at h
        rw [h, h126] at hrun
        exact absurd hrun (by simp)
    obtain ⟨a, -, -, -, hlt, hlow, -, -, -⟩ := ticks_positive k hk0 hk 126
    have hlt := hlt (by norm_num) hrun126
    have hlow := hlow hrun126
    obtain ⟨-, -, -, hrel⟩ := increment_facts k hk
    have hrel := hrel hk0
    have hU := Binary64.one_pos
    generalize Binary64.roundNearestEven (k * Binary64.one * Binary64.one)
      (125 * Binary64.one) = inc at hlow hrel
    have hx0 : (0 : ℚ) < ((k * Binary64.one : Nat) : ℚ) := by
      have : 0 < k * Binary64.one := Nat.mul_pos hk0 hU
      exact_mod_cast this
    have hltq : (a : ℚ) < ((k * Binary64.one : Nat) : ℚ) := by exact_mod_cast hlt
    have hrelq : (1 - 1 / 2 ^ 53 : ℚ) * ((k * Binary64.one : Nat) : ℚ) ≤ 125 * (inc : ℚ) := by
      have h2 : ((2 ^ 53 - 1 : Nat) : ℚ) = (2 : ℚ) ^ 53 - 1 := by norm_num
      have h3 : ((2 : ℚ) ^ 53 - 1) * ((k * Binary64.one : Nat) : ℚ)
          ≤ 2 ^ 53 * ((inc : ℚ) * 125) := by
        rw [← h2]
        exact_mod_cast hrel
      have h4 : (1 - 1 / 2 ^ 53 : ℚ) * ((k * Binary64.one : Nat) : ℚ)
          = (((2 : ℚ) ^ 53 - 1) * ((k * Binary64.one : Nat) : ℚ)) / 2 ^ 53 := by
        field_simp
      rw [h4, div_le_iff₀ (by positivity)]
      linarith
    have hbern : (1 : ℚ) - 127 / 2 ^ 53 ≤ (1 - 1 / 2 ^ 53 : ℚ) ^ 127 := by
      have h := one_add_mul_le_pow (show (-2 : ℚ) ≤ -(1 / 2 ^ 53) by norm_num) 127
      have h5 : (1 : ℚ) + ((127 : Nat) : ℚ) * -(1 / 2 ^ 53) = 1 - 127 / 2 ^ 53 := by
        push_cast
        ring
      have h6 : (1 : ℚ) + -(1 / 2 ^ 53) = 1 - 1 / 2 ^ 53 := by ring
      rw [h5, h6] at h
      exact h
    have hr0 : (0 : ℚ) ≤ 1 - 1 / 2 ^ 53 := by norm_num
    have hlow2 : (126 : ℚ) * (1 - 1 / 2 ^ 53) ^ 126 * (inc : ℚ) ≤ (a : ℚ) := by
      exact_mod_cast hlow
    generalize ((k * Binary64.one : Nat) : ℚ) = x at hx0 hltq hrelq
    generalize (inc : ℚ) = i at hrelq hlow2
    generalize (a : ℚ) = b at hltq hlow2
    have hsplit : (1 - 1 / 2 ^ 53 : ℚ) ^ 127
        = (1 - 1 / 2 ^ 53 : ℚ) ^ 126 * (1 - 1 / 2 ^ 53 : ℚ) := pow_succ _ 126
    rw [hsplit] at hbern
    have hp0 : (0 : ℚ) ≤ (1 - 1 / 2 ^ 53 : ℚ) ^ 126 := pow_nonneg hr0 126
    generalize (1 - 1 / 2 ^ 53 : ℚ) ^ 126 = p at hbern hp0 hlow2
    generalize (1 - 1 / 2 ^ 53 : ℚ) = r at hbern hr0 hrelq
    have h7 : p * (r * x) ≤ p * (125 * i) := mul_le_mul_of_nonneg_left hrelq hp0
    have h8 : (1 - 127 / 2 ^ 53 : ℚ) * x ≤ p * r * x :=
      mul_le_mul_of_nonneg_right hbern (le_of_lt hx0)
    have e1 : (126 : ℚ) * (p * (125 * i)) = 125 * (126 * p * i) := by ring
    have e2 : p * r * x = p * (r * x) := by ring
    have h9 : (126 : ℚ) * (p * (125 * i)) < 125 * x := by
      rw [e1]
      linarith
    have h10 : (126 : ℚ) * ((1 - 127 / 2 ^ 53 : ℚ) * x) < 125 * x := by
      rw [e2] at h8
      linarith
    have h11 : (126 : ℚ) * ((1 - 127 / 2 ^ 53 : ℚ) * x) - 125 * x
        = (126 * (1 - 127 / 2 ^ 53) - 125) * x := by ring
    have h12 : (0 : ℚ) < 126 * (1 - 127 / 2 ^ 53) - 125 := by norm_num
    have h13 := mul_pos h12 hx0
    linarith

/-- In magnitude the increment does not exceed a safe target. -/
theorem increment_bound (t : Int) (hsafe : -(2 ^ 53) < t ∧ t < 2 ^ 53) :
    (StatsAnimator.increment t).natAbs ≤ t.natAbs * Binary64.one := by
  by_cases ht : 0 ≤ t
  · obtain ⟨k, hk⟩ : ∃ k : Nat, t = (k : Int) := ⟨t.natAbs, by omega⟩
    subst hk
    have hk1 : k < 2 ^ 53 := by omega
    rw [increment_natCast k hk1, Int.natAbs_ofNat, Int.natAbs_ofNat]
    exact (increment_facts k hk1).2.1
  · obtain ⟨k, hk⟩ : ∃ k : Nat, t = -(k : Int) := ⟨t.natAbs, by omega⟩
    subst hk
    have hk1 : k < 2 ^ 53 := by omega
    rw [increment_neg_natCast k hk1, Int.natAbs_neg, Int.natAbs_neg, Int.natAbs_ofNat,
      Int.natAbs_ofNat]
    exact (increment_facts k hk1).2.1

/-- In magnitude `current` never exceeds a safe target. -/
theorem current_bound (t : Int) (hsafe : -(2 ^ 53) < t ∧ t < 2 ^ 53) (n : Nat) :
    (StatsAnimator.ticks t n).current.natAbs ≤ t.natAbs * Binary64.one := by
  by_cases ht : 0 < t
  · obtain ⟨k, hk⟩ : ∃ k : Nat, t = (k : Int) := ⟨t.natAbs, by omega⟩
    subst hk
    obtain ⟨a, ha, -, hle, -⟩ := ticks_positive k (by omega) (by omega) n
    rw [ha, Int.natAbs_ofNat, Int.natAbs_ofNat]
    exact hle
  · obtain ⟨k, hk⟩ : ∃ k : Nat, t = -(k : Int) := ⟨t.natAbs, by omega⟩
    subst hk
    cases n with
    | zero =>
      show (0 : Int).natAbs ≤ _
      simp
    | succ m =>
      rw [(ticks_nonpositive k (by omega) m).2.2, Int.natAbs_neg, Int.natAbs_neg,
        Int.natAbs_ofNat, Int.natAbs_ofNat]

/-- C29 (amended): for a target `t` that is a safe integer (a missing or
non-numeric attribute gives 0), with the increment `t / 125` and the running
sum in binary64: a target `t ≤ 0` stops the timer at the first tick with `t`
displayed; a positive target has its timer stopped after at most 126 ticks
with `t` displayed last; for `t ≥ 0` every displayed value is an integer from
0 to `t` and no displayed value is below an earlier one. In magnitude neither
the increment nor any value of `current` exceeds the target. -/
theorem stat_counter_stops_within_126_ticks (t : Int) (hsafe : -(2 ^ 53) < t ∧ t < 2 ^ 53) :
    StatsAnimator.target none = 0
    ∧ (t ≤ 0 → ∀ n, 1 ≤ n →
        (StatsAnimator.ticks t n).running = false ∧ (StatsAnimator.ticks t n).shown = [t])
    ∧ (0 < t → ∀ n, 126 ≤ n →
        (StatsAnimator.ticks t n).running = false
          ∧ (StatsAnimator.ticks t n).shown.head? = some t)
    ∧ (0 ≤ t → ∀ n,
        (∀ v ∈ (StatsAnimator.ticks t n).shown, 0 ≤ v ∧ v ≤ t)
          ∧ (StatsAnimator.ticks t n).shown.Pairwise (fun a b => b ≤ a))
    ∧ (StatsAnimator.increment t).natAbs ≤ t.natAbs * Binary64.one
    ∧ (∀ n, (StatsAnimator.ticks t n).current.natAbs ≤ t.natAbs * Binary64.one) := by
  have hU := Binary64.one_pos
  have hUi : (0 : Int) < (Binary64.one : Int) := by exact_mod_cast hU
  refine ⟨rfl, ?_, ?_, ?_, increment_bound t hsafe, current_bound t hsafe⟩
  · intro ht n hn
    obtain ⟨k, hk⟩ : ∃ k : Nat, t = -(k : Int) := ⟨t.natAbs, by omega⟩
    subst hk
    obtain ⟨m, rfl⟩ : ∃ m, n = m + 1 := ⟨n - 1, by omega⟩
    exact ⟨(ticks_nonpositive k (by omega) m).1, (ticks_nonpositive k (by omega) m).2.1⟩
  · intro ht n hn
    obtain ⟨k, hk⟩ : ∃ k : Nat, t = (k : Int) := ⟨t.natAbs, by omega⟩
    subst hk
    have hk0 : 0 < k := by omega
    have hk1 : k < 2 ^ 53 := by omega
    have hstop := ticks_positive_stops k hk0 hk1 n hn
    obtain ⟨a, -, -, -, -, -, hhead, -, -⟩ := ticks_positive k hk0 hk1 n
    exact ⟨hstop, hhead hstop⟩
  · intro ht n
    obtain ⟨k, hk⟩ : ∃ k : Nat, t = (k : Int) := ⟨t.natAbs, by omega⟩
    subst hk
    have hk1 : k < 2 ^ 53 := by omega
    by_cases hk0 : 0 < k
    · obtain ⟨a, -, -, hle, -, -, -, hshown, hpair⟩ := ticks_positive k hk0 hk1 n
      refine ⟨?_, hpair⟩
      intro v hv
      refine ⟨(hshown v hv).1, ?_⟩
      have h1 : v * (Binary64.one : Int) ≤ ((k * Binary64.one : Nat) : Int) :=
        le_trans (hshown v hv).2 (by exact_mod_cast hle)
      rw [Nat.cast_mul] at h1
      exact le_of_mul_le_mul_right h1 hUi
    · have hz : k = 0 := by omega
      subst hz
      cases n with
      | zero =>
        simp [StatsAnimator.ticks, StatsAnimator.animateNumber]
      | succ m =>
        have h := ticks_nonpositive 0 (by norm_num) m
        simp only [Nat.cast_zero, neg_zero] at h
        simp only [Nat.cast_zero]
        rw [h.2.1]
        simp

/-- Witness for C29: a target of 250 is stopped by tick 126 showing 250, and
a target of 0 stops at the first tick. -/
theorem stat_counter_stops_within_126_ticks_witness :
    (StatsAnimator.ticks 250 126).running = false
    ∧ (StatsAnimator.ticks 250 126).shown.head? = some 250
    ∧ (StatsAnimator.ticks 0 1).shown = [0] :=
  ⟨(((stat_counter_stops_within_126_ticks 250 (by decide)).2.2.1 (by decide)) 126
      (by decide)).1,
    (((stat_counter_stops_within_126_ticks 250 (by decide)).2.2.1 (by decide)) 126
      (by decide)).2,
    ((stat_counter_stops_within_126_ticks 0 (by decide)).2.1 (by decide) 1 (by decide)).2⟩

set_option maxRecDepth 100000
set_option exponentiation.threshold 5000

/-- C29 (as stated, refuted): with the target 25 the increment is the binary64
number nearest to 0.2, and after 125 additions the sum is still below 25: the
timer is running after tick 125 with 24 displayed, and tick 126 stops it with
25 displayed. And the integer `2^53 + 1` is not a Number: with it as the
target the timer stops with `2^53` displayed. -/
theorem stat_counter_runs_at_tick_125 :
    (StatsAnimator.ticks 25 125).running = true
    ∧ (StatsAnimator.ticks 25 125).shown.head? = some 24
    ∧ (StatsAnimator.ticks 25 126).running = false
    ∧ (StatsAnimator.ticks 25 126).shown.head? = some 25
    ∧ (StatsAnimator.ticks (2 ^ 53 + 1) 126).running = false
    ∧ (StatsAnimator.ticks (2 ^ 53 + 1) 126).shown.head? = some (2 ^ 53) := by
  decide


end KRC
